import Mathlib

/-!
Verification development for the GlazeWM container-tree command engine and
the builtin process manager.  Definitions are shallow embeddings of the
Rust sources under `packages/wm` and `packages/wm-builtin`; parts of the
tree model that live outside the provided sources are modelled from the
design document and marked as such in their doc comments.
-/

namespace GlazeWM

/-! ## Geometry -/

/-- A rectangle in screen coordinates, given by its edges. -/
structure Rect where
  left : Int
  top : Int
  right : Int
  bottom : Int
deriving Repr, DecidableEq

def Rect.width (r : Rect) : Int := r.right - r.left

def Rect.height (r : Rect) : Int := r.bottom - r.top

/-- Modelled from the spec: `Rect::translate_to_center` (from the shared
geometry crate, not included in the provided sources).  Translates the
rectangle so that it is centered within `other`, keeping its size. -/
def Rect.translate_to_center (self other : Rect) : Rect :=
  let cx : Int := other.left + other.width / 2
  let cy : Int := other.top + other.height / 2
  let nl : Int := cx - self.width / 2
  let nt : Int := cy - self.height / 2
  { left := nl, top := nt, right := nl + self.width, bottom := nt + self.height }

/-! ## Process manager (`packages/wm-builtin`) -/

/-- The closed set of builtin programs (`embedded.rs`). -/
inductive BuiltinProgram where
  | Zebar
deriving Repr, DecidableEq, Hashable

/-- Character-wise lowercase of a string, embedding `str::to_lowercase`
(identical on ASCII program names). -/
def lowerString (s : String) : String := String.mk (s.data.map Char.toLower)

/-- `BuiltinProgram::from_str`: case-insensitive name lookup; the only
recognized name is "zebar". -/
def BuiltinProgram.from_str (s : String) : Option BuiltinProgram :=
  if lowerString s = "zebar" then some .Zebar else none

/-- Outcome of `Child::try_wait` for a tracked child process: still
running, exited, or the status query failed. -/
inductive ChildStatus where
  | running
  | exited
  | statusError
deriving Repr, DecidableEq

/-- A tracked child process (`ChildProcess` in `process_manager.rs`); the
pid stands in for the OS child handle. -/
structure ChildProcess where
  pid : Nat
  status : ChildStatus
deriving Repr, DecidableEq

/-- `ProcessManager`: registry of running builtin processes keyed by
program.  The `HashMap` is embedded as an association list with at most
one entry per program. -/
structure ProcessManager where
  processes : List (BuiltinProgram × ChildProcess)
deriving Repr, DecidableEq

namespace ProcessManager

/-- `ProcessManager::new`. -/
def new : ProcessManager := { processes := [] }

/-- Registry lookup (`HashMap::get`). -/
def lookup (m : ProcessManager) (p : BuiltinProgram) : Option ChildProcess :=
  (m.processes.find? (fun e => e.1 = p)).map (·.2)

/-- Registry removal (`HashMap::remove`). -/
def removeEntry (m : ProcessManager) (p : BuiltinProgram) : ProcessManager :=
  { processes := m.processes.filter (fun e => ¬ e.1 = p) }

/-- Registry insertion (`HashMap::insert`). -/
def insertEntry (m : ProcessManager) (p : BuiltinProgram) (c : ChildProcess) :
    ProcessManager :=
  { processes := (p, c) :: (m.removeEntry p).processes }

/-- `ProcessManager::is_running`: true iff the registry holds a child for
`p` whose `try_wait` reports it still running.  Side effect: an entry
whose child exited, or whose status query failed, is removed from the
registry before returning false. -/
def is_running (m : ProcessManager) (p : BuiltinProgram) :
    Bool × ProcessManager :=
  match m.lookup p with
  | none => (false, m)
  | some proc =>
    match proc.status with
    | .running => (true, m)
    | .exited => (false, m.removeEntry p)
    | .statusError => (false, m.removeEntry p)

/-- `ProcessManager::start`.  The environment is abstracted by `avail`
(whether the embedded binary is available, i.e. `extract_builtin`
succeeds) and `newPid` (the pid the OS would assign to a fresh spawn).
The registry is returned in every case, mirroring the `&mut self`
receiver: the stale-entry cleanup performed by the `is_running` check
persists even when extraction then fails. -/
def start (m : ProcessManager) (p : BuiltinProgram) (avail : Bool)
    (newPid : Nat) : Except String Unit × ProcessManager :=
  let checked := m.is_running p
  if checked.1 then (.ok (), checked.2)
  else if avail then
    (.ok (), checked.2.insertEntry p { pid := newPid, status := .running })
  else (.error "Builtin program is not available.", checked.2)

/-- `ProcessManager::stop`.  Returns the updated registry together with
whether a termination action (kill/wait) was performed; the Rust function
always returns `Ok`. -/
def stop (m : ProcessManager) (p : BuiltinProgram) : ProcessManager × Bool :=
  match m.lookup p with
  | none => (m, false)
  | some _ => (m.removeEntry p, true)

end ProcessManager

/-! ## Container tree model

The tree node types follow the design document data model: Root owns
Monitors, a Monitor owns Workspaces, a Workspace owns Windows.  The parts
of the tree engine whose sources are not provided (`activate_workspace`,
`deactivate_workspace`, `sort_workspaces`, `move_container_within_tree`,
the container query traits) are modelled from the spec and say so in
their doc comments; the two command files `add_monitor.rs` and
`move_workspace_to_monitor.rs` are translated from their sources. -/

/-- Window variants, a closed tagged set. -/
inductive WindowKind where
  | Tiling
  | Floating
  | Fullscreen
  | Minimized
deriving Repr, DecidableEq

/-- A managed native window.  Every window, whatever its variant, carries
a `floating_placement` rectangle and a pending-DPI-adjustment flag. -/
structure Window where
  id : Nat
  kind : WindowKind
  floating_placement : Rect
  has_pending_dpi_adjustment : Bool
deriving Repr, DecidableEq

/-- Per-workspace user configuration (`WorkspaceConfig`). -/
structure WorkspaceConfig where
  name : String
  keep_alive : Bool
  bind_to_monitor : Option Nat
deriving Repr, DecidableEq

/-- A virtual desktop attached to one monitor.  `displayed` is the
displayed flag: at most one workspace per monitor is displayed. -/
structure Workspace where
  id : Nat
  config : WorkspaceConfig
  displayed : Bool
  children : List Window
deriving Repr, DecidableEq

namespace Workspace

/-- `CommonGetters::has_children`. -/
def has_children (w : Workspace) : Bool := ¬ w.children.isEmpty

/-- `Workspace::is_displayed`. -/
def is_displayed (w : Workspace) : Bool := w.displayed

/-- The `deactivate_workspace` eligibility test used in
`move_workspace_to_monitor.rs` lines 94-98: non-keep-alive, childless and
not displayed. -/
def destroyable (w : Workspace) : Bool :=
  ¬ w.config.keep_alive ∧ ¬ w.has_children ∧ ¬ w.is_displayed

end Workspace

/-- One physical display working area with its child workspaces. -/
structure Monitor where
  id : Nat
  rect : Rect
  children : List Workspace
deriving Repr, DecidableEq

namespace Monitor

/-- `CommonGetters::child_count`. -/
def child_count (m : Monitor) : Nat := m.children.length

/-- `Monitor::workspaces`: the child workspaces in child order. -/
def workspaces (m : Monitor) : List Workspace := m.children

/-- Modelled from the spec: `displayed_workspace()` returns the single
workspace on the monitor with the displayed flag set, or none. -/
def displayed_workspace (m : Monitor) : Option Workspace :=
  m.children.find? (·.displayed)

end Monitor

/-- A platform-reported monitor descriptor; `working_area` excludes
reserved OS chrome. -/
structure NativeMonitor where
  working_area : Rect
deriving Repr, DecidableEq

/-- Events broadcast by the command engine, carrying entity snapshots
(embedded here as the entity id taken at emission time). -/
inductive WmEvent where
  | MonitorAdded (monitorId : Nat)
  | WorkspaceActivated (workspaceId : Nat)
  | WorkspaceDeactivated (workspaceId : Nat)
  | WorkspaceUpdated (workspaceId : Nat)
deriving Repr, DecidableEq

/-- A deferred side effect in the pending-sync queue. -/
inductive PendingEffect where
  | cursorJump
  | redraw (containerId : Nat)
deriving Repr, DecidableEq

/-- Per-user configuration consumed by the command engine. -/
structure UserConfig where
  workspaces : List WorkspaceConfig
deriving Repr, DecidableEq

/-- The single-writer mutable state threaded through every command:
the container tree (root monitor list), the pending-sync queue, the
emitted event stream, and the id source for freshly created nodes. -/
structure WmState where
  monitors : List Monitor
  pending_sync : List PendingEffect
  events : List WmEvent
  next_id : Nat
deriving Repr, DecidableEq

namespace WmState

/-- All workspaces in the tree, depth-first (monitor order, then child
order). -/
def allWorkspaces (s : WmState) : List Workspace :=
  (s.monitors.map Monitor.children).flatten

/-- Lookup of a monitor handle by id. -/
def monitor_by_id (s : WmState) (mid : Nat) : Option Monitor :=
  s.monitors.find? (·.id = mid)

/-- Modelled from the spec: the weak parent back-reference
`workspace.monitor()`, resolved as the monitor whose child list holds the
workspace. -/
def monitor_of (s : WmState) (wsId : Nat) : Option Monitor :=
  s.monitors.find? (fun m => m.children.any (·.id = wsId))

/-- Lookup of a workspace handle by id. -/
def workspace_by_id (s : WmState) (wsId : Nat) : Option Workspace :=
  (s.allWorkspaces).find? (·.id = wsId)

/-- `WmState::workspace_by_name`. -/
def workspace_by_name (s : WmState) (name : String) : Option Workspace :=
  (s.allWorkspaces).find? (·.config.name = name)

/-- Modelled from the spec: `to_rect()` on a workspace delegates to its
monitor working area. -/
def workspace_rect (s : WmState) (wsId : Nat) : Option Rect :=
  (s.monitor_of wsId).map Monitor.rect

/-- Rewrite one monitor (by id) through `f`; other monitors are
untouched. -/
def update_monitor (s : WmState) (mid : Nat) (f : Monitor → Monitor) :
    WmState :=
  { s with monitors := s.monitors.map (fun m => if m.id = mid then f m else m) }

/-- Rewrite one workspace (by id, wherever it is) through `f`. -/
def update_workspace (s : WmState) (wsId : Nat) (f : Workspace → Workspace) :
    WmState :=
  { s with monitors := s.monitors.map (fun m =>
      { m with children := m.children.map (fun w =>
          if w.id = wsId then f w else w) }) }

/-- `emit_event`: append to the process-wide event stream. -/
def emit (s : WmState) (e : WmEvent) : WmState :=
  { s with events := s.events ++ [e] }

/-- `PendingSync::queue_cursor_jump`, idempotent by identity. -/
def queue_cursor_jump (s : WmState) : WmState :=
  if s.pending_sync.contains PendingEffect.cursorJump then s
  else { s with pending_sync := s.pending_sync ++ [PendingEffect.cursorJump] }

/-- `PendingSync::queue_container_to_redraw`, idempotent by identity:
queuing the same container twice coalesces to one redraw. -/
def queue_redraw (s : WmState) (cid : Nat) : WmState :=
  if s.pending_sync.contains (PendingEffect.redraw cid) then s
  else { s with pending_sync := s.pending_sync ++ [PendingEffect.redraw cid] }

end WmState

/-! ## Tree operations -/

/-- Modelled from the spec: `move_container_within_tree` restricted to
relocating a Workspace subtree under a target Monitor, preserving node
state verbatim.  The commands always pass the target child count as the
insertion index, so the workspace ends at the append position; returns
none when the workspace or the target monitor is missing from the
tree. -/
def move_workspace_in_tree (wsId targetId : Nat) (s : WmState) :
    Option WmState :=
  match s.workspace_by_id wsId, s.monitor_by_id targetId with
  | some ws, some _ =>
    let removed : WmState := { s with monitors := s.monitors.map (fun m =>
        { m with children := m.children.filter (fun w => ¬ w.id = wsId) }) }
    some (removed.update_monitor targetId
      (fun m => { m with children := m.children ++ [ws] }))
  | _, _ => none

/-- Modelled from the spec: `activate_workspace` (source not provided).
With a name, the workspace is created from the configuration entry of
that name (with a default configuration when none matches); without a
name, the first configured workspace whose name is not already in use is
chosen (the deterministic choice among unused configurations abstracts
the bound-preference policy), failing when no configuration is
available.  The new workspace is appended to the target monitor, becomes
displayed when the monitor has no displayed workspace, a
`WorkspaceActivated` event is emitted and a redraw of the newly
displayed workspace is queued. -/
def activate_workspace (name : Option String) (targetId : Nat) (s : WmState)
    (config : UserConfig) : Except String Unit × WmState :=
  match s.monitor_by_id targetId with
  | none => (.error "Monitor not found.", s)
  | some m =>
    let chosen : Option WorkspaceConfig :=
      match name with
      | some n => some ((config.workspaces.find? (·.name = n)).getD
          { name := n, keep_alive := false, bind_to_monitor := none })
      | none => config.workspaces.find? (fun c =>
          ¬ (s.allWorkspaces.map (fun w => w.config.name)).contains c.name)
    match chosen with
    | none => (.error "No workspace config found for monitor.", s)
    | some wsConfig =>
      let newWs : Workspace :=
        { id := s.next_id, config := wsConfig,
          displayed := m.displayed_workspace.isNone, children := [] }
      let s1 : WmState := { s with next_id := s.next_id + 1 }
      let s2 := s1.update_monitor targetId
        (fun mo => { mo with children := mo.children ++ [newWs] })
      let s3 := s2.emit (.WorkspaceActivated newWs.id)
      (.ok (), s3.queue_redraw newWs.id)

/-- Modelled from the spec: `deactivate_workspace` (source not provided)
destroys the given workspace, detaching it from its monitor, and emits
`WorkspaceDeactivated`. -/
def deactivate_workspace (wsId : Nat) (s : WmState) : WmState :=
  let s1 : WmState := { s with monitors := s.monitors.map (fun m =>
      { m with children := m.children.filter (fun w => ¬ w.id = wsId) }) }
  s1.emit (.WorkspaceDeactivated wsId)

/-- Position of a workspace configuration in the configured workspace
list; unconfigured names sort last. -/
def workspaceSortKey (config : UserConfig) (w : Workspace) : Nat :=
  match config.workspaces.findIdx? (·.name = w.config.name) with
  | some i => i
  | none => config.workspaces.length

/-- Insertion step of the stable sort: a workspace is placed before the
first strictly larger key, after equal keys. -/
def insertSorted (key : Workspace → Nat) (w : Workspace) :
    List Workspace → List Workspace
  | [] => [w]
  | x :: xs =>
    if key w < key x then w :: x :: xs else x :: insertSorted key w xs

/-- Stable insertion sort by key. -/
def sortByKey (key : Workspace → Nat) (l : List Workspace) : List Workspace :=
  l.foldr (insertSorted key) []

/-- Modelled from the spec: `sort_workspaces` (source not provided)
reorders a monitor's workspace children in place by the configured total
order (configured position when present, stable insertion order among
equals); idempotent. -/
def sort_workspaces (mid : Nat) (config : UserConfig) (s : WmState) :
    WmState :=
  s.update_monitor mid (fun m =>
    { m with children := sortByKey (workspaceSortKey config) m.children })

/-! ## Commands (`move_workspace_to_monitor.rs`, `add_monitor.rs`) -/

/-- The window loop body of `move_workspace_to_monitor_impl` (lines
55-63): the window gets its pending-DPI flag set and its floating
placement translated to the center of `rect`.  Note the source applies
this to every window descendant produced by `as_window_container`,
whatever its variant. -/
def dpiAdjustWindow (rect : Rect) (w : Window) : Window :=
  { w with has_pending_dpi_adjustment := true,
           floating_placement := w.floating_placement.translate_to_center rect }

/-- `move_workspace_to_monitor_impl` (translated from
`move_workspace_to_monitor.rs` lines 36-111).  The source recomputes
`workspace.to_rect()` per loop iteration; after the relocation it is the
target monitor working area, constant over the loop, so it is computed
once here. -/
def move_workspace_to_monitor_impl (wsId targetId : Nat) (s : WmState)
    (config : UserConfig) : Except String Unit × WmState :=
  match s.monitor_of wsId with
  | none => (.error "No monitor.", s)
  | some origin =>
    match move_workspace_in_tree wsId targetId s with
    | none => (.error "Failed to move container.", s)
    | some s1 =>
      match s1.workspace_rect wsId with
      | none => (.error "Workspace has no monitor.", s1)
      | some rect =>
        let s2 := s1.update_workspace wsId (fun ws =>
            { ws with children := ws.children.map (dpiAdjustWindow rect) })
        match (s2.monitor_by_id targetId).bind Monitor.displayed_workspace with
        | none => (.error "No displayed workspace.", s2)
        | some disp =>
          let s3 := ((s2.queue_cursor_jump).queue_redraw wsId).queue_redraw
            disp.id
          let afterOrigin : Except String Unit × WmState :=
            match s3.monitor_by_id origin.id with
            | none => (.error "No monitor.", s3)
            | some originNow =>
              if originNow.child_count = 0 then
                activate_workspace none origin.id s3 config
              else
                match originNow.displayed_workspace with
                | none => (.error "No displayed workspace.", s3)
                | some d => (.ok (), s3.queue_redraw d.id)
          match afterOrigin with
          | (.error e, s4) => (.error e, s4)
          | (.ok _, s4) =>
            let s5 :=
              match (s4.monitor_by_id targetId).bind
                  (fun m => m.workspaces.find? Workspace.destroyable) with
              | some w => deactivate_workspace w.id s4
              | none => s4
            let s6 := sort_workspaces targetId config s5
            (.ok (), s6.emit (.WorkspaceUpdated wsId))

/-- `move_workspace_to_monitor` (translated from
`move_workspace_to_monitor.rs` lines 14-33): resolves the target monitor
by positional index, errors when the index resolves to no monitor or the
workspace has no monitor ancestor, and no-ops when the workspace is
already on the target monitor. -/
def move_workspace_to_monitor (wsId : Nat) (monitorIndex : Nat)
    (s : WmState) (config : UserConfig) : Except String Unit × WmState :=
  match s.monitors[monitorIndex]? with
  | none => (.error "Monitor at index was not found.", s)
  | some target =>
    match s.monitor_of wsId with
    | none => (.error "No monitor.", s)
    | some origin =>
      if origin.id = target.id then (.ok (), s)
      else move_workspace_to_monitor_impl wsId target.id s config

/-- The binding-reconciliation loop of `add_monitor` (lines 49-70): per
bound configuration, an existing workspace of that name is moved onto
the new monitor, otherwise a keep-alive workspace is activated there. -/
def add_monitor_loop (newId : Nat) (configs : List WorkspaceConfig)
    (s : WmState) (config : UserConfig) : Except String Unit × WmState :=
  match configs with
  | [] => (.ok (), s)
  | c :: rest =>
    let step : Except String Unit × WmState :=
      match s.workspace_by_name c.name with
      | some w => move_workspace_to_monitor_impl w.id newId s config
      | none =>
        if c.keep_alive then activate_workspace (some c.name) newId s config
        else (.ok (), s)
    match step with
    | (.error e, s1) => (.error e, s1)
    | (.ok _, s1) => add_monitor_loop newId rest s1 config

/-- `add_monitor` (translated from `add_monitor.rs` lines 16-80):
constructs a Monitor from the native working area with a fresh id,
attaches it under root as the last child, emits `MonitorAdded`,
reconciles the workspace configurations bound to the new monitor index,
and finally activates a workspace when the monitor is still
childless. -/
def add_monitor (native : NativeMonitor) (s : WmState)
    (config : UserConfig) : Except String Unit × WmState :=
  let newId := s.next_id
  let monitor : Monitor :=
    { id := newId, rect := native.working_area, children := [] }
  let newIndex := s.monitors.length
  let s1 : WmState :=
    { s with monitors := s.monitors ++ [monitor], next_id := s.next_id + 1 }
  let s2 := s1.emit (.MonitorAdded newId)
  let bound := config.workspaces.filter
    (fun c => c.bind_to_monitor = some newIndex)
  match add_monitor_loop newId bound s2 config with
  | (.error e, s3) => (.error e, s3)
  | (.ok _, s3) =>
    match s3.monitor_by_id newId with
    | none => (.error "Monitor not found.", s3)
    | some m =>
      if m.child_count = 0 then activate_workspace none newId s3 config
      else (.ok (), s3)

/-- Well-formedness of the tree state: monitor ids are distinct,
workspace ids are distinct, and `next_id` is larger than every id in use,
so freshly created nodes never collide with existing ones. -/
def WmState.wf (s : WmState) : Prop :=
  (s.monitors.map Monitor.id).Nodup ∧
  ((s.allWorkspaces).map Workspace.id).Nodup ∧
  (∀ m ∈ s.monitors, m.id < s.next_id) ∧
  (∀ w ∈ s.allWorkspaces, w.id < s.next_id)

instance (s : WmState) : Decidable s.wf := by
  unfold WmState.wf
  infer_instance

/-- The workspace as it looks after the window loop of
`move_workspace_to_monitor_impl`: every window DPI-adjusted against
`rect`. -/
def wsDpi (rect : Rect) (ws : Workspace) : Workspace :=
  { ws with children := ws.children.map (dpiAdjustWindow rect) }

/-- The empty-workspace cleanup of `move_workspace_to_monitor_impl`
(lines 91-102) as a function of the child list: the first destroyable
workspace, if any, is removed. -/
def maybeDestroy (l : List Workspace) : List Workspace :=
  match l.find? Workspace.destroyable with
  | some d => l.filter (fun w => ¬ w.id = d.id)
  | none => l

/-- The per-monitor effect of relocating workspace `ws` (with id `wsId`)
under the monitor with id `targetId`: its old copy is filtered out
everywhere and it is appended to the target child list. -/
def moveStep (wsId : Nat) (ws : Workspace) (targetId : Nat)
    (m : Monitor) : Monitor :=
  if m.id = targetId then
    { m with children := m.children.filter (fun w => ¬ w.id = wsId) ++ [ws] }
  else
    { m with children := m.children.filter (fun w => ¬ w.id = wsId) }

/-! ## Example fixtures used by the concrete witnesses -/

/-- Working area of the first example monitor. -/
def exRectA : Rect := { left := 0, top := 0, right := 1920, bottom := 1080 }

/-- Working area of the second example monitor. -/
def exRectB : Rect := { left := 1920, top := 0, right := 3000, bottom := 1920 }

/-- A tiling window with a stored floating placement. -/
def exWinTiling : Window :=
  { id := 100, kind := .Tiling,
    floating_placement := { left := 100, top := 100, right := 300, bottom := 300 },
    has_pending_dpi_adjustment := false }

/-- A floating window. -/
def exWinFloating : Window :=
  { id := 101, kind := .Floating,
    floating_placement := { left := 100, top := 100, right := 300, bottom := 300 },
    has_pending_dpi_adjustment := false }

/-- Example user configuration with four workspace entries. -/
def exCfg : UserConfig :=
  { workspaces :=
      [ { name := "1", keep_alive := false, bind_to_monitor := none },
        { name := "2", keep_alive := false, bind_to_monitor := none },
        { name := "3", keep_alive := false, bind_to_monitor := none },
        { name := "4", keep_alive := false, bind_to_monitor := none } ] }

/-- Example state: monitor 1 shows workspace 10 (with two windows),
monitor 2 shows workspace 20 and also holds the empty background
workspace 21. -/
def exSt : WmState :=
  { monitors :=
      [ { id := 1, rect := exRectA, children :=
            [ { id := 10,
                config := { name := "1", keep_alive := false, bind_to_monitor := none },
                displayed := true, children := [exWinTiling, exWinFloating] } ] },
        { id := 2, rect := exRectB, children :=
            [ { id := 20,
                config := { name := "2", keep_alive := false, bind_to_monitor := none },
                displayed := true, children := [] },
              { id := 21,
                config := { name := "3", keep_alive := false, bind_to_monitor := none },
                displayed := false, children := [] } ] } ],
    pending_sync := [], events := [], next_id := 50 }

/-- The first example workspace (the one moved in the examples). -/
def exWs10 : Workspace :=
  { id := 10,
    config := { name := "1", keep_alive := false, bind_to_monitor := none },
    displayed := true, children := [exWinTiling, exWinFloating] }

/-- The first example monitor. -/
def exMon1 : Monitor := { id := 1, rect := exRectA, children := [exWs10] }

/-- The second example monitor. -/
def exMon2 : Monitor :=
  { id := 2, rect := exRectB, children :=
      [ { id := 20,
          config := { name := "2", keep_alive := false, bind_to_monitor := none },
          displayed := true, children := [] },
        { id := 21,
          config := { name := "3", keep_alive := false, bind_to_monitor := none },
          displayed := false, children := [] } ] }

/-- A platform monitor descriptor for the examples. -/
def exNative : NativeMonitor :=
  { working_area := { left := 0, top := 1080, right := 1920, bottom := 2160 } }

/-- `start_builtin`: parse the program name, then start it through the
global registry; an unrecognized name is an error and the registry is
untouched. -/
def start_builtin (name : String) (m : ProcessManager) (avail : Bool)
    (newPid : Nat) : Except String Unit × ProcessManager :=
  match BuiltinProgram.from_str name with
  | none => (.error ("Unknown builtin program: " ++ name), m)
  | some p => m.start p avail newPid

/-- `stop_builtin`: parse the program name, then stop it through the
global registry; an unrecognized name is an error and the registry is
untouched.  The Bool records whether a termination action was
performed. -/
def stop_builtin (name : String) (m : ProcessManager) :
    (Except String Unit × ProcessManager) × Bool :=
  match BuiltinProgram.from_str name with
  | none => ((.error ("Unknown builtin program: " ++ name), m), false)
  | some p => ((.ok (), (m.stop p).1), (m.stop p).2)

/-! ## List helpers -/

theorem find?_congr_pred {α : Type} {p q : α → Bool} (h : ∀ a, p a = q a)
    (l : List α) : l.find? p = l.find? q := by
  induction l with
  | nil => rfl
  | cons a t ih =>
    simp only [List.find?_cons, h a]
    cases q a <;> simp [ih]

/-- In a list with no duplicate ids, an element is found by its id. -/
theorem find?_eq_some_of_nodup {α : Type} (idf : α → Nat) (l : List α)
    (hnd : (l.map idf).Nodup) (a : α) (ha : a ∈ l) :
    l.find? (fun x => idf x = idf a) = some a := by
  induction l with
  | nil => cases ha
  | cons b t ih =>
    rw [List.map_cons, List.nodup_cons] at hnd
    rcases List.mem_cons.mp ha with h | h
    · subst h
      simp [List.find?_cons]
    · have hne : (decide (idf b = idf a)) = false := by
        rw [decide_eq_false_iff_not]
        intro he
        exact hnd.1 (he ▸ List.mem_map_of_mem idf h)
      simp only [List.find?_cons, hne]
      exact ih hnd.2 h

theorem flatten_map_append_perm {α β : Type} (l : List α)
    (f g : α → List β) :
    ((l.map fun x => f x ++ g x).flatten).Perm
      ((l.map f).flatten ++ (l.map g).flatten) := by
  induction l with
  | nil => simp
  | cons x t ih =>
    simp only [List.map_cons, List.flatten_cons]
    refine ((ih.append_left (f x ++ g x)).trans ?_)
    rw [List.append_assoc, List.append_assoc]
    refine (List.Perm.append_left (f x) ?_)
    rw [← List.append_assoc, ← List.append_assoc]
    exact (List.perm_append_comm.append_right _).trans
      (by rw [List.append_assoc])

/-- When exactly one monitor id matches (ids are duplicate-free and a
match exists), a per-monitor if-then-else contributes a single block. -/
theorem flatten_map_ite_single {β : Type} (l : List Monitor) (tid : Nat)
    (hnd : (l.map Monitor.id).Nodup) (target : Monitor)
    (ht : l.find? (fun m => m.id = tid) = some target) (e : List β) :
    (l.map fun m => if m.id = tid then e else []).flatten = e := by
  induction l with
  | nil => simp at ht
  | cons b t ih =>
    rw [List.map_cons, List.nodup_cons] at hnd
    by_cases hb : b.id = tid
    · have hrest : (t.map fun m => if m.id = tid then e else []).flatten
          = ([] : List β) := by
        rw [List.flatten_eq_nil_iff]
        intro x hx
        rcases List.mem_map.mp hx with ⟨m, hm, hmx⟩
        have hne : ¬ m.id = tid := by
          intro he
          exact hnd.1 (by rw [hb, ← he]; exact List.mem_map_of_mem _ hm)
        rw [if_neg hne] at hmx
        exact hmx.symm
      simp only [List.map_cons, if_pos hb, List.flatten_cons, hrest,
        List.append_nil]
    · have hb' : (decide (b.id = tid)) = false := by
        rw [decide_eq_false_iff_not]
        exact hb
      rw [List.find?_cons, hb'] at ht
      simp only [List.map_cons, if_neg hb, List.flatten_cons,
        List.nil_append]
      exact ih hnd.2 ht

/-! ## Process manager lemmas -/

theorem ProcessManager.lookup_removeEntry (m : ProcessManager)
    (p : BuiltinProgram) : (m.removeEntry p).lookup p = none := by
  simp only [ProcessManager.lookup, ProcessManager.removeEntry,
    Option.map_eq_none']
  rw [List.find?_eq_none]
  intro e he
  have h2 := List.of_mem_filter he
  simp at h2

theorem ProcessManager.lookup_insertEntry (m : ProcessManager)
    (p : BuiltinProgram) (c : ChildProcess) :
    (m.insertEntry p c).lookup p = some c := by
  simp [ProcessManager.lookup, ProcessManager.insertEntry, List.find?]

/-- After a successful `start`, the program is tracked as running and the
`is_running` check leaves the registry unchanged. -/
theorem ProcessManager.start_ok_running (m m' : ProcessManager)
    (p : BuiltinProgram) (avail : Bool) (newPid : Nat)
    (h : m.start p avail newPid = (.ok (), m')) :
    m'.is_running p = (true, m') := by
  unfold ProcessManager.start at h
  cases hl : m.lookup p with
  | none =>
    have hir : m.is_running p = (false, m) := by
      unfold ProcessManager.is_running
      rw [hl]
    rw [hir] at h
    cases havail : avail with
    | false =>
      rw [havail] at h
      simp at h
    | true =>
      rw [havail] at h
      simp at h
      rw [← h]
      unfold ProcessManager.is_running
      rw [ProcessManager.lookup_insertEntry]
  | some c =>
    obtain ⟨cpid, cstatus⟩ := c
    cases cstatus with
    | running =>
      have hir : m.is_running p = (true, m) := by
        unfold ProcessManager.is_running
        rw [hl]
      rw [hir] at h
      simp at h
      rw [← h]
      exact hir
    | exited =>
      have hir : m.is_running p = (false, m.removeEntry p) := by
        unfold ProcessManager.is_running
        rw [hl]
      rw [hir] at h
      cases havail : avail with
      | false =>
        rw [havail] at h
        simp at h
      | true =>
        rw [havail] at h
        simp at h
        rw [← h]
        unfold ProcessManager.is_running
        rw [ProcessManager.lookup_insertEntry]
    | statusError =>
      have hir : m.is_running p = (false, m.removeEntry p) := by
        unfold ProcessManager.is_running
        rw [hl]
      rw [hir] at h
      cases havail : avail with
      | false =>
        rw [havail] at h
        simp at h
      | true =>
        rw [havail] at h
        simp at h
        rw [← h]
        unfold ProcessManager.is_running
        rw [ProcessManager.lookup_insertEntry]

/-- A true `is_running` check leaves the registry untouched. -/
theorem ProcessManager.is_running_true_eq (m : ProcessManager)
    (p : BuiltinProgram) (h : (m.is_running p).1 = true) :
    m.is_running p = (true, m) := by
  unfold ProcessManager.is_running at h ⊢
  cases hl : m.lookup p with
  | none =>
    rw [hl] at h
    simp at h
  | some c =>
    rw [hl] at h
    obtain ⟨cpid, cstatus⟩ := c
    cases cstatus <;> simp_all

/-! ## Claims C8, C9, C10 -/

/-- C8: `ProcessManager::start` on a program that is already running
returns Ok without modifying the registry, `ProcessManager::stop` on a
program absent from the registry returns Ok without performing any
termination action, and consequently both operations are idempotent on
the process registry: a second `start` after a successful one and a
second `stop` after any `stop` change nothing. -/
theorem C8_start_stop_idempotent (m m' m0 m1 m2 : ProcessManager)
    (p : BuiltinProgram) (avail : Bool) (newPid : Nat)
    (hrun : (m.is_running p).1 = true)
    (habs : m'.lookup p = none)
    (hst : m0.start p avail newPid = (.ok (), m1)) :
    m.start p avail newPid = (.ok (), m) ∧
    m'.stop p = (m', false) ∧
    m1.start p avail newPid = (.ok (), m1) ∧
    ((m2.stop p).1).stop p = ((m2.stop p).1, false) := by
  refine ⟨?_, ?_, ?_, ?_⟩
  · unfold ProcessManager.start
    rw [ProcessManager.is_running_true_eq m p hrun]
    simp
  · unfold ProcessManager.stop
    rw [habs]
  · have h1 := ProcessManager.start_ok_running m0 m1 p avail newPid hst
    unfold ProcessManager.start
    rw [h1]
    simp
  · unfold ProcessManager.stop
    cases hl : m2.lookup p with
    | none => simp only [hl]
    | some c => simp only [hl, ProcessManager.lookup_removeEntry]

/-- Witness for C8 at a concrete registry: `Zebar` tracked as running for
the first part, an empty registry for the second, and a fresh start for
the idempotence parts. -/
theorem C8_start_stop_idempotent_witness :
    (((⟨[(.Zebar, ⟨5, .running⟩)]⟩ : ProcessManager).is_running .Zebar).1
        = true) ∧
    ((⟨[]⟩ : ProcessManager).lookup .Zebar = none) ∧
    ((⟨[]⟩ : ProcessManager).start .Zebar true 7 =
      (.ok (), ⟨[(.Zebar, ⟨7, .running⟩)]⟩)) ∧
    ((⟨[(.Zebar, ⟨5, .running⟩)]⟩ : ProcessManager).start .Zebar true 7 =
        (.ok (), ⟨[(.Zebar, ⟨5, .running⟩)]⟩) ∧
      (⟨[]⟩ : ProcessManager).stop .Zebar = (⟨[]⟩, false) ∧
      (⟨[(.Zebar, ⟨7, .running⟩)]⟩ : ProcessManager).start .Zebar true 7 =
        (.ok (), ⟨[(.Zebar, ⟨7, .running⟩)]⟩) ∧
      (((⟨[(.Zebar, ⟨9, .exited⟩)]⟩ : ProcessManager).stop .Zebar).1).stop
          .Zebar =
        (((⟨[(.Zebar, ⟨9, .exited⟩)]⟩ : ProcessManager).stop .Zebar).1,
          false)) :=
  ⟨by decide, by decide, by rfl,
    C8_start_stop_idempotent ⟨[(.Zebar, ⟨5, .running⟩)]⟩ ⟨[]⟩ ⟨[]⟩
      ⟨[(.Zebar, ⟨7, .running⟩)]⟩ ⟨[(.Zebar, ⟨9, .exited⟩)]⟩ .Zebar true 7
      (by decide) (by decide) (by rfl)⟩

/-- C9: a name that does not case-insensitively equal "zebar" (the only
recognized builtin name) is rejected by `BuiltinProgram::from_str`, and
both `start_builtin` and `stop_builtin` fail with an unknown-program
error, leaving the registry unchanged and starting or stopping no
process. -/
theorem C9_unknown_program (name : String) (m : ProcessManager)
    (avail : Bool) (newPid : Nat) (h : ¬ lowerString name = "zebar") :
    BuiltinProgram.from_str name = none ∧
    start_builtin name m avail newPid =
      (.error ("Unknown builtin program: " ++ name), m) ∧
    stop_builtin name m =
      ((.error ("Unknown builtin program: " ++ name), m), false) := by
  have hf : BuiltinProgram.from_str name = none := by
    unfold BuiltinProgram.from_str
    rw [if_neg h]
  refine ⟨hf, ?_, ?_⟩
  · unfold start_builtin
    rw [hf]
  · unfold stop_builtin
    rw [hf]

/-- Witness for C9 at the concrete unknown name "glazewm". -/
theorem C9_unknown_program_witness :
    (¬ lowerString "glazewm" = "zebar") ∧
    (BuiltinProgram.from_str "glazewm" = none ∧
      start_builtin "glazewm" ⟨[(.Zebar, ⟨5, .running⟩)]⟩ true 7 =
        (.error ("Unknown builtin program: " ++ "glazewm"),
          ⟨[(.Zebar, ⟨5, .running⟩)]⟩) ∧
      stop_builtin "glazewm" ⟨[(.Zebar, ⟨5, .running⟩)]⟩ =
        ((.error ("Unknown builtin program: " ++ "glazewm"),
          ⟨[(.Zebar, ⟨5, .running⟩)]⟩), false)) :=
  ⟨by decide,
    C9_unknown_program "glazewm" ⟨[(.Zebar, ⟨5, .running⟩)]⟩ true 7
      (by decide)⟩

/-- C10: `is_running` returns true iff the registry holds a child process
for the program that is still running; when the tracked child has exited
or its status query failed, `is_running` removes the registry entry
before returning false, so a subsequent `start` spawns a fresh
process. -/
theorem C10_is_running (m m2 : ProcessManager) (p : BuiltinProgram)
    (c : ChildProcess) (newPid : Nat)
    (hc : m2.lookup p = some c) (hne : ¬ c.status = .running) :
    ((m.is_running p).1 = true ↔
      ∃ c0, m.lookup p = some c0 ∧ c0.status = .running) ∧
    (m2.is_running p).1 = false ∧
    (m2.is_running p).2.lookup p = none ∧
    (m2.is_running p).2.start p true newPid =
      (.ok (), (m2.is_running p).2.insertEntry p
        { pid := newPid, status := .running }) := by
  have hm2 : m2.is_running p = (false, m2.removeEntry p) := by
    unfold ProcessManager.is_running
    rw [hc]
    obtain ⟨cpid, cstatus⟩ := c
    cases cstatus <;> simp_all
  refine ⟨?_, ?_, ?_, ?_⟩
  · constructor
    · intro h
      unfold ProcessManager.is_running at h
      cases hl : m.lookup p with
      | none =>
        rw [hl] at h
        simp at h
      | some c0 =>
        rw [hl] at h
        obtain ⟨cpid, cstatus⟩ := c0
        cases cstatus with
        | running => exact ⟨⟨cpid, .running⟩, by simp_all, rfl⟩

        | exited => simp at h
        | statusError => simp at h
    · rintro ⟨c0, hc0, hs0⟩
      unfold ProcessManager.is_running
      rw [hc0]
      obtain ⟨cpid, cstatus⟩ := c0
      simp at hs0
      rw [hs0]
  · rw [hm2]
  · rw [hm2]
    exact ProcessManager.lookup_removeEntry m2 p
  · rw [hm2]
    unfold ProcessManager.start
    have hck : (m2.removeEntry p).is_running p
        = (false, m2.removeEntry p) := by
      unfold ProcessManager.is_running
      rw [ProcessManager.lookup_removeEntry]
    rw [hck]
    simp

/-- Witness for C10 at a registry tracking an exited `Zebar` child. -/
theorem C10_is_running_witness :
    ((⟨[(.Zebar, ⟨9, .exited⟩)]⟩ : ProcessManager).lookup .Zebar =
        some ⟨9, .exited⟩) ∧
    (¬ (⟨9, .exited⟩ : ChildProcess).status = .running) ∧
    ((((⟨[(.Zebar, ⟨9, .exited⟩)]⟩ : ProcessManager).is_running .Zebar).1
          = true ↔
        ∃ c0, (⟨[(.Zebar, ⟨9, .exited⟩)]⟩ : ProcessManager).lookup .Zebar
            = some c0 ∧ c0.status = .running) ∧
      ((⟨[(.Zebar, ⟨9, .exited⟩)]⟩ : ProcessManager).is_running .Zebar).1
          = false ∧
      ((⟨[(.Zebar, ⟨9, .exited⟩)]⟩ : ProcessManager).is_running
          .Zebar).2.lookup .Zebar = none ∧
      ((⟨[(.Zebar, ⟨9, .exited⟩)]⟩ : ProcessManager).is_running
          .Zebar).2.start .Zebar true 7 =
        (.ok (), ((⟨[(.Zebar, ⟨9, .exited⟩)]⟩ : ProcessManager).is_running
          .Zebar).2.insertEntry .Zebar { pid := 7, status := .running })) :=
  ⟨by decide, by decide,
    C10_is_running ⟨[(.Zebar, ⟨9, .exited⟩)]⟩ ⟨[(.Zebar, ⟨9, .exited⟩)]⟩
      .Zebar ⟨9, .exited⟩ 7 (by decide) (by decide)⟩

/-! ## Tree state lemmas -/

theorem monitors_emit (s : WmState) (e : WmEvent) :
    (s.emit e).monitors = s.monitors := rfl

theorem events_emit (s : WmState) (e : WmEvent) :
    (s.emit e).events = s.events ++ [e] := rfl

theorem next_id_emit (s : WmState) (e : WmEvent) :
    (s.emit e).next_id = s.next_id := rfl

theorem pending_emit (s : WmState) (e : WmEvent) :
    (s.emit e).pending_sync = s.pending_sync := rfl

theorem monitors_queue_cursor (s : WmState) :
    (s.queue_cursor_jump).monitors = s.monitors := by
  unfold WmState.queue_cursor_jump
  split <;> rfl

theorem events_queue_cursor (s : WmState) :
    (s.queue_cursor_jump).events = s.events := by
  unfold WmState.queue_cursor_jump
  split <;> rfl

theorem next_id_queue_cursor (s : WmState) :
    (s.queue_cursor_jump).next_id = s.next_id := by
  unfold WmState.queue_cursor_jump
  split <;> rfl

theorem monitors_queue_redraw (s : WmState) (c : Nat) :
    (s.queue_redraw c).monitors = s.monitors := by
  unfold WmState.queue_redraw
  split <;> rfl

theorem events_queue_redraw (s : WmState) (c : Nat) :
    (s.queue_redraw c).events = s.events := by
  unfold WmState.queue_redraw
  split <;> rfl

theorem next_id_queue_redraw (s : WmState) (c : Nat) :
    (s.queue_redraw c).next_id = s.next_id := by
  unfold WmState.queue_redraw
  split <;> rfl

theorem pending_queue_redraw_self (s : WmState) (c : Nat) :
    (s.queue_redraw c).pending_sync.contains (PendingEffect.redraw c)
      = true := by
  unfold WmState.queue_redraw
  split
  · assumption
  · simp

theorem pending_queue_redraw_mono (s : WmState) (c : Nat) (x : PendingEffect)
    (h : s.pending_sync.contains x = true) :
    (s.queue_redraw c).pending_sync.contains x = true := by
  unfold WmState.queue_redraw
  split
  · exact h
  · simp at h ⊢
    exact Or.inl h

theorem pending_queue_cursor_mono (s : WmState) (x : PendingEffect)
    (h : s.pending_sync.contains x = true) :
    (s.queue_cursor_jump).pending_sync.contains x = true := by
  unfold WmState.queue_cursor_jump
  split
  · exact h
  · simp at h ⊢
    exact Or.inl h

/-- `find?` by id commutes with mapping an id-preserving function. -/
theorem find?_id_map (g : Monitor → Monitor)
    (hg : ∀ m, (g m).id = m.id) (x : Nat) (l : List Monitor) :
    (l.map g).find? (fun m => m.id = x)
      = (l.find? (fun m => m.id = x)).map g := by
  rw [List.find?_map]
  congr 1
  apply find?_congr_pred
  intro m
  simp [Function.comp, hg]

theorem map_id_of_pres (g : Monitor → Monitor)
    (hg : ∀ m, (g m).id = m.id) (l : List Monitor) :
    (l.map g).map Monitor.id = l.map Monitor.id := by
  rw [List.map_map]
  exact List.map_congr_left (fun a _ => hg a)

theorem moveStep_id (wsId : Nat) (ws : Workspace) (targetId : Nat)
    (m : Monitor) : (moveStep wsId ws targetId m).id = m.id := by
  unfold moveStep
  split <;> rfl

theorem moveStep_rect (wsId : Nat) (ws : Workspace) (targetId : Nat)
    (m : Monitor) : (moveStep wsId ws targetId m).rect = m.rect := by
  unfold moveStep
  split <;> rfl

theorem moveStep_children (wsId : Nat) (ws : Workspace) (targetId : Nat)
    (m : Monitor) : (moveStep wsId ws targetId m).children
      = m.children.filter (fun w => ¬ w.id = wsId)
        ++ (if m.id = targetId then [ws] else []) := by
  unfold moveStep
  split <;> simp

theorem any_filter_ne (l : List Workspace) (x : Nat) :
    (l.filter (fun w => ¬ w.id = x)).any (fun w => w.id = x) = false := by
  rw [Bool.eq_false_iff]
  intro h
  rcases List.any_eq_true.mp h with ⟨w, hw, hpw⟩
  have h2 := List.of_mem_filter hw
  simp at h2 hpw
  exact h2 hpw

/-- `WmState.monitor_by_id` through `update_monitor` with a function that
keeps monitor ids. -/
theorem monitor_by_id_update (s : WmState) (mid : Nat)
    (f : Monitor → Monitor) (hf : ∀ m, (f m).id = m.id) (x : Nat) :
    (s.update_monitor mid f).monitor_by_id x
      = (s.monitor_by_id x).map (fun m => if m.id = mid then f m else m) := by
  unfold WmState.update_monitor WmState.monitor_by_id
  apply find?_id_map
  intro m
  by_cases h : m.id = mid
  · simp [h, hf]
  · simp [h]

theorem insertSorted_perm (key : Workspace → Nat) (w : Workspace)
    (l : List Workspace) : (insertSorted key w l).Perm (w :: l) := by
  induction l with
  | nil => exact List.Perm.refl _
  | cons x xs ih =>
    unfold insertSorted
    by_cases h : key w < key x
    · rw [if_pos h]
    · rw [if_neg h]
      exact (ih.cons x).trans (List.Perm.swap w x xs)

theorem sortByKey_perm (key : Workspace → Nat) (l : List Workspace) :
    (sortByKey key l).Perm l := by
  induction l with
  | nil => exact List.Perm.refl _
  | cons x xs ih =>
    exact (insertSorted_perm key x _).trans (ih.cons x)

theorem flatten_map_perm_pointwise {α β : Type} (l : List α)
    (f g : α → List β) (h : ∀ m ∈ l, (f m).Perm (g m)) :
    ((l.map f).flatten).Perm ((l.map g).flatten) := by
  induction l with
  | nil => exact List.Perm.refl _
  | cons x t ih =>
    simp only [List.map_cons, List.flatten_cons]
    exact (h x (by simp)).append (ih (fun m hm => h m (by simp [hm])))

theorem allWorkspaces_eq_of_monitors (s t : WmState)
    (h : s.monitors = t.monitors) : s.allWorkspaces = t.allWorkspaces := by
  unfold WmState.allWorkspaces
  rw [h]

theorem allWorkspaces_map_monitors (s : WmState) (g : Monitor → Monitor) :
    ({ s with monitors := s.monitors.map g } : WmState).allWorkspaces
      = (s.monitors.map (Monitor.children ∘ g)).flatten := by
  have h0 : ({ s with monitors := s.monitors.map g } : WmState).allWorkspaces
      = ((s.monitors.map g).map Monitor.children).flatten := rfl
  rw [h0, List.map_map]

theorem allWorkspaces_emit (s : WmState) (e : WmEvent) :
    (s.emit e).allWorkspaces = s.allWorkspaces := rfl

/-- Relocating a workspace permutes the global workspace list into the
stripped list with the moved workspace appended. -/
theorem allWorkspaces_moveStep_perm (s : WmState) (wsId targetId : Nat)
    (ws : Workspace) (target : Monitor)
    (hnd : (s.monitors.map Monitor.id).Nodup)
    (htg : s.monitor_by_id targetId = some target) :
    (((s.monitors.map (moveStep wsId ws targetId)).map
        Monitor.children).flatten).Perm
      ((s.allWorkspaces.filter (fun w => ¬ w.id = wsId)) ++ [ws]) := by
  rw [List.map_map]
  have h1 : s.monitors.map (Monitor.children ∘ moveStep wsId ws targetId)
      = s.monitors.map (fun m =>
          m.children.filter (fun w => ¬ w.id = wsId)
            ++ (if m.id = targetId then [ws] else [])) :=
    List.map_congr_left (fun m _ => moveStep_children wsId ws targetId m)
  rw [h1]
  refine (flatten_map_append_perm s.monitors _ _).trans ?_
  have h2 : (s.monitors.map fun m =>
        m.children.filter (fun w => ¬ w.id = wsId)).flatten
      = s.allWorkspaces.filter (fun w => ¬ w.id = wsId) := by
    have h4 : (s.monitors.map fun m =>
          m.children.filter (fun w => ¬ w.id = wsId))
        = (s.monitors.map Monitor.children).map
            (List.filter (fun w => ¬ w.id = wsId)) := by
      rw [List.map_map]
      rfl
    rw [h4, ← List.filter_flatten]
    rfl
  have h3 : (s.monitors.map fun m =>
      if m.id = targetId then [ws] else []).flatten = [ws] :=
    flatten_map_ite_single s.monitors targetId hnd target htg [ws]
  rw [h2, h3]

/-- Appending a workspace to one monitor appends it to the global
workspace list, up to permutation. -/
theorem allWorkspaces_update_append_perm (s : WmState) (mid : Nat)
    (target : Monitor) (w : Workspace)
    (hnd : (s.monitors.map Monitor.id).Nodup)
    (htg : s.monitor_by_id mid = some target) :
    ((s.update_monitor mid
        (fun m => { m with children := m.children ++ [w] })).allWorkspaces).Perm
      (s.allWorkspaces ++ [w]) := by
  unfold WmState.update_monitor
  rw [allWorkspaces_map_monitors]
  have h1 : s.monitors.map (Monitor.children ∘ (fun m =>
        if m.id = mid then { m with children := m.children ++ [w] } else m))
      = s.monitors.map (fun m =>
          m.children ++ (if m.id = mid then [w] else [])) := by
    apply List.map_congr_left
    intro m _
    by_cases h : m.id = mid
    · simp [h]
    · simp [h]
  rw [h1]
  refine (flatten_map_append_perm s.monitors _ _).trans ?_
  have h3 : (s.monitors.map fun m =>
      if m.id = mid then [w] else []).flatten = [w] :=
    flatten_map_ite_single s.monitors mid hnd target htg [w]
  rw [h3]
  rfl

/-- Destroying a workspace filters it out of the global workspace
list. -/
theorem allWorkspaces_deactivate (s : WmState) (wsId : Nat) :
    (deactivate_workspace wsId s).allWorkspaces
      = s.allWorkspaces.filter (fun w => ¬ w.id = wsId) := by
  unfold deactivate_workspace
  rw [allWorkspaces_emit]
  rw [allWorkspaces_map_monitors]
  have h4 : (s.monitors.map (Monitor.children ∘ (fun m =>
        { m with children := m.children.filter (fun w => ¬ w.id = wsId) })))
      = (s.monitors.map Monitor.children).map
          (List.filter (fun w => ¬ w.id = wsId)) := by
    rw [List.map_map]
    rfl
  rw [h4, ← List.filter_flatten]
  rfl

/-- Sorting one monitor's children permutes the global workspace list. -/
theorem allWorkspaces_sort_perm (s : WmState) (mid : Nat)
    (config : UserConfig) :
    ((sort_workspaces mid config s).allWorkspaces).Perm s.allWorkspaces := by
  unfold sort_workspaces WmState.update_monitor
  rw [allWorkspaces_map_monitors]
  have h1 : s.allWorkspaces
      = ((s.monitors.map Monitor.children).flatten) := rfl
  rw [h1]
  apply flatten_map_perm_pointwise
  intro m _
  by_cases h : m.id = mid
  · simp only [Function.comp, if_pos h]
    exact sortByKey_perm _ _
  · simp only [Function.comp, if_neg h]
    exact List.Perm.refl _

theorem events_update_monitor (s : WmState) (mid : Nat)
    (f : Monitor → Monitor) : (s.update_monitor mid f).events = s.events :=
  rfl

theorem pending_update_monitor (s : WmState) (mid : Nat)
    (f : Monitor → Monitor) :
    (s.update_monitor mid f).pending_sync = s.pending_sync := rfl

theorem next_id_update_monitor (s : WmState) (mid : Nat)
    (f : Monitor → Monitor) :
    (s.update_monitor mid f).next_id = s.next_id := rfl

/-- The relocation step of `move_workspace_to_monitor_impl` computed
explicitly. -/
theorem move_in_tree_eq (s : WmState) (wsId targetId : Nat)
    (ws : Workspace) (target : Monitor)
    (hws : s.workspace_by_id wsId = some ws)
    (htg : s.monitor_by_id targetId = some target) :
    move_workspace_in_tree wsId targetId s
      = some { s with monitors := s.monitors.map (moveStep wsId ws targetId) } := by
  unfold move_workspace_in_tree
  simp only [hws, htg]
  unfold WmState.update_monitor
  rw [List.map_map]
  rfl

theorem monitor_by_id_eq_of_monitors (s t : WmState) (x : Nat)
    (h : s.monitors = t.monitors) :
    s.monitor_by_id x = t.monitor_by_id x := by
  unfold WmState.monitor_by_id
  rw [h]

/-- Two members of a list with duplicate-free ids are equal when their
ids agree. -/
theorem eq_of_mem_of_nodup_ids {α : Type} (idf : α → Nat) (l : List α)
    (hnd : (l.map idf).Nodup) (a b : α) (ha : a ∈ l) (hb : b ∈ l)
    (h : idf a = idf b) : a = b := by
  have h1 := find?_eq_some_of_nodup idf l hnd a ha
  have h2 := find?_eq_some_of_nodup idf l hnd b hb
  rw [h] at h1
  rw [h1] at h2
  exact Option.some.inj h2

/-- Children of monitors with different ids carry disjoint workspace
ids, given global well-formedness. -/
theorem children_ids_disjoint (ms : List Monitor)
    (hndw : (((ms.map Monitor.children).flatten).map Workspace.id).Nodup)
    (m1 m2 : Monitor) (h1 : m1 ∈ ms) (h2 : m2 ∈ ms)
    (hne : ¬ m1.id = m2.id) :
    ∀ a ∈ m1.children, ∀ b ∈ m2.children, ¬ a.id = b.id := by
  induction ms with
  | nil => cases h1
  | cons hd tl ih =>
    rw [List.map_cons, List.flatten_cons, List.map_append,
      List.nodup_append] at hndw
    obtain ⟨hnd1, hnd2, hdisj⟩ := hndw
    rcases List.mem_cons.mp h1 with e1 | e1 <;>
      rcases List.mem_cons.mp h2 with e2 | e2
    · exact absurd (by rw [e1, e2]) hne
    · intro a ha b hb he
      rw [e1] at ha
      refine hdisj (List.mem_map_of_mem _ ha) ?_
      have hbm : b ∈ (tl.map Monitor.children).flatten :=
        List.mem_flatten.mpr ⟨m2.children, List.mem_map_of_mem _ e2, hb⟩
      have : b.id ∈ ((tl.map Monitor.children).flatten).map Workspace.id :=
        List.mem_map_of_mem _ hbm
      rw [he]
      exact this
    · intro a ha b hb he
      rw [e2] at hb
      refine hdisj (List.mem_map_of_mem _ hb) ?_
      have ham : a ∈ (tl.map Monitor.children).flatten :=
        List.mem_flatten.mpr ⟨m1.children, List.mem_map_of_mem _ e1, ha⟩
      have : a.id ∈ ((tl.map Monitor.children).flatten).map Workspace.id :=
        List.mem_map_of_mem _ ham
      rw [← he]
      exact this
    · exact ih hnd2 e1 e2

theorem monitor_of_spec (s : WmState) (wsId : Nat) (origin : Monitor)
    (hog : s.monitor_of wsId = some origin) :
    origin ∈ s.monitors ∧ ∃ w ∈ origin.children, w.id = wsId := by
  refine ⟨List.mem_of_find?_eq_some hog, ?_⟩
  have h := List.find?_some hog
  simp only [List.any_eq_true, decide_eq_true_eq] at h
  exact h

theorem workspace_by_id_spec (s : WmState) (wsId : Nat) (ws : Workspace)
    (h : s.workspace_by_id wsId = some ws) :
    ws ∈ s.allWorkspaces ∧ ws.id = wsId := by
  refine ⟨List.mem_of_find?_eq_some h, ?_⟩
  have h2 := List.find?_some h
  simpa using h2

theorem mem_allWorkspaces_of_mem (s : WmState) (m : Monitor)
    (w : Workspace) (hm : m ∈ s.monitors) (hw : w ∈ m.children) :
    w ∈ s.allWorkspaces :=
  List.mem_flatten.mpr ⟨m.children, List.mem_map_of_mem _ hm, hw⟩

theorem map_id_update_monitor (s : WmState) (mid : Nat)
    (f : Monitor → Monitor) (hf : ∀ m, (f m).id = m.id) :
    (s.update_monitor mid f).monitors.map Monitor.id
      = s.monitors.map Monitor.id := by
  unfold WmState.update_monitor
  apply map_id_of_pres
  intro m
  by_cases h : m.id = mid
  · simp [h, hf]
  · simp [h]

theorem map_id_deactivate (s : WmState) (dId : Nat) :
    (deactivate_workspace dId s).monitors.map Monitor.id
      = s.monitors.map Monitor.id := by
  have e : (deactivate_workspace dId s).monitors
      = s.monitors.map (fun m =>
          { m with children := m.children.filter (fun w => ¬ w.id = dId) }) :=
    rfl
  rw [e]
  exact map_id_of_pres (fun m =>
    { m with children := m.children.filter (fun w => ¬ w.id = dId) })
    (fun m => rfl) s.monitors

theorem map_id_sort (s : WmState) (mid : Nat) (config : UserConfig) :
    (sort_workspaces mid config s).monitors.map Monitor.id
      = s.monitors.map Monitor.id := by
  unfold sort_workspaces
  exact map_id_update_monitor s mid _ (fun m => rfl)

theorem monitor_by_id_deactivate (s : WmState) (dId x : Nat) :
    (deactivate_workspace dId s).monitor_by_id x
      = (s.monitor_by_id x).map (fun m =>
          { m with children := m.children.filter (fun w => ¬ w.id = dId) }) := by
  have e : (deactivate_workspace dId s).monitors
      = s.monitors.map (fun m =>
          { m with children := m.children.filter (fun w => ¬ w.id = dId) }) :=
    rfl
  unfold WmState.monitor_by_id
  rw [e]
  exact find?_id_map (fun m =>
    { m with children := m.children.filter (fun w => ¬ w.id = dId) })
    (fun m => rfl) x s.monitors

theorem monitor_by_id_sort (s : WmState) (mid : Nat) (config : UserConfig)
    (x : Nat) :
    (sort_workspaces mid config s).monitor_by_id x
      = (s.monitor_by_id x).map (fun m => if m.id = mid then
          { m with children := sortByKey (workspaceSortKey config) m.children }
          else m) := by
  unfold sort_workspaces
  exact monitor_by_id_update s mid (fun m =>
    { m with children := sortByKey (workspaceSortKey config) m.children })
    (fun m => rfl) x

theorem events_deactivate (s : WmState) (dId : Nat) :
    (deactivate_workspace dId s).events
      = s.events ++ [WmEvent.WorkspaceDeactivated dId] := rfl

theorem pending_deactivate (s : WmState) (dId : Nat) :
    (deactivate_workspace dId s).pending_sync = s.pending_sync := rfl

theorem next_id_deactivate (s : WmState) (dId : Nat) :
    (deactivate_workspace dId s).next_id = s.next_id := rfl

theorem events_sort (s : WmState) (mid : Nat) (config : UserConfig) :
    (sort_workspaces mid config s).events = s.events := rfl

theorem pending_sort (s : WmState) (mid : Nat) (config : UserConfig) :
    (sort_workspaces mid config s).pending_sync = s.pending_sync := rfl

theorem next_id_sort (s : WmState) (mid : Nat) (config : UserConfig) :
    (sort_workspaces mid config s).next_id = s.next_id := rfl

/-- Characterization of a successful `activate_workspace` run. -/
theorem activate_ok_char (name : Option String) (targetId : Nat)
    (s s' : WmState) (config : UserConfig) (target : Monitor)
    (htg : s.monitor_by_id targetId = some target)
    (hok : activate_workspace name targetId s config = (.ok (), s')) :
    ∃ wsCfg : WorkspaceConfig,
      (∀ n, name = some n → wsCfg = (config.workspaces.find?
        (fun c => c.name = n)).getD
          { name := n, keep_alive := false, bind_to_monitor := none }) ∧
      (name = none → config.workspaces.find? (fun c =>
        ¬ (s.allWorkspaces.map (fun w => w.config.name)).contains c.name)
          = some wsCfg) ∧
      s' = ((({ s with next_id := s.next_id + 1 }).update_monitor targetId
          (fun m => { m with children := m.children ++
            [({ id := s.next_id, config := wsCfg,
                displayed := target.displayed_workspace.isNone,
                children := [] } : Workspace)] })).emit
          (.WorkspaceActivated s.next_id)).queue_redraw s.next_id := by
  unfold activate_workspace at hok
  cases name with
  | some n =>
    simp only [htg] at hok
    rw [Prod.mk.injEq] at hok
    refine ⟨(config.workspaces.find? (fun c => c.name = n)).getD
        { name := n, keep_alive := false, bind_to_monitor := none },
      ?_, ?_, hok.2.symm⟩
    · intro n0 hn0
      cases hn0
      rfl
    · intro h
      exact Option.noConfusion h
  | none =>
    simp only [htg] at hok
    cases hf : config.workspaces.find? (fun c =>
        ¬ (s.allWorkspaces.map (fun w => w.config.name)).contains c.name) with
    | none =>
      rw [hf] at hok
      simp at hok
    | some c =>
      rw [hf] at hok
      rw [Prod.mk.injEq] at hok
      exact ⟨c, fun n0 hn0 => Option.noConfusion hn0,
        fun _ => rfl, hok.2.symm⟩


theorem monitor_by_id_emit (s : WmState) (e : WmEvent) (x : Nat) :
    (s.emit e).monitor_by_id x = s.monitor_by_id x :=
  monitor_by_id_eq_of_monitors _ _ x (monitors_emit s e)

theorem monitor_by_id_queue_redraw (s : WmState) (c x : Nat) :
    (s.queue_redraw c).monitor_by_id x = s.monitor_by_id x :=
  monitor_by_id_eq_of_monitors _ _ x (monitors_queue_redraw s c)

theorem monitor_by_id_queue_cursor (s : WmState) (x : Nat) :
    (s.queue_cursor_jump).monitor_by_id x = s.monitor_by_id x :=
  monitor_by_id_eq_of_monitors _ _ x (monitors_queue_cursor s)

theorem monitors_set_next (s : WmState) (n : Nat) :
    ({ s with next_id := n } : WmState).monitors = s.monitors := rfl

theorem monitor_by_id_set_next (s : WmState) (n x : Nat) :
    ({ s with next_id := n } : WmState).monitor_by_id x
      = s.monitor_by_id x := rfl

theorem allWorkspaces_set_next (s : WmState) (n : Nat) :
    ({ s with next_id := n } : WmState).allWorkspaces = s.allWorkspaces :=
  rfl

theorem events_set_next (s : WmState) (n : Nat) :
    ({ s with next_id := n } : WmState).events = s.events := rfl

theorem pending_set_next (s : WmState) (n : Nat) :
    ({ s with next_id := n } : WmState).pending_sync = s.pending_sync := rfl

theorem next_id_set_next (s : WmState) (n : Nat) :
    ({ s with next_id := n } : WmState).next_id = n := rfl

theorem allWorkspaces_queue_redraw (s : WmState) (c : Nat) :
    (s.queue_redraw c).allWorkspaces = s.allWorkspaces :=
  allWorkspaces_eq_of_monitors _ _ (monitors_queue_redraw s c)

theorem allWorkspaces_queue_cursor (s : WmState) :
    (s.queue_cursor_jump).allWorkspaces = s.allWorkspaces :=
  allWorkspaces_eq_of_monitors _ _ (monitors_queue_cursor s)

/-- Common tail of `move_workspace_to_monitor_impl`: the empty-workspace
cleanup, the re-sort and the final event, characterized from facts about
the state at the cleanup stage. -/
theorem move_impl_finish (s s4 s' : WmState) (config : UserConfig)
    (wsId targetId : Nat) (origin target : Monitor) (ws : Workspace)
    (oc4 reps : List Workspace)
    (hndw : (s.allWorkspaces.map Workspace.id).Nodup)
    (hltm : ∀ m ∈ s.monitors, m.id < s.next_id)
    (h_origin_mem : origin ∈ s.monitors)
    (h_target_mem : target ∈ s.monitors)
    (h_tid : target.id = targetId)
    (hne : ¬ origin.id = targetId)
    (hmem : ws ∈ origin.children)
    (_h_wsid : ws.id = wsId)
    (hwf4 : s4.wf)
    (F1 : s4.monitor_by_id targetId = some { target with
      children := target.children ++ [wsDpi target.rect ws] })
    (F2 : s4.monitors.map Monitor.id = s.monitors.map Monitor.id)
    (F3 : ∀ m ∈ s.monitors, ¬ m.id = origin.id → ¬ m.id = targetId →
      s4.monitor_by_id m.id = some m)
    (F4 : s4.monitor_by_id origin.id = some { origin with children := oc4 })
    (F4d : ∀ w ∈ oc4, ∀ t ∈ target.children ++ [wsDpi target.rect ws],
      ¬ w.id = t.id)
    (F6 : ∃ evs, s4.events = s.events ++ evs)
    (F7 : s.next_id ≤ s4.next_id)
    (F8 : ∀ x, ¬ x ∈ s.allWorkspaces.map Workspace.id → x < s.next_id →
      ¬ x ∈ s4.allWorkspaces.map Workspace.id)
    (F9 : s4.allWorkspaces.Perm ((s.allWorkspaces.filter
      (fun w => ¬ w.id = wsId)) ++ [wsDpi target.rect ws] ++ reps))
    (hs1 : ∀ d, (target.children ++ [wsDpi target.rect ws]).find?
        Workspace.destroyable = some d →
      s' = (sort_workspaces targetId config
        (deactivate_workspace d.id s4)).emit (WmEvent.WorkspaceUpdated wsId))
    (hs2 : (target.children ++ [wsDpi target.rect ws]).find?
        Workspace.destroyable = none →
      s' = (sort_workspaces targetId config s4).emit
        (WmEvent.WorkspaceUpdated wsId)) :
    s'.wf ∧
    s'.monitors.map Monitor.id = s.monitors.map Monitor.id ∧
    (∀ m ∈ s.monitors, ¬ m.id = origin.id → ¬ m.id = targetId →
      s'.monitor_by_id m.id = some m) ∧
    (∃ mt, s'.monitor_by_id targetId = some mt ∧ mt.rect = target.rect ∧
      mt.children = sortByKey (workspaceSortKey config)
        (maybeDestroy (target.children ++ [wsDpi target.rect ws]))) ∧
    (s'.monitor_by_id origin.id = some { origin with children := oc4 }) ∧
    (∀ x, s4.pending_sync.contains x = true →
      s'.pending_sync.contains x = true) ∧
    (∃ evs, s'.events = s.events ++ evs) ∧
    s.next_id ≤ s'.next_id ∧
    (∀ x, ¬ x ∈ s.allWorkspaces.map Workspace.id → x < s.next_id →
      ¬ x ∈ s'.allWorkspaces.map Workspace.id) ∧
    (∀ d, (target.children ++ [wsDpi target.rect ws]).find?
        Workspace.destroyable = some d →
      ¬ d.id ∈ s'.allWorkspaces.map Workspace.id) ∧
    (∃ base : List Workspace, s'.allWorkspaces.Perm base ∧
      base.Sublist ((s.allWorkspaces.filter (fun w => ¬ w.id = wsId))
        ++ [wsDpi target.rect ws] ++ reps)) := by
  obtain ⟨hndm4, hndw4, hltm4, hltw4⟩ := hwf4
  obtain ⟨evs0, hevs0⟩ := F6
  cases hfind : (target.children ++ [wsDpi target.rect ws]).find?
      Workspace.destroyable with
  | some d =>
    have hs' := hs1 d hfind
    have hd_mem : d ∈ target.children ++ [wsDpi target.rect ws] :=
      List.mem_of_find?_eq_some hfind
    have hd_not : ∀ m0 ∈ s.monitors, ¬ m0.id = origin.id →
        ¬ m0.id = targetId → ∀ w ∈ m0.children, ¬ w.id = d.id := by
      intro m0 hm0 h1 h2 w hw
      rcases List.mem_append.mp hd_mem with hd1 | hd1
      · exact children_ids_disjoint s.monitors hndw m0 target hm0
          h_target_mem (by rw [h_tid]; exact h2) w hw d hd1
      · have hde : d = wsDpi target.rect ws := by simpa using hd1
        rw [hde]
        have := children_ids_disjoint s.monitors hndw m0 origin hm0
          h_origin_mem h1 w hw ws hmem
        exact this
    have h5t : (deactivate_workspace d.id s4).monitor_by_id targetId
        = some ⟨target.id, target.rect, (target.children
            ++ [wsDpi target.rect ws]).filter (fun w => ¬ w.id = d.id)⟩ := by
      rw [monitor_by_id_deactivate, F1]
      rfl
    have h5o : (deactivate_workspace d.id s4).monitor_by_id origin.id
        = some { origin with children := oc4 } := by
      rw [monitor_by_id_deactivate, F4]
      simp only [Option.map_some']
      have hfe : oc4.filter (fun w => ¬ w.id = d.id) = oc4 :=
        List.filter_eq_self.mpr (fun w hw => by
          simp [F4d w hw d hd_mem])
      rw [hfe]
    have h5m : ∀ m0 ∈ s.monitors, ¬ m0.id = origin.id →
        ¬ m0.id = targetId →
        (deactivate_workspace d.id s4).monitor_by_id m0.id = some m0 := by
      intro m0 hm0 h1 h2
      rw [monitor_by_id_deactivate, F3 m0 hm0 h1 h2]
      simp only [Option.map_some']
      have hfe : m0.children.filter (fun w => ¬ w.id = d.id)
          = m0.children :=
        List.filter_eq_self.mpr (fun w hw => by
          simp [hd_not m0 hm0 h1 h2 w hw])
      rw [hfe]
    have h5w : (deactivate_workspace d.id s4).allWorkspaces
        = s4.allWorkspaces.filter (fun w => ¬ w.id = d.id) :=
      allWorkspaces_deactivate s4 d.id
    have h6t : s'.monitor_by_id targetId = some ⟨target.id, target.rect,
        sortByKey (workspaceSortKey config) ((target.children
          ++ [wsDpi target.rect ws]).filter (fun w => ¬ w.id = d.id))⟩ := by
      rw [hs', monitor_by_id_eq_of_monitors _ _ _ (monitors_emit _ _),
        monitor_by_id_sort, h5t]
      simp only [Option.map_some']
      have hcond : (⟨target.id, target.rect, (target.children
          ++ [wsDpi target.rect ws]).filter (fun w => ¬ w.id = d.id)⟩
            : Monitor).id = targetId := h_tid
      rw [if_pos hcond]
    have h6o : s'.monitor_by_id origin.id
        = some { origin with children := oc4 } := by
      rw [hs', monitor_by_id_eq_of_monitors _ _ _ (monitors_emit _ _),
        monitor_by_id_sort, h5o]
      simp only [Option.map_some']
      have hcond : ¬ ({ origin with children := oc4 } : Monitor).id
          = targetId := hne
      rw [if_neg hcond]
    have h6w : s'.allWorkspaces.Perm
        (s4.allWorkspaces.filter (fun w => ¬ w.id = d.id)) := by
      have hp := allWorkspaces_sort_perm
        (deactivate_workspace d.id s4) targetId config
      rw [h5w] at hp
      rw [hs', allWorkspaces_emit]
      exact hp
    have h6e : ∃ evs, s'.events = s.events ++ evs := by
      refine ⟨evs0 ++ [WmEvent.WorkspaceDeactivated d.id]
        ++ [WmEvent.WorkspaceUpdated wsId], ?_⟩
      rw [hs', events_emit, events_sort, events_deactivate, hevs0]
      simp [List.append_assoc]
    have h6p : s'.pending_sync = s4.pending_sync := by
      rw [hs', pending_emit, pending_sort, pending_deactivate]
    have h6n : s'.next_id = s4.next_id := by
      rw [hs', next_id_emit, next_id_sort, next_id_deactivate]
    have h6i : s'.monitors.map Monitor.id = s.monitors.map Monitor.id := by
      rw [hs', monitors_emit, map_id_sort, map_id_deactivate, F2]
    have hwf' : s'.wf := by
      refine ⟨?_, ?_, ?_, ?_⟩
      · rw [h6i, ← F2]
        exact hndm4
      · have hsub : ((s4.allWorkspaces.filter
            (fun w => ¬ w.id = d.id)).map Workspace.id).Sublist
              (s4.allWorkspaces.map Workspace.id) :=
          List.Sublist.map _ (List.filter_sublist _)
        have hnd5 := List.Nodup.sublist hsub hndw4
        exact ((h6w.map Workspace.id).symm).nodup hnd5
      · intro m hm
        have hmm : m.id ∈ s'.monitors.map Monitor.id :=
          List.mem_map_of_mem _ hm
        rw [h6i] at hmm
        rcases List.mem_map.mp hmm with ⟨m0, hm0, he⟩
        rw [← he, h6n]
        exact lt_of_lt_of_le (hltm m0 hm0) F7
      · intro w hw
        have hw5 : w ∈ s4.allWorkspaces.filter (fun w => ¬ w.id = d.id) :=
          h6w.mem_iff.mp hw
        rw [h6n]
        exact hltw4 w (List.mem_filter.mp hw5).1
    refine ⟨hwf', h6i, ?_, ?_, h6o, ?_, h6e, ?_, ?_, ?_, ?_⟩
    · intro m0 hm0 h1 h2
      rw [hs', monitor_by_id_eq_of_monitors _ _ _ (monitors_emit _ _),
        monitor_by_id_sort, h5m m0 hm0 h1 h2]
      simp only [Option.map_some']
      rw [if_neg h2]
    · refine ⟨_, h6t, rfl, ?_⟩
      unfold maybeDestroy
      rw [hfind]
    · intro x hx
      rw [h6p]
      exact hx
    · rw [h6n]
      exact F7
    · intro x hx hxlt
      have h8 := F8 x hx hxlt
      intro hmem'
      apply h8
      rcases List.mem_map.mp hmem' with ⟨w, hw, he⟩
      have hw5 : w ∈ s4.allWorkspaces.filter (fun w => ¬ w.id = d.id) :=
        h6w.mem_iff.mp hw
      exact List.mem_map.mpr ⟨w, (List.mem_filter.mp hw5).1, he⟩
    · intro d0 hd0
      have hde : d0 = d := (Option.some.inj hd0).symm
      subst hde
      intro hmem'
      rcases List.mem_map.mp hmem' with ⟨w, hw, he⟩
      have hw5 : w ∈ s4.allWorkspaces.filter (fun w => ¬ w.id = d0.id) :=
        h6w.mem_iff.mp hw
      have hne2 := (List.mem_filter.mp hw5).2
      simp at hne2
      exact hne2 he
    · refine ⟨((s.allWorkspaces.filter (fun w => ¬ w.id = wsId))
          ++ [wsDpi target.rect ws] ++ reps).filter (fun w => ¬ w.id = d.id),
        h6w.trans (F9.filter _), List.filter_sublist _⟩
  | none =>
    have hs' := hs2 hfind
    have h6t : s'.monitor_by_id targetId = some ⟨target.id, target.rect,
        sortByKey (workspaceSortKey config)
          (target.children ++ [wsDpi target.rect ws])⟩ := by
      rw [hs', monitor_by_id_eq_of_monitors _ _ _ (monitors_emit _ _),
        monitor_by_id_sort, F1]
      simp only [Option.map_some']
      have hcond : (⟨target.id, target.rect, target.children
          ++ [wsDpi target.rect ws]⟩ : Monitor).id = targetId := h_tid
      rw [if_pos hcond]
    have h6o : s'.monitor_by_id origin.id
        = some { origin with children := oc4 } := by
      rw [hs', monitor_by_id_eq_of_monitors _ _ _ (monitors_emit _ _),
        monitor_by_id_sort, F4]
      simp only [Option.map_some']
      have hcond : ¬ ({ origin with children := oc4 } : Monitor).id
          = targetId := hne
      rw [if_neg hcond]
    have h6w : s'.allWorkspaces.Perm s4.allWorkspaces := by
      rw [hs', allWorkspaces_emit]
      exact allWorkspaces_sort_perm s4 targetId config
    have h6e : ∃ evs, s'.events = s.events ++ evs := by
      refine ⟨evs0 ++ [WmEvent.WorkspaceUpdated wsId], ?_⟩
      rw [hs', events_emit, events_sort, hevs0]
      simp [List.append_assoc]
    have h6p : s'.pending_sync = s4.pending_sync := by
      rw [hs', pending_emit, pending_sort]
    have h6n : s'.next_id = s4.next_id := by
      rw [hs', next_id_emit, next_id_sort]
    have h6i : s'.monitors.map Monitor.id = s.monitors.map Monitor.id := by
      rw [hs', monitors_emit, map_id_sort, F2]
    have hwf' : s'.wf := by
      refine ⟨?_, ?_, ?_, ?_⟩
      · rw [h6i, ← F2]
        exact hndm4
      · exact ((h6w.map Workspace.id).symm).nodup hndw4
      · intro m hm
        have hmm : m.id ∈ s'.monitors.map Monitor.id :=
          List.mem_map_of_mem _ hm
        rw [h6i] at hmm
        rcases List.mem_map.mp hmm with ⟨m0, hm0, he⟩
        rw [← he, h6n]
        exact lt_of_lt_of_le (hltm m0 hm0) F7
      · intro w hw
        rw [h6n]
        exact hltw4 w (h6w.mem_iff.mp hw)
    refine ⟨hwf', h6i, ?_, ?_, h6o, ?_, h6e, ?_, ?_, ?_, ?_⟩
    · intro m0 hm0 h1 h2
      rw [hs', monitor_by_id_eq_of_monitors _ _ _ (monitors_emit _ _),
        monitor_by_id_sort, F3 m0 hm0 h1 h2]
      simp only [Option.map_some']
      rw [if_neg h2]
    · refine ⟨_, h6t, rfl, ?_⟩
      unfold maybeDestroy
      rw [hfind]
    · intro x hx
      rw [h6p]
      exact hx
    · rw [h6n]
      exact F7
    · intro x hx hxlt
      have h8 := F8 x hx hxlt
      intro hmem'
      apply h8
      rcases List.mem_map.mp hmem' with ⟨w, hw, he⟩
      exact List.mem_map.mpr ⟨w, h6w.mem_iff.mp hw, he⟩
    · intro d0 hd0
      exact Option.noConfusion hd0
    · exact ⟨_, h6w.trans F9, List.Sublist.refl _⟩

/-- Master characterization of a successful run of
`move_workspace_to_monitor_impl` onto a different monitor. -/
theorem move_impl_ok (s s' : WmState) (config : UserConfig)
    (wsId targetId : Nat) (origin target : Monitor) (ws : Workspace)
    (hwf : s.wf)
    (hog : s.monitor_of wsId = some origin)
    (htg : s.monitor_by_id targetId = some target)
    (hws : s.workspace_by_id wsId = some ws)
    (hmem : ws ∈ origin.children)
    (hne : ¬ origin.id = targetId)
    (hok : move_workspace_to_monitor_impl wsId targetId s config
      = (.ok (), s')) :
    s'.wf ∧
    s'.monitors.map Monitor.id = s.monitors.map Monitor.id ∧
    (∀ m ∈ s.monitors, ¬ m.id = origin.id → ¬ m.id = targetId →
      s'.monitor_by_id m.id = some m) ∧
    (∃ mt, s'.monitor_by_id targetId = some mt ∧ mt.rect = target.rect ∧
      mt.children = sortByKey (workspaceSortKey config)
        (maybeDestroy (target.children ++ [wsDpi target.rect ws]))) ∧
    (∃ disp ∈ target.children ++ [wsDpi target.rect ws],
      disp.displayed = true) ∧
    (origin.children.filter (fun w => ¬ w.id = wsId) = [] →
      ∃ rep : Workspace, rep.children = [] ∧ rep.displayed = true ∧
        rep.id = s.next_id ∧ rep.config ∈ config.workspaces ∧
        s'.monitor_by_id origin.id = some { origin with children := [rep] } ∧
        s'.pending_sync.contains (PendingEffect.redraw rep.id) = true) ∧
    (¬ origin.children.filter (fun w => ¬ w.id = wsId) = [] →
      ∃ mo, s'.monitor_by_id origin.id = some mo ∧ mo.rect = origin.rect ∧
        mo.children = origin.children.filter (fun w => ¬ w.id = wsId)) ∧
    (∃ evs, s'.events = s.events ++ evs) ∧
    s.next_id ≤ s'.next_id ∧
    (∀ x, ¬ x ∈ s.allWorkspaces.map Workspace.id → x < s.next_id →
      ¬ x ∈ s'.allWorkspaces.map Workspace.id) ∧
    (∀ d, (target.children ++ [wsDpi target.rect ws]).find?
        Workspace.destroyable = some d →
      ¬ d.id ∈ s'.allWorkspaces.map Workspace.id) ∧
    (∃ reps : List Workspace,
      (∀ r ∈ reps, r.config ∈ config.workspaces ∧ r.displayed = true ∧
        r.children = [] ∧ r.id = s.next_id ∧
        ¬ r.config.name ∈ s.allWorkspaces.map (fun w => w.config.name)) ∧
      (reps.map (fun w => w.config.name)).Nodup ∧
      ∃ base : List Workspace, s'.allWorkspaces.Perm base ∧
        base.Sublist ((s.allWorkspaces.filter (fun w => ¬ w.id = wsId))
          ++ [wsDpi target.rect ws] ++ reps)) := by
  obtain ⟨hndm, hndw, hltm, hltw⟩ := hwf
  obtain ⟨h_ws_all, h_wsid⟩ := workspace_by_id_spec s wsId ws hws
  have h_origin_mem : origin ∈ s.monitors := (monitor_of_spec s wsId origin hog).1
  have h_target_mem : target ∈ s.monitors := List.mem_of_find?_eq_some htg
  have h_tid : target.id = targetId := by
    have h2 := List.find?_some htg
    simpa using h2
  have h_tid_ne : ¬ target.id = origin.id := by
    rw [h_tid]
    intro h
    exact hne h.symm
  have h_no_ws_target : ∀ w ∈ target.children, ¬ w.id = wsId := by
    intro w hw he
    have hd := children_ids_disjoint s.monitors hndw target origin
      h_target_mem h_origin_mem h_tid_ne w hw ws hmem
    rw [h_wsid] at hd
    exact hd he
  have h_filter_target : target.children.filter (fun w => ¬ w.id = wsId)
      = target.children := by
    rw [List.filter_eq_self]
    intro w hw
    simp [h_no_ws_target w hw]
  have hmv := move_in_tree_eq s wsId targetId ws target hws htg
  unfold move_workspace_to_monitor_impl at hok
  simp only [hog, hmv] at hok
  have htg' : s.monitors.find? (fun m => m.id = targetId) = some target := htg
  have horf : s.monitors.find? (fun m => m.id = origin.id) = some origin :=
    find?_eq_some_of_nodup Monitor.id s.monitors hndm origin h_origin_mem
  have hmo1 : ({ monitors := s.monitors.map (moveStep wsId ws targetId), pending_sync := s.pending_sync, events := s.events, next_id := s.next_id } : WmState).monitor_of wsId
      = some (moveStep wsId ws targetId target) := by
    unfold WmState.monitor_of
    have e1 : ({ monitors := s.monitors.map (moveStep wsId ws targetId), pending_sync := s.pending_sync, events := s.events, next_id := s.next_id } : WmState).monitors
        = s.monitors.map (moveStep wsId ws targetId) := rfl
    rw [e1, List.find?_map]
    have e2 : ((fun (m : Monitor) => m.children.any (fun w => w.id = wsId))
        ∘ (moveStep wsId ws targetId))
        = (fun (m : Monitor) => m.id = targetId) := by
      funext m
      simp only [Function.comp]
      rw [moveStep_children, List.any_append, any_filter_ne]
      by_cases h : m.id = targetId
      · simp [h, h_wsid]
      · simp [h]
    rw [e2, htg']
    rfl
  have hrect : ({ monitors := s.monitors.map (moveStep wsId ws targetId), pending_sync := s.pending_sync, events := s.events, next_id := s.next_id } : WmState).workspace_rect
      wsId = some target.rect := by
    unfold WmState.workspace_rect
    rw [hmo1]
    simp [moveStep_rect]
  simp only [hrect] at hok
  have hfm : ∀ (l : List Workspace), (∀ w ∈ l, ¬ w.id = wsId) →
      l.map (fun w => if w.id = wsId then { w with children := w.children.map (dpiAdjustWindow target.rect) } else w) = l := by
    intro l hl
    calc l.map (fun w => if w.id = wsId then { w with children := w.children.map (dpiAdjustWindow target.rect) } else w)
        = l.map (fun w => w) :=
          List.map_congr_left (fun w hw => by rw [if_neg (hl w hw)])
      _ = l := List.map_id' l
  have hupd : ({ monitors := s.monitors.map (moveStep wsId ws targetId), pending_sync := s.pending_sync, events := s.events, next_id := s.next_id } : WmState).update_workspace wsId (fun w => { w with children := w.children.map (dpiAdjustWindow target.rect) }) = ({ monitors := s.monitors.map (moveStep wsId (wsDpi target.rect ws) targetId), pending_sync := s.pending_sync, events := s.events, next_id := s.next_id } : WmState) := by
    unfold WmState.update_workspace
    have hmaps : (s.monitors.map (moveStep wsId ws targetId)).map (fun m => { m with children := m.children.map (fun w => if w.id = wsId then { w with children := w.children.map (dpiAdjustWindow target.rect) } else w) }) = s.monitors.map (moveStep wsId (wsDpi target.rect ws) targetId) := by
      rw [List.map_map]
      apply List.map_congr_left
      intro m _
      simp only [Function.comp]
      by_cases h : m.id = targetId
      · unfold moveStep
        rw [if_pos h, if_pos h]
        simp only [List.map_append]
        rw [hfm (m.children.filter (fun w => ¬ w.id = wsId)) (fun w hw => by
          have h2 := List.of_mem_filter hw
          simp at h2
          exact h2)]
        simp only [List.map_cons, List.map_nil]
        rw [if_pos h_wsid]
        rfl
      · unfold moveStep
        rw [if_neg h, if_neg h]
        rw [hfm (m.children.filter (fun w => ¬ w.id = wsId)) (fun w hw => by
          have h2 := List.of_mem_filter hw
          simp at h2
          exact h2)]
    exact congrArg (fun l => ({ monitors := l, pending_sync := s.pending_sync, events := s.events, next_id := s.next_id } : WmState)) hmaps
  simp only [hupd] at hok
  have h_ws1id : (wsDpi target.rect ws).id = wsId := h_wsid
  have hmb2 : ({ monitors := s.monitors.map (moveStep wsId (wsDpi target.rect ws) targetId), pending_sync := s.pending_sync, events := s.events, next_id := s.next_id } : WmState).monitor_by_id targetId = some ⟨target.id, target.rect, target.children ++ [wsDpi target.rect ws]⟩ := by
    unfold WmState.monitor_by_id
    have e1 : ({ monitors := s.monitors.map (moveStep wsId (wsDpi target.rect ws) targetId), pending_sync := s.pending_sync, events := s.events, next_id := s.next_id } : WmState).monitors = s.monitors.map (moveStep wsId (wsDpi target.rect ws) targetId) := rfl
    rw [e1, find?_id_map (moveStep wsId (wsDpi target.rect ws) targetId) (moveStep_id wsId (wsDpi target.rect ws) targetId) targetId s.monitors, htg']
    simp only [Option.map_some']
    unfold moveStep
    rw [if_pos h_tid, h_filter_target]
  simp only [hmb2, Option.some_bind] at hok
  have hdw : (⟨target.id, target.rect, target.children ++ [wsDpi target.rect ws]⟩ : Monitor).displayed_workspace = (target.children ++ [wsDpi target.rect ws]).find? (fun w => w.displayed) := rfl
  rw [hdw] at hok
  cases hdisp : (target.children ++ [wsDpi target.rect ws]).find? (fun w => w.displayed) with
  | none =>
    simp only [hdisp] at hok
    simp at hok
  | some disp =>
    simp only [hdisp] at hok
    have horig2 : ({ monitors := s.monitors.map (moveStep wsId (wsDpi target.rect ws) targetId), pending_sync := s.pending_sync, events := s.events, next_id := s.next_id } : WmState).monitor_by_id origin.id = some ⟨origin.id, origin.rect, origin.children.filter (fun w => ¬ w.id = wsId)⟩ := by
      unfold WmState.monitor_by_id
      have e1 : ({ monitors := s.monitors.map (moveStep wsId (wsDpi target.rect ws) targetId), pending_sync := s.pending_sync, events := s.events, next_id := s.next_id } : WmState).monitors = s.monitors.map (moveStep wsId (wsDpi target.rect ws) targetId) := rfl
      rw [e1, find?_id_map (moveStep wsId (wsDpi target.rect ws) targetId) (moveStep_id wsId (wsDpi target.rect ws) targetId) origin.id s.monitors, horf]
      simp only [Option.map_some']
      unfold moveStep
      rw [if_neg hne]
    have hS3mon : (((({ monitors := s.monitors.map (moveStep wsId (wsDpi target.rect ws) targetId), pending_sync := s.pending_sync, events := s.events, next_id := s.next_id } : WmState).queue_cursor_jump).queue_redraw wsId).queue_redraw disp.id).monitors = ({ monitors := s.monitors.map (moveStep wsId (wsDpi target.rect ws) targetId), pending_sync := s.pending_sync, events := s.events, next_id := s.next_id } : WmState).monitors := by
      rw [monitors_queue_redraw, monitors_queue_redraw, monitors_queue_cursor]
    have hS3m : ∀ x, (((({ monitors := s.monitors.map (moveStep wsId (wsDpi target.rect ws) targetId), pending_sync := s.pending_sync, events := s.events, next_id := s.next_id } : WmState).queue_cursor_jump).queue_redraw wsId).queue_redraw disp.id).monitor_by_id x = ({ monitors := s.monitors.map (moveStep wsId (wsDpi target.rect ws) targetId), pending_sync := s.pending_sync, events := s.events, next_id := s.next_id } : WmState).monitor_by_id x := by
      intro x
      exact monitor_by_id_eq_of_monitors _ _ x hS3mon
    simp only [hS3m, horig2] at hok
    have hS3n : (((({ monitors := s.monitors.map (moveStep wsId (wsDpi target.rect ws) targetId), pending_sync := s.pending_sync, events := s.events, next_id := s.next_id } : WmState).queue_cursor_jump).queue_redraw wsId).queue_redraw disp.id).next_id = s.next_id := by
      rw [next_id_queue_redraw, next_id_queue_redraw, next_id_queue_cursor]
    have hS3e : (((({ monitors := s.monitors.map (moveStep wsId (wsDpi target.rect ws) targetId), pending_sync := s.pending_sync, events := s.events, next_id := s.next_id } : WmState).queue_cursor_jump).queue_redraw wsId).queue_redraw disp.id).events = s.events := by
      rw [events_queue_redraw, events_queue_redraw, events_queue_cursor]
    have hS3w : (((({ monitors := s.monitors.map (moveStep wsId (wsDpi target.rect ws) targetId), pending_sync := s.pending_sync, events := s.events, next_id := s.next_id } : WmState).queue_cursor_jump).queue_redraw wsId).queue_redraw disp.id).allWorkspaces = ({ monitors := s.monitors.map (moveStep wsId (wsDpi target.rect ws) targetId), pending_sync := s.pending_sync, events := s.events, next_id := s.next_id } : WmState).allWorkspaces :=
      allWorkspaces_eq_of_monitors _ _ hS3mon
    have hS2i : ({ monitors := s.monitors.map (moveStep wsId (wsDpi target.rect ws) targetId), pending_sync := s.pending_sync, events := s.events, next_id := s.next_id } : WmState).monitors.map Monitor.id = s.monitors.map Monitor.id :=
      map_id_of_pres (moveStep wsId (wsDpi target.rect ws) targetId) (moveStep_id wsId (wsDpi target.rect ws) targetId) s.monitors
    have hS2perm : ({ monitors := s.monitors.map (moveStep wsId (wsDpi target.rect ws) targetId), pending_sync := s.pending_sync, events := s.events, next_id := s.next_id } : WmState).allWorkspaces.Perm ((s.allWorkspaces.filter (fun w => ¬ w.id = wsId)) ++ [wsDpi target.rect ws]) :=
      allWorkspaces_moveStep_perm s wsId targetId (wsDpi target.rect ws) target hndm htg
    have hstrip_sub : ∀ x, x ∈ ((s.allWorkspaces.filter (fun w => ¬ w.id = wsId)).map Workspace.id) → x ∈ s.allWorkspaces.map Workspace.id := by
      intro x hx
      rcases List.mem_map.mp hx with ⟨w, hw, he⟩
      exact List.mem_map.mpr ⟨w, (List.mem_filter.mp hw).1, he⟩
    have hstrip_nd : ((s.allWorkspaces.filter (fun w => ¬ w.id = wsId)).map Workspace.id).Nodup :=
      List.Nodup.sublist (List.Sublist.map _ (List.filter_sublist _)) hndw
    have hws_not_strip : ¬ wsId ∈ ((s.allWorkspaces.filter (fun w => ¬ w.id = wsId)).map Workspace.id) := by
      intro hx
      rcases List.mem_map.mp hx with ⟨w, hw, he⟩
      have h2 := (List.mem_filter.mp hw).2
      simp at h2
      exact h2 he
    have hstrip_lt : ∀ x, x ∈ ((s.allWorkspaces.filter (fun w => ¬ w.id = wsId)).map Workspace.id) → x < s.next_id := by
      intro x hx
      rcases List.mem_map.mp hx with ⟨w, hw, he⟩
      rw [← he]
      exact hltw w (List.mem_filter.mp hw).1
    have hS2nd : (({ monitors := s.monitors.map (moveStep wsId (wsDpi target.rect ws) targetId), pending_sync := s.pending_sync, events := s.events, next_id := s.next_id } : WmState).allWorkspaces.map Workspace.id).Nodup := by
      refine ((hS2perm.map Workspace.id).symm).nodup ?_
      rw [List.map_append]
      rw [List.nodup_append]
      refine ⟨hstrip_nd, List.nodup_singleton _, ?_⟩
      intro x hx hx2
      simp only [List.map_cons, List.map_nil, List.mem_singleton] at hx2
      rw [hx2, h_ws1id] at hx
      exact hws_not_strip hx
    have hS2lt : ∀ w ∈ ({ monitors := s.monitors.map (moveStep wsId (wsDpi target.rect ws) targetId), pending_sync := s.pending_sync, events := s.events, next_id := s.next_id } : WmState).allWorkspaces, w.id < s.next_id := by
      intro w hw
      have hw2 := hS2perm.mem_iff.mp hw
      rcases List.mem_append.mp hw2 with hw3 | hw3
      · exact hltw w (List.mem_filter.mp hw3).1
      · have : w = wsDpi target.rect ws := by simpa using hw3
        rw [this]
        have : (wsDpi target.rect ws).id = ws.id := rfl
        rw [this]
        exact hltw ws h_ws_all
    have hothers2 : ∀ m0 ∈ s.monitors, ¬ m0.id = origin.id → ¬ m0.id = targetId → ({ monitors := s.monitors.map (moveStep wsId (wsDpi target.rect ws) targetId), pending_sync := s.pending_sync, events := s.events, next_id := s.next_id } : WmState).monitor_by_id m0.id = some m0 := by
      intro m0 hm0 h1 h2
      unfold WmState.monitor_by_id
      have e1 : ({ monitors := s.monitors.map (moveStep wsId (wsDpi target.rect ws) targetId), pending_sync := s.pending_sync, events := s.events, next_id := s.next_id } : WmState).monitors = s.monitors.map (moveStep wsId (wsDpi target.rect ws) targetId) := rfl
      rw [e1, find?_id_map (moveStep wsId (wsDpi target.rect ws) targetId) (moveStep_id wsId (wsDpi target.rect ws) targetId) m0.id s.monitors, find?_eq_some_of_nodup Monitor.id s.monitors hndm m0 hm0]
      simp only [Option.map_some']
      unfold moveStep
      rw [if_neg h2]
      have hfe : m0.children.filter (fun w => ¬ w.id = wsId) = m0.children := by
        rw [List.filter_eq_self]
        intro w hw
        have hd := children_ids_disjoint s.monitors hndw m0 origin hm0 h_origin_mem h1 w hw ws hmem
        rw [h_wsid] at hd
        simp [hd]
      rw [hfe]
    have hdisp_ex : ∃ dispw ∈ target.children ++ [wsDpi target.rect ws], dispw.displayed = true :=
      ⟨disp, List.mem_of_find?_eq_some hdisp, List.find?_some hdisp⟩
    by_cases hoc : origin.children.filter (fun w => ¬ w.id = wsId) = []
    · rw [hoc] at hok
      rw [if_pos (show (⟨origin.id, origin.rect, ([] : List Workspace)⟩ : Monitor).child_count = 0 from rfl)] at hok
      cases hact : activate_workspace none origin.id (((({ monitors := s.monitors.map (moveStep wsId (wsDpi target.rect ws) targetId), pending_sync := s.pending_sync, events := s.events, next_id := s.next_id } : WmState).queue_cursor_jump).queue_redraw wsId).queue_redraw disp.id) config with
      | mk res s4 =>
        cases res with
        | error e =>
          rw [hact] at hok
          simp at hok
        | ok u =>
          cases u
          rw [hact] at hok
          have horigS3 : (((({ monitors := s.monitors.map (moveStep wsId (wsDpi target.rect ws) targetId), pending_sync := s.pending_sync, events := s.events, next_id := s.next_id } : WmState).queue_cursor_jump).queue_redraw wsId).queue_redraw disp.id).monitor_by_id origin.id = some ⟨origin.id, origin.rect, ([] : List Workspace)⟩ := by
            rw [hS3m, horig2, hoc]
          obtain ⟨wsCfg, hn1, hn2, hs4⟩ := activate_ok_char none origin.id (((({ monitors := s.monitors.map (moveStep wsId (wsDpi target.rect ws) targetId), pending_sync := s.pending_sync, events := s.events, next_id := s.next_id } : WmState).queue_cursor_jump).queue_redraw wsId).queue_redraw disp.id) s4 config ⟨origin.id, origin.rect, ([] : List Workspace)⟩ horigS3 hact
          have hcfg_find := hn2 rfl
          have hcfg_mem : wsCfg ∈ config.workspaces :=
            List.mem_of_find?_eq_some hcfg_find
          rw [show ((⟨origin.id, origin.rect, ([] : List Workspace)⟩ : Monitor).displayed_workspace.isNone) = true from rfl] at hs4
          rw [hS3n] at hs4
          have hF1 : s4.monitor_by_id targetId = some ⟨target.id, target.rect, target.children ++ [wsDpi target.rect ws]⟩ := by
            rw [hs4, monitor_by_id_queue_redraw, monitor_by_id_emit,
              monitor_by_id_update _ origin.id (fun m => { m with children := m.children ++ [({ id := s.next_id, config := wsCfg, displayed := true, children := [] } : Workspace)] }) (fun m => rfl) targetId,
              monitor_by_id_set_next, hS3m, hmb2]
            simp only [Option.map_some']
            rw [if_neg (show ¬ (⟨target.id, target.rect, target.children ++ [wsDpi target.rect ws]⟩ : Monitor).id = origin.id from h_tid_ne)]
          have hF4 : s4.monitor_by_id origin.id = some ⟨origin.id, origin.rect, [({ id := s.next_id, config := wsCfg, displayed := true, children := [] } : Workspace)]⟩ := by
            rw [hs4, monitor_by_id_queue_redraw, monitor_by_id_emit,
              monitor_by_id_update _ origin.id (fun m => { m with children := m.children ++ [({ id := s.next_id, config := wsCfg, displayed := true, children := [] } : Workspace)] }) (fun m => rfl) origin.id,
              monitor_by_id_set_next, hS3m, horig2, hoc]
            simp only [Option.map_some']
            simp
          have hF3 : ∀ m0 ∈ s.monitors, ¬ m0.id = origin.id → ¬ m0.id = targetId → s4.monitor_by_id m0.id = some m0 := by
            intro m0 hm0 h1 h2
            rw [hs4, monitor_by_id_queue_redraw, monitor_by_id_emit,
              monitor_by_id_update _ origin.id (fun m => { m with children := m.children ++ [({ id := s.next_id, config := wsCfg, displayed := true, children := [] } : Workspace)] }) (fun m => rfl) m0.id,
              monitor_by_id_set_next, hS3m, hothers2 m0 hm0 h1 h2]
            simp only [Option.map_some']
            rw [if_neg h1]
          have hF2 : s4.monitors.map Monitor.id = s.monitors.map Monitor.id := by
            rw [hs4, monitors_queue_redraw, monitors_emit,
              map_id_update_monitor _ origin.id (fun m => { m with children := m.children ++ [({ id := s.next_id, config := wsCfg, displayed := true, children := [] } : Workspace)] }) (fun m => rfl),
              monitors_set_next, hS3mon]
            exact hS2i
          have h_next4 : s4.next_id = s.next_id + 1 := by
            rw [hs4, next_id_queue_redraw, next_id_emit, next_id_update_monitor, next_id_set_next]
          have h_ev4 : s4.events = s.events ++ [WmEvent.WorkspaceActivated s.next_id] := by
            rw [hs4, events_queue_redraw, events_emit, events_update_monitor, events_set_next, hS3e]
          have h_pend4 : s4.pending_sync.contains (PendingEffect.redraw s.next_id) = true := by
            rw [hs4]
            exact pending_queue_redraw_self _ _
          have h_allw4 : s4.allWorkspaces.Perm (((s.allWorkspaces.filter (fun w => ¬ w.id = wsId)) ++ [wsDpi target.rect ws]) ++ [({ id := s.next_id, config := wsCfg, displayed := true, children := [] } : Workspace)]) := by
            rw [hs4, allWorkspaces_queue_redraw, allWorkspaces_emit]
            refine (allWorkspaces_update_append_perm _ origin.id ⟨origin.id, origin.rect, ([] : List Workspace)⟩ ({ id := s.next_id, config := wsCfg, displayed := true, children := [] } : Workspace) ?_ ?_).trans ?_
            · rw [monitors_set_next, hS3mon, hS2i]
              exact hndm
            · rw [monitor_by_id_set_next, hS3m, horig2, hoc]
            · rw [allWorkspaces_set_next, hS3w]
              exact hS2perm.append_right _
          have hids4 : (s4.allWorkspaces.map Workspace.id).Nodup := by
            refine ((h_allw4.map Workspace.id).symm).nodup ?_
            rw [List.map_append, List.map_append, List.nodup_append]
            refine ⟨?_, List.nodup_singleton _, ?_⟩
            · rw [List.nodup_append]
              refine ⟨hstrip_nd, List.nodup_singleton _, ?_⟩
              intro x hx hx2
              simp only [List.map_cons, List.map_nil, List.mem_singleton] at hx2
              rw [hx2, h_ws1id] at hx
              exact hws_not_strip hx
            · intro x hx hx2
              simp only [List.map_cons, List.map_nil, List.mem_singleton] at hx2
              rcases List.mem_append.mp hx with hx3 | hx3
              · have hxlt := hstrip_lt x hx3
                rw [hx2] at hxlt
                simp at hxlt
              · simp only [List.map_cons, List.map_nil, List.mem_singleton] at hx3
                rw [hx3, h_ws1id] at hx2
                have hxlt := hltw ws h_ws_all
                rw [h_wsid] at hxlt
                rw [hx2] at hxlt
                simp at hxlt
          have hwf4 : s4.wf := by
            refine ⟨by rw [hF2]; exact hndm, hids4, ?_, ?_⟩
            · intro m hm
              have hmm : m.id ∈ s4.monitors.map Monitor.id := List.mem_map_of_mem _ hm
              rw [hF2] at hmm
              rcases List.mem_map.mp hmm with ⟨m0, hm0, he⟩
              rw [← he, h_next4]
              exact lt_trans (hltm m0 hm0) (Nat.lt_succ_self _)
            · intro w hw
              have hw2 := h_allw4.mem_iff.mp hw
              rw [h_next4]
              rcases List.mem_append.mp hw2 with hw3 | hw3
              · rcases List.mem_append.mp hw3 with hw4 | hw4
                · exact lt_trans (hltw w (List.mem_filter.mp hw4).1) (Nat.lt_succ_self _)
                · have hwe : w = wsDpi target.rect ws := by simpa using hw4
                  rw [hwe]
                  have : (wsDpi target.rect ws).id = ws.id := rfl
                  rw [this]
                  exact lt_trans (hltw ws h_ws_all) (Nat.lt_succ_self _)
              · have hwe : w = ({ id := s.next_id, config := wsCfg, displayed := true, children := [] } : Workspace) := by simpa using hw3
                rw [hwe]
                exact Nat.lt_succ_self _
          have hF4d : ∀ w ∈ [({ id := s.next_id, config := wsCfg, displayed := true, children := [] } : Workspace)], ∀ t ∈ target.children ++ [wsDpi target.rect ws], ¬ w.id = t.id := by
            intro w hw t ht
            have hwe : w = ({ id := s.next_id, config := wsCfg, displayed := true, children := [] } : Workspace) := by simpa using hw
            rw [hwe]
            intro hcontra
            rcases List.mem_append.mp ht with ht1 | ht1
            · have hxlt := hltw t (mem_allWorkspaces_of_mem s target t h_target_mem ht1)
              rw [← hcontra] at hxlt
              simp at hxlt
            · have hte : t = wsDpi target.rect ws := by simpa using ht1
              rw [hte, h_ws1id] at hcontra
              have hxlt := hltw ws h_ws_all
              rw [h_wsid] at hxlt
              rw [← hcontra] at hxlt
              simp at hxlt
          have hF8 : ∀ x, ¬ x ∈ s.allWorkspaces.map Workspace.id → x < s.next_id → ¬ x ∈ s4.allWorkspaces.map Workspace.id := by
            intro x hx hlt hmem4
            rcases List.mem_map.mp hmem4 with ⟨w, hw, he⟩
            have hw2 := h_allw4.mem_iff.mp hw
            rcases List.mem_append.mp hw2 with hw3 | hw3
            · rcases List.mem_append.mp hw3 with hw4 | hw4
              · exact hx (List.mem_map.mpr ⟨w, (List.mem_filter.mp hw4).1, he⟩)
              · have hwe : w = wsDpi target.rect ws := by simpa using hw4
                apply hx
                refine List.mem_map.mpr ⟨ws, h_ws_all, ?_⟩
                rw [← he, hwe]
                exact h_wsid.trans h_ws1id.symm
            · have hwe : w = ({ id := s.next_id, config := wsCfg, displayed := true, children := [] } : Workspace) := by simpa using hw3
              rw [hwe] at he
              simp at he
              rw [← he] at hlt
              simp at hlt
          have hcfg_pred := List.find?_some hcfg_find
          have hcfg_unused3 : ¬ wsCfg.name ∈ (((({ monitors := s.monitors.map (moveStep wsId (wsDpi target.rect ws) targetId), pending_sync := s.pending_sync, events := s.events, next_id := s.next_id } : WmState).queue_cursor_jump).queue_redraw wsId).queue_redraw disp.id).allWorkspaces.map (fun w => w.config.name) := by
            simp at hcfg_pred
            intro hmem0
            rcases List.mem_map.mp hmem0 with ⟨w0, hw0, he0⟩
            exact hcfg_pred w0 hw0 he0
          have hcfg_unused : ¬ wsCfg.name ∈ s.allWorkspaces.map
              (fun w => w.config.name) := by
            rw [hS3w] at hcfg_unused3
            intro hmem0
            rcases List.mem_map.mp hmem0 with ⟨w0, hw0, he0⟩
            apply hcfg_unused3
            by_cases hwid : w0.id = wsId
            · have hw0e : w0 = ws := eq_of_mem_of_nodup_ids Workspace.id
                s.allWorkspaces hndw w0 ws hw0 h_ws_all (by rw [hwid, h_wsid])
              refine List.mem_map.mpr ⟨wsDpi target.rect ws, ?_, ?_⟩
              · exact hS2perm.mem_iff.mpr (List.mem_append.mpr
                  (Or.inr (List.mem_singleton.mpr rfl)))
              · rw [← he0, hw0e]
                rfl
            · refine List.mem_map.mpr ⟨w0, ?_, he0⟩
              exact hS2perm.mem_iff.mpr (List.mem_append.mpr
                (Or.inl (List.mem_filter.mpr ⟨hw0, by simp [hwid]⟩)))
          simp only [] at hok
          simp only [hF1, Option.some_bind, Monitor.workspaces] at hok
          rw [Prod.mk.injEq] at hok
          obtain ⟨-, hbig⟩ := hok
          obtain ⟨G1, G2, G3, G4, G5, G6, G7, G8, G9, G10, G11⟩ :=
            move_impl_finish s s4 s' config wsId targetId origin target ws [({ id := s.next_id, config := wsCfg, displayed := true, children := [] } : Workspace)] [({ id := s.next_id, config := wsCfg, displayed := true, children := [] } : Workspace)]
              hndw hltm h_origin_mem h_target_mem h_tid hne hmem h_wsid hwf4
              hF1 hF2 hF3 hF4 hF4d ⟨[WmEvent.WorkspaceActivated s.next_id], h_ev4⟩
              (by rw [h_next4]; exact Nat.le_succ _) hF8 h_allw4
              (fun d hd => by rw [← hbig]; simp only [hd])
              (fun hd => by rw [← hbig]; simp only [hd])
          refine ⟨G1, G2, G3, G4, hdisp_ex, ?_, ?_, G7, G8, G9, G10, ?_⟩
          · intro _
            exact ⟨({ id := s.next_id, config := wsCfg, displayed := true, children := [] } : Workspace), rfl, rfl, rfl, hcfg_mem, G5, G6 _ h_pend4⟩
          · intro h
            exact absurd hoc h
          · refine ⟨[({ id := s.next_id, config := wsCfg, displayed := true, children := [] } : Workspace)], ?_, List.nodup_singleton _, G11⟩
            intro r hr
            have hre : r = ({ id := s.next_id, config := wsCfg, displayed := true, children := [] } : Workspace) := by simpa using hr
            rw [hre]
            exact ⟨hcfg_mem, rfl, rfl, rfl, hcfg_unused⟩
    · rw [if_neg (show ¬ (⟨origin.id, origin.rect, origin.children.filter (fun w => ¬ w.id = wsId)⟩ : Monitor).child_count = 0 from fun h => hoc (List.length_eq_zero.mp h))] at hok
      have hdwo : (⟨origin.id, origin.rect, origin.children.filter (fun w => ¬ w.id = wsId)⟩ : Monitor).displayed_workspace = (origin.children.filter (fun w => ¬ w.id = wsId)).find? (fun w => w.displayed) := rfl
      rw [hdwo] at hok
      cases hd0 : (origin.children.filter (fun w => ¬ w.id = wsId)).find? (fun w => w.displayed) with
      | none =>
        simp only [hd0] at hok
        simp at hok
      | some d0 =>
        simp only [hd0] at hok
        have hF1 : ((((({ monitors := s.monitors.map (moveStep wsId (wsDpi target.rect ws) targetId), pending_sync := s.pending_sync, events := s.events, next_id := s.next_id } : WmState).queue_cursor_jump).queue_redraw wsId).queue_redraw disp.id).queue_redraw d0.id).monitor_by_id targetId = some ⟨target.id, target.rect, target.children ++ [wsDpi target.rect ws]⟩ := by
          rw [monitor_by_id_queue_redraw, hS3m, hmb2]
        have hF4 : ((((({ monitors := s.monitors.map (moveStep wsId (wsDpi target.rect ws) targetId), pending_sync := s.pending_sync, events := s.events, next_id := s.next_id } : WmState).queue_cursor_jump).queue_redraw wsId).queue_redraw disp.id).queue_redraw d0.id).monitor_by_id origin.id = some ⟨origin.id, origin.rect, origin.children.filter (fun w => ¬ w.id = wsId)⟩ := by
          rw [monitor_by_id_queue_redraw, hS3m, horig2]
        have hF3 : ∀ m0 ∈ s.monitors, ¬ m0.id = origin.id → ¬ m0.id = targetId → ((((({ monitors := s.monitors.map (moveStep wsId (wsDpi target.rect ws) targetId), pending_sync := s.pending_sync, events := s.events, next_id := s.next_id } : WmState).queue_cursor_jump).queue_redraw wsId).queue_redraw disp.id).queue_redraw d0.id).monitor_by_id m0.id = some m0 := by
          intro m0 hm0 h1 h2
          rw [monitor_by_id_queue_redraw, hS3m, hothers2 m0 hm0 h1 h2]
        have hF2 : ((((({ monitors := s.monitors.map (moveStep wsId (wsDpi target.rect ws) targetId), pending_sync := s.pending_sync, events := s.events, next_id := s.next_id } : WmState).queue_cursor_jump).queue_redraw wsId).queue_redraw disp.id).queue_redraw d0.id).monitors.map Monitor.id = s.monitors.map Monitor.id := by
          rw [monitors_queue_redraw, hS3mon]
          exact hS2i
        have h_next4 : ((((({ monitors := s.monitors.map (moveStep wsId (wsDpi target.rect ws) targetId), pending_sync := s.pending_sync, events := s.events, next_id := s.next_id } : WmState).queue_cursor_jump).queue_redraw wsId).queue_redraw disp.id).queue_redraw d0.id).next_id = s.next_id := by
          rw [next_id_queue_redraw, hS3n]
        have h_allw4 : ((((({ monitors := s.monitors.map (moveStep wsId (wsDpi target.rect ws) targetId), pending_sync := s.pending_sync, events := s.events, next_id := s.next_id } : WmState).queue_cursor_jump).queue_redraw wsId).queue_redraw disp.id).queue_redraw d0.id).allWorkspaces = ({ monitors := s.monitors.map (moveStep wsId (wsDpi target.rect ws) targetId), pending_sync := s.pending_sync, events := s.events, next_id := s.next_id } : WmState).allWorkspaces := by
          rw [allWorkspaces_queue_redraw, hS3w]
        have hwf4 : ((((({ monitors := s.monitors.map (moveStep wsId (wsDpi target.rect ws) targetId), pending_sync := s.pending_sync, events := s.events, next_id := s.next_id } : WmState).queue_cursor_jump).queue_redraw wsId).queue_redraw disp.id).queue_redraw d0.id).wf := by
          refine ⟨by rw [hF2]; exact hndm, by rw [h_allw4]; exact hS2nd, ?_, ?_⟩
          · intro m hm
            have hmm : m.id ∈ ((((({ monitors := s.monitors.map (moveStep wsId (wsDpi target.rect ws) targetId), pending_sync := s.pending_sync, events := s.events, next_id := s.next_id } : WmState).queue_cursor_jump).queue_redraw wsId).queue_redraw disp.id).queue_redraw d0.id).monitors.map Monitor.id := List.mem_map_of_mem _ hm
            rw [hF2] at hmm
            rcases List.mem_map.mp hmm with ⟨m0, hm0, he⟩
            rw [← he, h_next4]
            exact hltm m0 hm0
          · intro w hw
            rw [h_allw4] at hw
            rw [h_next4]
            exact hS2lt w hw
        have hF4d : ∀ w ∈ origin.children.filter (fun w => ¬ w.id = wsId), ∀ t ∈ target.children ++ [wsDpi target.rect ws], ¬ w.id = t.id := by
          intro w hw t ht
          have hw1 : w ∈ origin.children := (List.mem_filter.mp hw).1
          have hw2 := (List.mem_filter.mp hw).2
          simp at hw2
          rcases List.mem_append.mp ht with ht1 | ht1
          · exact children_ids_disjoint s.monitors hndw origin target h_origin_mem h_target_mem (fun h => h_tid_ne h.symm) w hw1 t ht1
          · have hte : t = wsDpi target.rect ws := by simpa using ht1
            rw [hte, h_ws1id]
            exact hw2
        have hF8 : ∀ x, ¬ x ∈ s.allWorkspaces.map Workspace.id → x < s.next_id → ¬ x ∈ ((((({ monitors := s.monitors.map (moveStep wsId (wsDpi target.rect ws) targetId), pending_sync := s.pending_sync, events := s.events, next_id := s.next_id } : WmState).queue_cursor_jump).queue_redraw wsId).queue_redraw disp.id).queue_redraw d0.id).allWorkspaces.map Workspace.id := by
          intro x hx hlt hmem4
          rw [h_allw4] at hmem4
          rcases List.mem_map.mp hmem4 with ⟨w, hw, he⟩
          have hw2 := hS2perm.mem_iff.mp hw
          rcases List.mem_append.mp hw2 with hw3 | hw3
          · exact hx (List.mem_map.mpr ⟨w, (List.mem_filter.mp hw3).1, he⟩)
          · have hwe : w = wsDpi target.rect ws := by simpa using hw3
            apply hx
            refine List.mem_map.mpr ⟨ws, h_ws_all, ?_⟩
            rw [← he, hwe]
            exact h_wsid.trans h_ws1id.symm
        simp only [hF1, Option.some_bind, Monitor.workspaces] at hok
        rw [Prod.mk.injEq] at hok
        obtain ⟨-, hbig⟩ := hok
        obtain ⟨G1, G2, G3, G4, G5, G6, G7, G8, G9, G10, G11⟩ :=
          move_impl_finish s ((((({ monitors := s.monitors.map (moveStep wsId (wsDpi target.rect ws) targetId), pending_sync := s.pending_sync, events := s.events, next_id := s.next_id } : WmState).queue_cursor_jump).queue_redraw wsId).queue_redraw disp.id).queue_redraw d0.id) s' config wsId targetId origin target ws (origin.children.filter (fun w => ¬ w.id = wsId)) []
            hndw hltm h_origin_mem h_target_mem h_tid hne hmem h_wsid hwf4
            hF1 hF2 hF3 hF4 hF4d ⟨[], by rw [events_queue_redraw, hS3e, List.append_nil]⟩
            (by rw [h_next4] : s.next_id ≤ ((((({ monitors := s.monitors.map (moveStep wsId (wsDpi target.rect ws) targetId), pending_sync := s.pending_sync, events := s.events, next_id := s.next_id } : WmState).queue_cursor_jump).queue_redraw wsId).queue_redraw disp.id).queue_redraw d0.id).next_id) hF8
            (by rw [List.append_nil, h_allw4]; exact hS2perm)
            (fun d hd => by rw [← hbig]; simp only [hd])
            (fun hd => by rw [← hbig]; simp only [hd])
        refine ⟨G1, G2, G3, G4, hdisp_ex, ?_, ?_, G7, G8, G9, G10, ?_⟩
        · intro h
          exact absurd h hoc
        · intro _
          exact ⟨_, G5, rfl, rfl⟩
        · exact ⟨[], fun r hr => absurd hr (List.not_mem_nil r),
            List.nodup_nil, G11⟩


/-! ## Claims C5, C6 (wrapper error and no-op paths) -/

/-- C5: if the target monitor index resolves to no monitor, or the
workspace to move has no Monitor ancestor, then `move_workspace_to_monitor`
returns an error and the returned state is exactly the state before the
call: no tree mutation, no queued pending-sync effect, no emitted
event. -/
theorem C5_error_state_untouched (s : WmState) (config : UserConfig)
    (wsId monitorIndex : Nat)
    (h : s.monitors[monitorIndex]? = none ∨ s.monitor_of wsId = none) :
    ∃ e, move_workspace_to_monitor wsId monitorIndex s config
      = (Except.error e, s) := by
  unfold move_workspace_to_monitor
  rcases h with h | h
  · exact ⟨"Monitor at index was not found.", by simp only [h]⟩
  · cases hm : s.monitors[monitorIndex]? with
    | none => exact ⟨"Monitor at index was not found.", by simp only [hm]⟩
    | some t => exact ⟨"No monitor.", by simp only [hm, h]⟩

theorem C5_error_state_untouched_witness :
    (exSt.monitors[5]? = none ∨ exSt.monitor_of 10 = none) ∧
    ∃ e, move_workspace_to_monitor 10 5 exSt exCfg
      = (Except.error e, exSt) :=
  ⟨Or.inl (by rfl),
    C5_error_state_untouched exSt exCfg 10 5 (Or.inl (by rfl))⟩

/-- C6: if the workspace's current monitor is already the target monitor,
`move_workspace_to_monitor` returns Ok and the returned state is the
input state itself: tree, pending-sync queue and event stream are
unchanged. -/
theorem C6_same_monitor_noop (s : WmState) (config : UserConfig)
    (wsId monitorIndex : Nat) (origin target : Monitor)
    (h1 : s.monitors[monitorIndex]? = some target)
    (h2 : s.monitor_of wsId = some origin)
    (h3 : origin.id = target.id) :
    move_workspace_to_monitor wsId monitorIndex s config
      = (Except.ok (), s) := by
  unfold move_workspace_to_monitor
  simp only [h1, h2]
  rw [if_pos h3]

theorem C6_same_monitor_noop_witness :
    move_workspace_to_monitor 20 1 exSt exCfg = (Except.ok (), exSt) :=
  C6_same_monitor_noop exSt exCfg 20 1 exMon2 exMon2
    (by rfl) (by rfl) (by rfl)

/-! ## Claim C2 (DPI adjustment of the moved workspace's windows) -/

/-- C2 counterexample: the claim says window descendants that are not
Floating keep their `floating_placement` and `has_pending_dpi_adjustment`
unchanged, but the window loop of `move_workspace_to_monitor_impl`
(lines 51-63) updates every window descendant.  Moving workspace 10
(holding the Tiling window 100) from the first to the second example
monitor succeeds, yet the Tiling window ends with its pending-DPI flag
set and a translated floating placement. -/
theorem C2_dpi_counterexample :
    (move_workspace_to_monitor 10 1 exSt exCfg).1 = Except.ok () ∧
    ∃ ws ∈ (move_workspace_to_monitor 10 1 exSt exCfg).2.allWorkspaces,
      ws.id = 10 ∧ ∃ w ∈ ws.children, w.kind = WindowKind.Tiling ∧
        w.has_pending_dpi_adjustment = true ∧
        ¬ w.floating_placement = exWinTiling.floating_placement := by
  refine ⟨rfl, ?_⟩
  decide

/-- C2 (amended): during a successful `move_workspace_to_monitor` to a
different monitor, every window descendant of the moved workspace —
whatever its kind — gets `has_pending_dpi_adjustment` set to true and its
`floating_placement` replaced by the translation of its previous
placement to the center of the workspace's recomputed bounding rectangle
(the target monitor's working area). -/
theorem C2_dpi_all_windows (s s' : WmState) (config : UserConfig)
    (wsId monitorIndex : Nat) (origin target : Monitor) (ws : Workspace)
    (hwf : s.wf)
    (hidx : s.monitors[monitorIndex]? = some target)
    (hog : s.monitor_of wsId = some origin)
    (hws : s.workspace_by_id wsId = some ws)
    (hmem : ws ∈ origin.children)
    (hne : ¬ origin.id = target.id)
    (hwin : ¬ ws.children = [])
    (hok : move_workspace_to_monitor wsId monitorIndex s config
      = (Except.ok (), s')) :
    s'.workspace_by_id wsId = some (wsDpi target.rect ws) := by
  obtain ⟨hndm, hndw, hltm, hltw⟩ := hwf
  have h_target_mem : target ∈ s.monitors := by
    have := List.getElem?_eq_some_iff.mp hidx
    rcases this with ⟨hlen, he⟩
    rw [← he]
    exact List.getElem_mem hlen
  have htg : s.monitor_by_id target.id = some target :=
    find?_eq_some_of_nodup Monitor.id s.monitors hndm target h_target_mem
  obtain ⟨h_ws_all, h_wsid⟩ := workspace_by_id_spec s wsId ws hws
  have h_origin_mem : origin ∈ s.monitors := (monitor_of_spec s wsId origin hog).1
  unfold move_workspace_to_monitor at hok
  simp only [hidx, hog] at hok
  rw [if_neg hne] at hok
  obtain ⟨hwf', hids, hothers, ⟨mt, hmt, hmtr, hmtc⟩, hrest⟩ :=
    move_impl_ok s s' config wsId target.id origin target ws
      ⟨hndm, hndw, hltm, hltw⟩ hog htg hws hmem hne hok
  have h_no_ws_target : ∀ w ∈ target.children, ¬ w.id = wsId := by
    intro w hw he
    have hd := children_ids_disjoint s.monitors hndw target origin
      h_target_mem h_origin_mem (fun h => hne h.symm) w hw ws hmem
    rw [h_wsid] at hd
    exact hd he
  have hsurv : wsDpi target.rect ws ∈ maybeDestroy
      (target.children ++ [wsDpi target.rect ws]) := by
    unfold maybeDestroy
    cases hfind : (target.children ++ [wsDpi target.rect ws]).find?
        Workspace.destroyable with
    | none =>
      exact List.mem_append.mpr (Or.inr (List.mem_singleton.mpr rfl))
    | some d =>
      have hdd := List.find?_some hfind
      have hd_ne : ¬ (wsDpi target.rect ws).id = d.id := by
        rcases List.mem_append.mp (List.mem_of_find?_eq_some hfind) with h1 | h1
        · intro hcontra
          have := h_no_ws_target d h1
          rw [← hcontra] at this
          exact this h_wsid
        · have hde : d = wsDpi target.rect ws := by simpa using h1
          rw [hde] at hdd
          unfold Workspace.destroyable Workspace.has_children at hdd
          simp at hdd
          have : (wsDpi target.rect ws).children = ws.children.map
            (dpiAdjustWindow target.rect) := rfl
          rw [this] at hdd
          rcases hdd with ⟨-, hdd2, -⟩
          rcases List.exists_mem_of_ne_nil ws.children hwin with ⟨w0, hw0⟩
          have : dpiAdjustWindow target.rect w0 ∈ ws.children.map
              (dpiAdjustWindow target.rect) := List.mem_map_of_mem _ hw0
          rw [hdd2] at this
          exact absurd this (List.not_mem_nil _)
      refine List.mem_filter.mpr ⟨List.mem_append.mpr
        (Or.inr (List.mem_singleton.mpr rfl)), ?_⟩
      simpa using hd_ne
  have hmem' : wsDpi target.rect ws ∈ mt.children := by
    rw [hmtc]
    exact (sortByKey_perm (workspaceSortKey config)
      (maybeDestroy (target.children ++ [wsDpi target.rect ws]))).mem_iff.mpr hsurv
  have hmem'' : wsDpi target.rect ws ∈ s'.allWorkspaces :=
    mem_allWorkspaces_of_mem s' mt _ (List.mem_of_find?_eq_some hmt) hmem'
  unfold WmState.workspace_by_id
  rw [← h_wsid]
  exact find?_eq_some_of_nodup Workspace.id s'.allWorkspaces hwf'.2.1
    (wsDpi target.rect ws) hmem''

theorem C2_dpi_all_windows_witness :
    (move_workspace_to_monitor 10 1 exSt exCfg).2.workspace_by_id 10
      = some (wsDpi exMon2.rect exWs10) :=
  C2_dpi_all_windows exSt (move_workspace_to_monitor 10 1 exSt exCfg).2
    exCfg 10 1 exMon1 exMon2 exWs10 (by decide) (by rfl) (by rfl) (by rfl)
    (by decide) (by decide) (by decide) (by rfl)

/-! ## Claims C3, C4 (cleanup and origin replacement) -/

/-- C3: a single successful `move_workspace_to_monitor` deactivates at
most one workspace: after relocating the workspace onto the target
monitor, the first workspace in the target monitor's child order that is
destroyable (non-keep-alive, childless, not displayed) — if any — is
destroyed and its id no longer appears anywhere in the tree, while every
other workspace of the target monitor is kept; when no child is
destroyable, all are kept. -/
theorem C3_at_most_one_destroyed (s s' : WmState) (config : UserConfig)
    (wsId monitorIndex : Nat) (origin target : Monitor) (ws : Workspace)
    (hwf : s.wf)
    (hidx : s.monitors[monitorIndex]? = some target)
    (hog : s.monitor_of wsId = some origin)
    (hws : s.workspace_by_id wsId = some ws)
    (hmem : ws ∈ origin.children)
    (hne : ¬ origin.id = target.id)
    (hok : move_workspace_to_monitor wsId monitorIndex s config
      = (Except.ok (), s')) :
    ∃ mt, s'.monitor_by_id target.id = some mt ∧
      ((target.children ++ [wsDpi target.rect ws]).find?
          Workspace.destroyable = none →
        mt.children.Perm (target.children ++ [wsDpi target.rect ws])) ∧
      (∀ d, (target.children ++ [wsDpi target.rect ws]).find?
          Workspace.destroyable = some d →
        mt.children.Perm ((target.children
          ++ [wsDpi target.rect ws]).filter (fun w => ¬ w.id = d.id)) ∧
        ¬ d.id ∈ s'.allWorkspaces.map Workspace.id) := by
  obtain ⟨hndm, hndw, hltm, hltw⟩ := hwf
  have h_target_mem : target ∈ s.monitors := by
    rcases List.getElem?_eq_some_iff.mp hidx with ⟨hlen, he⟩
    rw [← he]
    exact List.getElem_mem hlen
  have htg : s.monitor_by_id target.id = some target :=
    find?_eq_some_of_nodup Monitor.id s.monitors hndm target h_target_mem
  unfold move_workspace_to_monitor at hok
  simp only [hidx, hog] at hok
  rw [if_neg hne] at hok
  obtain ⟨hwf2, hids, hothers, ⟨mt, hmt, hmtr, hmtc⟩, hdisp, hE1, hE2,
      hev, hnext, hnonew, hgone, hreps⟩ :=
    move_impl_ok s s' config wsId target.id origin target ws
      ⟨hndm, hndw, hltm, hltw⟩ hog htg hws hmem hne hok
  refine ⟨mt, hmt, ?_, ?_⟩
  · intro hnone
    rw [hmtc]
    simp only [maybeDestroy, hnone]
    exact sortByKey_perm _ _
  · intro d hd
    refine ⟨?_, hgone d hd⟩
    rw [hmtc]
    simp only [maybeDestroy, hd]
    exact sortByKey_perm _ _

theorem C3_at_most_one_destroyed_witness :
    ∃ mt, (move_workspace_to_monitor 10 1 exSt exCfg).2.monitor_by_id
        exMon2.id = some mt ∧
      ((exMon2.children ++ [wsDpi exMon2.rect exWs10]).find?
          Workspace.destroyable = none →
        mt.children.Perm (exMon2.children ++ [wsDpi exMon2.rect exWs10])) ∧
      (∀ d, (exMon2.children ++ [wsDpi exMon2.rect exWs10]).find?
          Workspace.destroyable = some d →
        mt.children.Perm ((exMon2.children
          ++ [wsDpi exMon2.rect exWs10]).filter (fun w => ¬ w.id = d.id)) ∧
        ¬ d.id ∈ (move_workspace_to_monitor 10 1
          exSt exCfg).2.allWorkspaces.map Workspace.id) :=
  C3_at_most_one_destroyed exSt
    (move_workspace_to_monitor 10 1 exSt exCfg).2 exCfg 10 1
    exMon1 exMon2 exWs10 (by decide) (by rfl) (by rfl) (by rfl)
    (by decide) (by decide) (by rfl)

/-- C4: if the workspace being moved is the only workspace on its origin
monitor, then after a successful `move_workspace_to_monitor` the origin
monitor has exactly one workspace — a freshly activated replacement with
a fresh id and an empty child list, chosen from the configured
workspaces — which is displayed, and a redraw is queued for it. -/
theorem C4_sole_workspace_replacement (s s' : WmState) (config : UserConfig)
    (wsId monitorIndex : Nat) (origin target : Monitor) (ws : Workspace)
    (hwf : s.wf)
    (hidx : s.monitors[monitorIndex]? = some target)
    (hog : s.monitor_of wsId = some origin)
    (hws : s.workspace_by_id wsId = some ws)
    (hsole : origin.children = [ws])
    (hne : ¬ origin.id = target.id)
    (hok : move_workspace_to_monitor wsId monitorIndex s config
      = (Except.ok (), s')) :
    ∃ rep : Workspace, rep.children = [] ∧ rep.displayed = true ∧
      rep.id = s.next_id ∧ rep.config ∈ config.workspaces ∧
      s'.monitor_by_id origin.id = some { origin with children := [rep] } ∧
      s'.pending_sync.contains (PendingEffect.redraw rep.id) = true := by
  obtain ⟨hndm, hndw, hltm, hltw⟩ := hwf
  have h_target_mem : target ∈ s.monitors := by
    rcases List.getElem?_eq_some_iff.mp hidx with ⟨hlen, he⟩
    rw [← he]
    exact List.getElem_mem hlen
  have htg : s.monitor_by_id target.id = some target :=
    find?_eq_some_of_nodup Monitor.id s.monitors hndm target h_target_mem
  have hmem : ws ∈ origin.children := by
    rw [hsole]
    exact List.mem_singleton.mpr rfl
  obtain ⟨h_ws_all, h_wsid⟩ := workspace_by_id_spec s wsId ws hws
  unfold move_workspace_to_monitor at hok
  simp only [hidx, hog] at hok
  rw [if_neg hne] at hok
  obtain ⟨hwf2, hids, hothers, hmt, hdisp, hE1, hrest⟩ :=
    move_impl_ok s s' config wsId target.id origin target ws
      ⟨hndm, hndw, hltm, hltw⟩ hog htg hws hmem hne hok
  apply hE1
  rw [hsole]
  simp [h_wsid]

theorem C4_sole_workspace_replacement_witness :
    ∃ rep : Workspace, rep.children = [] ∧ rep.displayed = true ∧
      rep.id = exSt.next_id ∧ rep.config ∈ exCfg.workspaces ∧
      (move_workspace_to_monitor 10 1 exSt exCfg).2.monitor_by_id exMon1.id
        = some { exMon1 with children := [rep] } ∧
      (move_workspace_to_monitor 10 1 exSt exCfg).2.pending_sync.contains
        (PendingEffect.redraw rep.id) = true :=
  C4_sole_workspace_replacement exSt
    (move_workspace_to_monitor 10 1 exSt exCfg).2 exCfg 10 1
    exMon1 exMon2 exWs10 (by decide) (by rfl) (by rfl) (by rfl)
    (by rfl) (by decide) (by rfl)

/-! ## Helpers for the `add_monitor` reconciliation loop -/

/-- `find?_eq_some_of_nodup` generalized to an arbitrary decidable key. -/
theorem find?_eq_some_of_nodup_key {α β : Type} [DecidableEq β] (f : α → β)
    (l : List α) (hnd : (l.map f).Nodup) (a : α) (ha : a ∈ l) :
    l.find? (fun x => f x = f a) = some a := by
  induction l with
  | nil => cases ha
  | cons b t ih =>
    rw [List.map_cons, List.nodup_cons] at hnd
    rcases List.mem_cons.mp ha with h | h
    · subst h
      simp [List.find?_cons]
    · have hne : (decide (f b = f a)) = false := by
        rw [decide_eq_false_iff_not]
        intro he
        exact hnd.1 (he ▸ List.mem_map_of_mem f h)
      simp only [List.find?_cons, hne]
      exact ih hnd.2 h

/-- Two members of a list with duplicate-free keys are equal when their
keys agree. -/
theorem eq_of_mem_of_nodup_key {α β : Type} [DecidableEq β] (f : α → β)
    (l : List α) (hnd : (l.map f).Nodup) (a b : α) (ha : a ∈ l)
    (hb : b ∈ l) (h : f a = f b) : a = b := by
  have h1 := find?_eq_some_of_nodup_key f l hnd a ha
  have h2 := find?_eq_some_of_nodup_key f l hnd b hb
  rw [h] at h1
  rw [h1] at h2
  exact Option.some.inj h2

theorem workspace_by_name_spec (s : WmState) (n : String) (w : Workspace)
    (h : s.workspace_by_name n = some w) :
    w ∈ s.allWorkspaces ∧ w.config.name = n :=
  ⟨List.mem_of_find?_eq_some h, by simpa using List.find?_some h⟩

theorem workspace_by_name_none (s : WmState) (n : String)
    (h : s.workspace_by_name n = none) :
    ∀ w ∈ s.allWorkspaces, ¬ w.config.name = n := by
  intro w hw
  have := List.find?_eq_none.mp h w hw
  simpa using this

/-- With globally unique workspace names, lookup by name finds exactly
the member carrying that name. -/
theorem workspace_by_name_unique (s : WmState) (n : String) (w : Workspace)
    (hU : (s.allWorkspaces.map (fun w => w.config.name)).Nodup)
    (hw : w ∈ s.allWorkspaces) (hn : w.config.name = n) :
    s.workspace_by_name n = some w := by
  unfold WmState.workspace_by_name
  rw [← hn]
  exact find?_eq_some_of_nodup_key (fun w => w.config.name)
    s.allWorkspaces hU w hw

theorem workspace_by_id_of_mem (s : WmState) (w : Workspace)
    (hndw : (s.allWorkspaces.map Workspace.id).Nodup)
    (hw : w ∈ s.allWorkspaces) :
    s.workspace_by_id w.id = some w := by
  unfold WmState.workspace_by_id
  exact find?_eq_some_of_nodup Workspace.id s.allWorkspaces hndw w hw

/-- Every workspace in the tree has a monitor ancestor, and the
`monitor_of` lookup returns it. -/
theorem monitor_of_total (s : WmState) (w : Workspace)
    (hndw : (s.allWorkspaces.map Workspace.id).Nodup)
    (hw : w ∈ s.allWorkspaces) :
    ∃ origin, s.monitor_of w.id = some origin ∧ w ∈ origin.children := by
  rcases List.mem_flatten.mp hw with ⟨cs, hcs, hwc⟩
  rcases List.mem_map.mp hcs with ⟨m, hm, he⟩
  rw [← he] at hwc
  cases hfind : s.monitor_of w.id with
  | none =>
    have hnone := List.find?_eq_none.mp hfind m hm
    simp at hnone
    exact absurd rfl (hnone w hwc)
  | some origin =>
    obtain ⟨hmem, w2, hw2, hid2⟩ := monitor_of_spec s w.id origin hfind
    have hw2a : w2 ∈ s.allWorkspaces :=
      mem_allWorkspaces_of_mem s origin w2 hmem hw2
    have he2 : w2 = w := eq_of_mem_of_nodup_ids Workspace.id
      s.allWorkspaces hndw w2 w hw2a hw hid2
    rw [he2] at hw2
    exact ⟨origin, rfl, hw2⟩

/-- The cleanup keeps only elements of the original child list. -/
theorem maybeDestroy_subset (l : List Workspace) :
    ∀ x ∈ maybeDestroy l, x ∈ l := by
  intro x hx
  unfold maybeDestroy at hx
  cases hfind : l.find? Workspace.destroyable with
  | none =>
    rw [hfind] at hx
    exact hx
  | some d =>
    rw [hfind] at hx
    exact (List.mem_filter.mp hx).1

/-- A keep-alive workspace is never destroyable. -/
theorem destroyable_keep_alive (w : Workspace)
    (h : w.config.keep_alive = true) : w.destroyable = false := by
  unfold Workspace.destroyable
  simp [h]

/-- The child list of a single monitor has duplicate-free workspace
ids whenever the whole tree does. -/
theorem children_ids_nodup (s : WmState) (m : Monitor)
    (hndw : (s.allWorkspaces.map Workspace.id).Nodup)
    (hm : m ∈ s.monitors) : (m.children.map Workspace.id).Nodup := by
  have hsub : m.children.Sublist s.allWorkspaces :=
    List.sublist_flatten_of_mem (List.mem_map_of_mem Monitor.children hm)
  exact List.Nodup.sublist (List.Sublist.map _ hsub) hndw

/-- State-level facts about a successful `activate_workspace` run: the
new workspace is appended to the target monitor, every other monitor is
untouched, the event is emitted and the id counter advances. -/
theorem activate_ok_facts (name : Option String) (targetId : Nat)
    (s s' : WmState) (config : UserConfig) (target : Monitor)
    (hwf : s.wf)
    (htg : s.monitor_by_id targetId = some target)
    (hok : activate_workspace name targetId s config = (.ok (), s')) :
    ∃ wsCfg : WorkspaceConfig,
      (∀ n, name = some n → wsCfg = (config.workspaces.find?
        (fun c => c.name = n)).getD
          { name := n, keep_alive := false, bind_to_monitor := none }) ∧
      (name = none → config.workspaces.find? (fun c =>
        ¬ (s.allWorkspaces.map (fun w => w.config.name)).contains c.name)
          = some wsCfg) ∧
      s'.wf ∧
      s'.monitors.map Monitor.id = s.monitors.map Monitor.id ∧
      s'.monitor_by_id targetId = some { target with children :=
        target.children ++ [({ id := s.next_id, config := wsCfg, displayed := target.displayed_workspace.isNone, children := [] } : Workspace)] } ∧
      (∀ x, ¬ x = targetId → s'.monitor_by_id x = s.monitor_by_id x) ∧
      s'.allWorkspaces.Perm (s.allWorkspaces ++ [({ id := s.next_id, config := wsCfg, displayed := target.displayed_workspace.isNone, children := [] } : Workspace)]) ∧
      s'.events = s.events ++ [WmEvent.WorkspaceActivated s.next_id] ∧
      s'.next_id = s.next_id + 1 ∧
      (∀ x, s.pending_sync.contains x = true →
        s'.pending_sync.contains x = true) := by
  obtain ⟨hndm, hndw, hltm, hltw⟩ := hwf
  obtain ⟨wsCfg, hn1, hn2, hs'⟩ :=
    activate_ok_char name targetId s s' config target htg hok
  have h_tid : target.id = targetId := by simpa using List.find?_some htg
  have hids : s'.monitors.map Monitor.id = s.monitors.map Monitor.id := by
    rw [hs', monitors_queue_redraw, monitors_emit,
      map_id_update_monitor _ targetId (fun m =>
        { m with children := m.children ++ [({ id := s.next_id, config := wsCfg, displayed := target.displayed_workspace.isNone, children := [] } : Workspace)] }) (fun m => rfl),
      monitors_set_next]
  have hmb : ∀ x, s'.monitor_by_id x = (s.monitor_by_id x).map
      (fun m => if m.id = targetId then
        { m with children := m.children ++ [({ id := s.next_id, config := wsCfg, displayed := target.displayed_workspace.isNone, children := [] } : Workspace)] } else m) := by
    intro x
    rw [hs', monitor_by_id_queue_redraw, monitor_by_id_emit,
      monitor_by_id_update _ targetId (fun m =>
        { m with children := m.children ++ [({ id := s.next_id, config := wsCfg, displayed := target.displayed_workspace.isNone, children := [] } : Workspace)] }) (fun m => rfl) x,
      monitor_by_id_set_next]
  have htgt2 : s'.monitor_by_id targetId = some { target with children :=
      target.children ++ [({ id := s.next_id, config := wsCfg, displayed := target.displayed_workspace.isNone, children := [] } : Workspace)] } := by
    rw [hmb, htg]
    simp only [Option.map_some']
    rw [if_pos h_tid]
  have hoth : ∀ x, ¬ x = targetId →
      s'.monitor_by_id x = s.monitor_by_id x := by
    intro x hx
    rw [hmb x]
    cases hmx : s.monitor_by_id x with
    | none => rfl
    | some m =>
      simp only [Option.map_some']
      have hmid : m.id = x := by simpa using List.find?_some hmx
      rw [if_neg (by rw [hmid]; exact hx)]
  have hallw : s'.allWorkspaces.Perm (s.allWorkspaces ++ [({ id := s.next_id, config := wsCfg, displayed := target.displayed_workspace.isNone, children := [] } : Workspace)]) := by
    rw [hs', allWorkspaces_queue_redraw, allWorkspaces_emit]
    refine (allWorkspaces_update_append_perm _ targetId target
      ({ id := s.next_id, config := wsCfg, displayed := target.displayed_workspace.isNone, children := [] } : Workspace) ?_ ?_).trans ?_
    · rw [monitors_set_next]
      exact hndm
    · rw [monitor_by_id_set_next]
      exact htg
    · rw [allWorkspaces_set_next]
  have hev : s'.events = s.events
      ++ [WmEvent.WorkspaceActivated s.next_id] := by
    rw [hs', events_queue_redraw, events_emit, events_update_monitor,
      events_set_next]
  have hnext : s'.next_id = s.next_id + 1 := by
    rw [hs', next_id_queue_redraw, next_id_emit, next_id_update_monitor,
      next_id_set_next]
  have hpend : ∀ x, s.pending_sync.contains x = true →
      s'.pending_sync.contains x = true := by
    intro x hx
    rw [hs']
    apply pending_queue_redraw_mono
    rw [pending_emit, pending_update_monitor, pending_set_next]
    exact hx
  have hwf2 : s'.wf := by
    refine ⟨by rw [hids]; exact hndm, ?_, ?_, ?_⟩
    · refine ((hallw.map Workspace.id).symm).nodup ?_
      rw [List.map_append, List.nodup_append]
      refine ⟨hndw, List.nodup_singleton _, ?_⟩
      intro x hx hx2
      simp only [List.map_cons, List.map_nil, List.mem_singleton] at hx2
      rcases List.mem_map.mp hx with ⟨w, hw, he⟩
      have hlt := hltw w hw
      rw [he, hx2] at hlt
      simp at hlt
    · intro m hm
      have hmm : m.id ∈ s'.monitors.map Monitor.id :=
        List.mem_map_of_mem _ hm
      rw [hids] at hmm
      rcases List.mem_map.mp hmm with ⟨m0, hm0, he⟩
      rw [← he, hnext]
      exact lt_trans (hltm m0 hm0) (Nat.lt_succ_self _)
    · intro w hw
      have hw2 := hallw.mem_iff.mp hw
      rw [hnext]
      rcases List.mem_append.mp hw2 with h1 | h1
      · exact lt_trans (hltw w h1) (Nat.lt_succ_self _)
      · have hwe : w = ({ id := s.next_id, config := wsCfg, displayed := target.displayed_workspace.isNone, children := [] } : Workspace) := by simpa using h1
        rw [hwe]
        exact Nat.lt_succ_self _
  exact ⟨wsCfg, hn1, hn2, hwf2, hids, htgt2, hoth, hallw, hev, hnext, hpend⟩

/-- Invariants of the `add_monitor` binding-reconciliation loop: a
successful run preserves well-formedness, monitor ids, working areas and
non-emptiness of the other monitors, only extends the event log, keeps
keep-alive workspaces of the new monitor in place, and realizes the
per-configuration binding effects. -/
theorem add_monitor_loop_ok (config : UserConfig)
    (hC : (config.workspaces.map WorkspaceConfig.name).Nodup)
    (newId : Nat) (configs : List WorkspaceConfig) :
    ∀ (s0 s' : WmState) (mt0 : Monitor),
    s0.wf →
    s0.monitor_by_id newId = some mt0 →
    (∀ c ∈ configs, c ∈ config.workspaces) →
    (configs.map WorkspaceConfig.name).Nodup →
    (∀ c ∈ configs, ∀ w ∈ mt0.children, ¬ w.config.name = c.name) →
    (∀ w ∈ s0.allWorkspaces, ∀ c ∈ config.workspaces,
      w.config.name = c.name → w.config = c) →
    (s0.allWorkspaces.map (fun w => w.config.name)).Nodup →
    add_monitor_loop newId configs s0 config = (Except.ok (), s') →
    s'.wf ∧
    s'.monitors.map Monitor.id = s0.monitors.map Monitor.id ∧
    (∃ evs, s'.events = s0.events ++ evs) ∧
    s0.next_id ≤ s'.next_id ∧
    (∀ x, ¬ x ∈ s0.allWorkspaces.map Workspace.id → x < s0.next_id →
      ¬ x ∈ s'.allWorkspaces.map Workspace.id) ∧
    (∀ x mt, ¬ x = newId → s0.monitor_by_id x = some mt →
      ∃ mt2, s'.monitor_by_id x = some mt2 ∧ mt2.rect = mt.rect ∧
        (¬ mt.children = [] → ¬ mt2.children = [])) ∧
    (∃ mt2, s'.monitor_by_id newId = some mt2 ∧ mt2.rect = mt0.rect ∧
      (∀ w ∈ mt0.children, w.config.keep_alive = true → w ∈ mt2.children) ∧
      (∀ w ∈ mt0.children, w.id ∈ mt2.children.map Workspace.id ∨
        ¬ w.id ∈ s'.allWorkspaces.map Workspace.id)) ∧
    (∀ c ∈ configs, c.keep_alive = true →
      ∃ mt2, s'.monitor_by_id newId = some mt2 ∧
        ∃ w ∈ mt2.children, w.config.name = c.name ∧
          w.config.keep_alive = true) ∧
    (∀ c ∈ configs, ∀ w0, s0.workspace_by_name c.name = some w0 →
      (∃ mt2, s'.monitor_by_id newId = some mt2 ∧
        w0.id ∈ mt2.children.map Workspace.id) ∨
      ¬ w0.id ∈ s'.allWorkspaces.map Workspace.id) := by
  induction configs with
  | nil =>
    intro s0 s' mt0 hwf hmt0 hSUB hCN hJ hF hU hok
    simp only [add_monitor_loop] at hok
    rw [Prod.mk.injEq] at hok
    have hse := hok.2
    subst hse
    refine ⟨hwf, rfl, ⟨[], (List.append_nil _).symm⟩, Nat.le_refl _,
      fun x hx _ => hx, ?_, ?_, ?_, ?_⟩
    · intro x mt hx hmx
      exact ⟨mt, hmx, rfl, fun h => h⟩
    · exact ⟨mt0, hmt0, rfl, fun w hw _ => hw,
        fun w hw => Or.inl (List.mem_map_of_mem _ hw)⟩
    · intro c hc
      exact absurd hc (List.not_mem_nil c)
    · intro c hc
      exact absurd hc (List.not_mem_nil c)
  | cons c rest ih =>
    intro s0 s' mt0 hwf hmt0 hSUB hCN hJ hF hU hok
    obtain ⟨hndm, hndw, hltm, hltw⟩ := hwf
    have hc_mem : c ∈ config.workspaces := hSUB c (List.mem_cons_self c rest)
    have hCN2 := List.nodup_cons.mp hCN
    have hSUB2 : ∀ c2 ∈ rest, c2 ∈ config.workspaces :=
      fun c2 hc2 => hSUB c2 (List.mem_cons_of_mem c hc2)
    have hmt0_mem : mt0 ∈ s0.monitors := List.mem_of_find?_eq_some hmt0
    have hmt0_id : mt0.id = newId := by simpa using List.find?_some hmt0
    simp only [add_monitor_loop] at hok
    cases hfind : s0.workspace_by_name c.name with
    | some w0 =>
      simp only [hfind] at hok
      obtain ⟨hw0_all, hw0_name⟩ := workspace_by_name_spec s0 c.name w0 hfind
      have hw0_cfg : w0.config = c := hF w0 hw0_all c hc_mem hw0_name
      obtain ⟨origin, hog, hmemo⟩ := monitor_of_total s0 w0 hndw hw0_all
      have horigin_mem : origin ∈ s0.monitors := List.mem_of_find?_eq_some hog
      have hws0 : s0.workspace_by_id w0.id = some w0 :=
        workspace_by_id_of_mem s0 w0 hndw hw0_all
      have hne : ¬ origin.id = newId := by
        intro h
        have he : origin = mt0 := eq_of_mem_of_nodup_ids Monitor.id
          s0.monitors hndm origin mt0 horigin_mem hmt0_mem
          (by rw [h, hmt0_id])
        rw [he] at hmemo
        exact hJ c (List.mem_cons_self c rest) w0 hmemo hw0_name
      cases hstep : move_workspace_to_monitor_impl w0.id newId s0 config with
      | mk res s1 =>
        cases res with
        | error e =>
          rw [hstep] at hok
          simp at hok
        | ok u =>
          cases u
          rw [hstep] at hok
          simp only [] at hok
          obtain ⟨M1, M2, M3, ⟨mtT, hmtT, hmtTr, hmtTc⟩, Mdisp, ME1, ME2,
              ⟨evs1, hev1⟩, Mnext, Mnonew, Mgone,
              ⟨reps, hrepsfacts, hrepsnd, base, hbase, hbsub⟩⟩ :=
            move_impl_ok s0 s1 config w0.id newId origin mt0 w0
              ⟨hndm, hndw, hltm, hltw⟩ hog hmt0 hws0 hmemo hne hstep
          have hdisj : ∀ a ∈ origin.children, ∀ b ∈ mt0.children,
              ¬ a.id = b.id :=
            children_ids_disjoint s0.monitors hndw origin mt0
              horigin_mem hmt0_mem (by rw [hmt0_id]; exact hne)
          have hLnd : ((mt0.children
              ++ [wsDpi mt0.rect w0]).map Workspace.id).Nodup := by
            rw [List.map_append, List.nodup_append]
            refine ⟨children_ids_nodup s0 mt0 hndw hmt0_mem,
              List.nodup_singleton _, ?_⟩
            intro x hx hx2
            simp only [List.map_cons, List.map_nil,
              List.mem_singleton] at hx2
            have hxe : x = w0.id := hx2
            rcases List.mem_map.mp hx with ⟨b, hb, he⟩
            exact (hdisj w0 hmemo b hb) (by rw [he, hxe])
          have hsurv_nd : ∀ w ∈ mt0.children ++ [wsDpi mt0.rect w0],
              w.destroyable = false → w ∈ mtT.children := by
            intro w hw hnd2
            rw [hmtTc]
            refine (sortByKey_perm (workspaceSortKey config) _).mem_iff.mpr ?_
            unfold maybeDestroy
            cases hfd : (mt0.children ++ [wsDpi mt0.rect w0]).find?
                Workspace.destroyable with
            | none => exact hw
            | some d =>
              have hnid : ¬ w.id = d.id := by
                intro hide
                have hdmem := List.mem_of_find?_eq_some hfd
                have hde : w = d := eq_of_mem_of_nodup_ids Workspace.id _
                  hLnd w d hw hdmem hide
                have hdd := List.find?_some hfd
                rw [← hde, hnd2] at hdd
                exact Bool.noConfusion hdd
              exact List.mem_filter.mpr ⟨hw, by simpa using hnid⟩
          have hsub_mtT : ∀ w ∈ mtT.children,
              w ∈ mt0.children ∨ w = wsDpi mt0.rect w0 := by
            intro w hw
            rw [hmtTc] at hw
            have hw2 := (sortByKey_perm (workspaceSortKey config) _).mem_iff.mp hw
            have hw3 := maybeDestroy_subset _ w hw2
            rcases List.mem_append.mp hw3 with h1 | h1
            · exact Or.inl h1
            · exact Or.inr (by simpa using h1)
          have hJ1 : ∀ c2 ∈ rest, ∀ w ∈ mtT.children,
              ¬ w.config.name = c2.name := by
            intro c2 hc2 w hw hname
            rcases hsub_mtT w hw with h1 | h1
            · exact hJ c2 (List.mem_cons_of_mem c hc2) w h1 hname
            · rw [h1] at hname
              have hnn : c.name = c2.name := by
                rw [← hw0_name]
                exact hname
              exact hCN2.1 (hnn ▸ List.mem_map_of_mem
                WorkspaceConfig.name hc2)
          have hmem_s1 : ∀ w ∈ s1.allWorkspaces,
              w ∈ s0.allWorkspaces ∨ w = wsDpi mt0.rect w0 ∨ w ∈ reps := by
            intro w hw
            have hw2 := hbase.mem_iff.mp hw
            have hw3 := hbsub.subset hw2
            rcases List.mem_append.mp hw3 with h1 | h1
            · rcases List.mem_append.mp h1 with h2 | h2
              · exact Or.inl (List.mem_filter.mp h2).1
              · exact Or.inr (Or.inl (by simpa using h2))
            · exact Or.inr (Or.inr h1)
          have hF1 : ∀ w ∈ s1.allWorkspaces, ∀ c2 ∈ config.workspaces,
              w.config.name = c2.name → w.config = c2 := by
            intro w hw c2 hc2 hname
            rcases hmem_s1 w hw with h1 | h1 | h1
            · exact hF w h1 c2 hc2 hname
            · rw [h1] at hname ⊢
              exact hF w0 hw0_all c2 hc2 hname
            · obtain ⟨hrc, -, -, -, -⟩ := hrepsfacts w h1
              exact eq_of_mem_of_nodup_key WorkspaceConfig.name
                config.workspaces hC w.config c2 hrc hc2 hname
          have hbigLnames : (((s0.allWorkspaces.filter
              (fun w => ¬ w.id = w0.id)) ++ [wsDpi mt0.rect w0]
                ++ reps).map (fun w => w.config.name)).Nodup := by
            rw [List.map_append, List.nodup_append]
            refine ⟨?_, hrepsnd, ?_⟩
            · rw [List.map_append, List.nodup_append]
              refine ⟨List.Nodup.sublist (List.Sublist.map _
                  (List.filter_sublist _)) hU, List.nodup_singleton _, ?_⟩
              intro x hx hx2
              simp only [List.map_cons, List.map_nil,
                List.mem_singleton] at hx2
              rcases List.mem_map.mp hx with ⟨w, hw, he⟩
              have hwa := (List.mem_filter.mp hw).1
              have hwne := (List.mem_filter.mp hw).2
              have hwe : w = w0 := eq_of_mem_of_nodup_key
                (fun w => w.config.name) s0.allWorkspaces hU w w0 hwa
                hw0_all (he.trans hx2)
              rw [hwe] at hwne
              simp at hwne
            · intro x hx hx2
              rcases List.mem_map.mp hx2 with ⟨r, hr, hre⟩
              obtain ⟨-, -, -, -, hrun⟩ := hrepsfacts r hr
              rw [List.map_append] at hx
              rcases List.mem_append.mp hx with h1 | h1
              · rcases List.mem_map.mp h1 with ⟨w, hw, he⟩
                exact hrun (List.mem_map.mpr ⟨w, (List.mem_filter.mp hw).1,
                  he.trans hre.symm⟩)
              · have hxe : x = (wsDpi mt0.rect w0).config.name := by
                  simpa using h1
                exact hrun (List.mem_map.mpr ⟨w0, hw0_all,
                  hxe.symm.trans hre.symm⟩)
          have hU1 : (s1.allWorkspaces.map
              (fun w => w.config.name)).Nodup := by
            have hbn : (base.map (fun w => w.config.name)).Nodup :=
              List.Nodup.sublist (List.Sublist.map _ hbsub) hbigLnames
            exact ((hbase.map (fun w => w.config.name)).symm).nodup hbn
          obtain ⟨K1, K2, K3, K4, K5, K6, K7, K8a, K8b⟩ :=
            ih s1 s' mtT M1 hmtT hSUB2 hCN2.2 hJ1 hF1 hU1 hok
          obtain ⟨mt2, hmt2, hmt2r, hmt2ka, hmt2id⟩ := K7
          refine ⟨K1, K2.trans M2, ?_, le_trans Mnext K4, ?_, ?_, ?_, ?_, ?_⟩
          · obtain ⟨evs2, hev2⟩ := K3
            exact ⟨evs1 ++ evs2, by rw [hev2, hev1, List.append_assoc]⟩
          · intro x hx hlt
            exact K5 x (Mnonew x hx hlt) (lt_of_lt_of_le hlt Mnext)
          · intro x mt hx hmx
            by_cases hxo : x = origin.id
            · subst hxo
              have hmo : mt = origin := by
                have h2 : s0.monitor_by_id origin.id = some origin :=
                  find?_eq_some_of_nodup Monitor.id s0.monitors hndm
                    origin horigin_mem
                rw [h2] at hmx
                exact (Option.some.inj hmx).symm
              have hmo2 : origin = mt := hmo.symm
              subst hmo2
              by_cases hoc : origin.children.filter
                  (fun w => ¬ w.id = w0.id) = []
              · obtain ⟨rep, hrep_ch, hrep_disp, hrep_id, hrep_cfg,
                  hrep_mb, hrep_pend⟩ := ME1 hoc
                obtain ⟨mt3, hmt3, hmt3r, hmt3ne⟩ := K6 origin.id
                  { origin with children := [rep] } hx hrep_mb
                exact ⟨mt3, hmt3, by rw [hmt3r], fun _ => hmt3ne (by simp)⟩
              · obtain ⟨mo, hmo_mb, hmo_r, hmo_ch⟩ := ME2 hoc
                obtain ⟨mt3, hmt3, hmt3r, hmt3ne⟩ := K6 origin.id mo hx hmo_mb
                refine ⟨mt3, hmt3, by rw [hmt3r, hmo_r], fun _ => hmt3ne ?_⟩
                rw [hmo_ch]
                exact hoc
            · have hmt_mem : mt ∈ s0.monitors := List.mem_of_find?_eq_some hmx
              have hmt_id : mt.id = x := by simpa using List.find?_some hmx
              have h1 : s1.monitor_by_id mt.id = some mt :=
                M3 mt hmt_mem (by rw [hmt_id]; exact hxo)
                  (by rw [hmt_id]; exact hx)
              rw [hmt_id] at h1
              exact K6 x mt hx h1
          · refine ⟨mt2, hmt2, by rw [hmt2r, hmtTr], ?_, ?_⟩
            · intro w hw hka2
              have hwT : w ∈ mtT.children := by
                refine hsurv_nd w (List.mem_append.mpr (Or.inl hw)) ?_
                have hd := hJ c (List.mem_cons_self c rest) w hw
                unfold Workspace.destroyable
                simp [hka2]
              exact hmt2ka w hwT hka2
            · intro w hw
              cases hfd : (mt0.children ++ [wsDpi mt0.rect w0]).find?
                  Workspace.destroyable with
              | none =>
                have hwT : w ∈ mtT.children := by
                  rw [hmtTc]
                  refine (sortByKey_perm (workspaceSortKey config)
                    _).mem_iff.mpr ?_
                  simp only [maybeDestroy, hfd]
                  exact List.mem_append.mpr (Or.inl hw)
                exact hmt2id w hwT
              | some d =>
                by_cases hid : w.id = d.id
                · have hgone1 := Mgone d hfd
                  have hlt : w.id < s0.next_id := hltw w
                    (mem_allWorkspaces_of_mem s0 mt0 w hmt0_mem hw)
                  exact Or.inr (K5 w.id (by rw [hid]; exact hgone1)
                    (lt_of_lt_of_le hlt Mnext))
                · have hwT : w ∈ mtT.children := by
                    rw [hmtTc]
                    refine (sortByKey_perm (workspaceSortKey config)
                      _).mem_iff.mpr ?_
                    simp only [maybeDestroy, hfd]
                    exact List.mem_filter.mpr
                      ⟨List.mem_append.mpr (Or.inl hw), by simpa using hid⟩
                  exact hmt2id w hwT
          · intro c2 hc2 hka2
            rcases List.mem_cons.mp hc2 with he | hc2rest
            · rw [he] at hka2 ⊢
              have hkaw : (wsDpi mt0.rect w0).config.keep_alive = true := by
                show w0.config.keep_alive = true
                rw [hw0_cfg]
                exact hka2
              have hwT : wsDpi mt0.rect w0 ∈ mtT.children :=
                hsurv_nd _ (List.mem_append.mpr
                  (Or.inr (List.mem_singleton.mpr rfl)))
                  (destroyable_keep_alive _ hkaw)
              refine ⟨mt2, hmt2, wsDpi mt0.rect w0,
                hmt2ka _ hwT hkaw, ?_, hkaw⟩
              show w0.config.name = c.name
              exact hw0_name
            · exact K8a c2 hc2rest hka2
          · intro c2 hc2 w02 hw02
            rcases List.mem_cons.mp hc2 with he | hc2rest
            · rw [he] at hw02
              rw [hfind] at hw02
              have hw02e : w02 = w0 := (Option.some.inj hw02).symm
              rw [hw02e]
              cases hfd : (mt0.children ++ [wsDpi mt0.rect w0]).find?
                  Workspace.destroyable with
              | none =>
                have hwT : wsDpi mt0.rect w0 ∈ mtT.children := by
                  rw [hmtTc]
                  refine (sortByKey_perm (workspaceSortKey config)
                    _).mem_iff.mpr ?_
                  simp only [maybeDestroy, hfd]
                  exact List.mem_append.mpr
                    (Or.inr (List.mem_singleton.mpr rfl))
                rcases hmt2id _ hwT with h1 | h1
                · exact Or.inl ⟨mt2, hmt2, h1⟩
                · exact Or.inr h1
              | some d =>
                by_cases hid : (wsDpi mt0.rect w0).id = d.id
                · have hgone1 := Mgone d hfd
                  have hlt : w0.id < s0.next_id := hltw w0 hw0_all
                  refine Or.inr (K5 w0.id ?_ (lt_of_lt_of_le hlt Mnext))
                  rw [show w0.id = d.id from hid]
                  exact hgone1
                · have hwT : wsDpi mt0.rect w0 ∈ mtT.children := by
                    rw [hmtTc]
                    refine (sortByKey_perm (workspaceSortKey config)
                      _).mem_iff.mpr ?_
                    simp only [maybeDestroy, hfd]
                    refine List.mem_filter.mpr ⟨List.mem_append.mpr
                      (Or.inr (List.mem_singleton.mpr rfl)),
                        by simpa using hid⟩
                  rcases hmt2id _ hwT with h1 | h1
                  · exact Or.inl ⟨mt2, hmt2, h1⟩
                  · exact Or.inr h1
            · obtain ⟨hw02_all, hw02_name⟩ :=
                workspace_by_name_spec s0 c2.name w02 hw02
              have hname_ne : ¬ w02.config.name = c.name := by
                rw [hw02_name]
                intro he
                exact hCN2.1 (he ▸ List.mem_map_of_mem
                  WorkspaceConfig.name hc2rest)
              have hne_id : ¬ w02.id = w0.id := by
                intro he
                apply hname_ne
                rw [eq_of_mem_of_nodup_ids Workspace.id s0.allWorkspaces
                  hndw w02 w0 hw02_all hw0_all he]
                exact hw0_name
              obtain ⟨origin2, hog2, hmemo2⟩ :=
                monitor_of_total s0 w02 hndw hw02_all
              have horigin2_mem : origin2 ∈ s0.monitors :=
                List.mem_of_find?_eq_some hog2
              have hw02_s1 : w02 ∈ s1.allWorkspaces := by
                by_cases h1 : origin2.id = newId
                · have he : origin2 = mt0 := eq_of_mem_of_nodup_ids
                    Monitor.id s0.monitors hndm origin2 mt0 horigin2_mem
                    hmt0_mem (by rw [h1, hmt0_id])
                  rw [he] at hmemo2
                  exact absurd hw02_name
                    (hJ c2 (List.mem_cons_of_mem c hc2rest) w02 hmemo2)
                · by_cases h2 : origin2.id = origin.id
                  · have he : origin2 = origin := eq_of_mem_of_nodup_ids
                      Monitor.id s0.monitors hndm origin2 origin
                      horigin2_mem horigin_mem h2
                    rw [he] at hmemo2
                    by_cases hoc : origin.children.filter
                        (fun w => ¬ w.id = w0.id) = []
                    · exfalso
                      have hmemf : w02 ∈ origin.children.filter
                          (fun w => ¬ w.id = w0.id) :=
                        List.mem_filter.mpr ⟨hmemo2, by simpa using hne_id⟩
                      rw [hoc] at hmemf
                      exact List.not_mem_nil _ hmemf
                    · obtain ⟨mo, hmo_mb, hmo_r, hmo_ch⟩ := ME2 hoc
                      have hmo_mem : mo ∈ s1.monitors :=
                        List.mem_of_find?_eq_some hmo_mb
                      refine mem_allWorkspaces_of_mem s1 mo w02 hmo_mem ?_
                      rw [hmo_ch]
                      exact List.mem_filter.mpr ⟨hmemo2, by simpa using hne_id⟩
                  · have h3 := M3 origin2 horigin2_mem h2 h1
                    have hmem1 : origin2 ∈ s1.monitors :=
                      List.mem_of_find?_eq_some h3
                    exact mem_allWorkspaces_of_mem s1 origin2 w02
                      hmem1 hmemo2
              have hw02_name1 : s1.workspace_by_name c2.name = some w02 :=
                workspace_by_name_unique s1 c2.name w02 hU1 hw02_s1 hw02_name
              exact K8b c2 hc2rest w02 hw02_name1
    | none =>
      simp only [hfind] at hok
      by_cases hka : c.keep_alive = true
      · rw [if_pos hka] at hok
        cases hstep : activate_workspace (some c.name) newId s0 config with
        | mk res s1 =>
          cases res with
          | error e =>
            rw [hstep] at hok
            simp at hok
          | ok u =>
            cases u
            rw [hstep] at hok
            simp only [] at hok
            obtain ⟨wsCfg, hn1, hn2, A1, A2, A3, A4, A5, A6, A7, A8⟩ :=
              activate_ok_facts (some c.name) newId s0 s1 config mt0
                ⟨hndm, hndw, hltm, hltw⟩ hmt0 hstep
            have hfc : config.workspaces.find?
                (fun x => x.name = c.name) = some c :=
              find?_eq_some_of_nodup_key WorkspaceConfig.name
                config.workspaces hC c hc_mem
            have hcfg : wsCfg = c := by
              rw [hn1 c.name rfl, hfc]
              rfl
            have hcfg2 : c = wsCfg := hcfg.symm
            subst hcfg2
            have hJ1 : ∀ c2 ∈ rest, ∀ w ∈ (({ mt0 with children := mt0.children ++ [({ id := s0.next_id, config := c, displayed := mt0.displayed_workspace.isNone, children := [] } : Workspace)] } : Monitor)).children,
                ¬ w.config.name = c2.name := by
              intro c2 hc2 w hw hname
              rcases List.mem_append.mp hw with h1 | h1
              · exact hJ c2 (List.mem_cons_of_mem c hc2) w h1 hname
              · have hwe : w = ({ id := s0.next_id, config := c, displayed := mt0.displayed_workspace.isNone, children := [] } : Workspace) := by simpa using h1
                rw [hwe] at hname
                exact hCN2.1 (hname ▸ List.mem_map_of_mem
                  WorkspaceConfig.name hc2)
            have hF1 : ∀ w ∈ s1.allWorkspaces, ∀ c2 ∈ config.workspaces,
                w.config.name = c2.name → w.config = c2 := by
              intro w hw c2 hc2 hname
              rcases List.mem_append.mp (A5.mem_iff.mp hw) with h1 | h1
              · exact hF w h1 c2 hc2 hname
              · have hwe : w = ({ id := s0.next_id, config := c, displayed := mt0.displayed_workspace.isNone, children := [] } : Workspace) := by simpa using h1
                rw [hwe] at hname ⊢
                exact eq_of_mem_of_nodup_key WorkspaceConfig.name
                  config.workspaces hC c c2 hc_mem hc2 hname
            have hU1 : (s1.allWorkspaces.map
                (fun w => w.config.name)).Nodup := by
              refine ((A5.map (fun w => w.config.name)).symm).nodup ?_
              rw [List.map_append, List.nodup_append]
              refine ⟨hU, List.nodup_singleton _, ?_⟩
              intro x hx hx2
              simp only [List.map_cons, List.map_nil,
                List.mem_singleton] at hx2
              rcases List.mem_map.mp hx with ⟨w, hw, he⟩
              have hnone := workspace_by_name_none s0 c.name hfind w hw
              apply hnone
              rw [he]
              exact hx2
            obtain ⟨K1, K2, K3, K4, K5, K6, K7, K8a, K8b⟩ :=
              ih s1 s' ({ mt0 with children := mt0.children ++ [({ id := s0.next_id, config := c, displayed := mt0.displayed_workspace.isNone, children := [] } : Workspace)] } : Monitor) A1 A3 hSUB2 hCN2.2 hJ1 hF1 hU1 hok
            obtain ⟨mt2, hmt2, hmt2r, hmt2ka, hmt2id⟩ := K7
            refine ⟨K1, K2.trans A2, ?_, ?_, ?_, ?_, ?_, ?_, ?_⟩
            · obtain ⟨evs2, hev2⟩ := K3
              exact ⟨[WmEvent.WorkspaceActivated s0.next_id] ++ evs2,
                by rw [hev2, A6, List.append_assoc]⟩
            · have h1 : s0.next_id ≤ s1.next_id := by
                rw [A7]
                exact Nat.le_succ _
              exact le_trans h1 K4
            · intro x hx hlt
              have hlt1 : x < s1.next_id := by
                rw [A7]
                exact lt_trans hlt (Nat.lt_succ_self _)
              refine K5 x ?_ hlt1
              intro hmem1
              rcases List.mem_map.mp hmem1 with ⟨w, hw, he⟩
              rcases List.mem_append.mp (A5.mem_iff.mp hw) with h1 | h1
              · exact hx (List.mem_map.mpr ⟨w, h1, he⟩)
              · have hwe : w = ({ id := s0.next_id, config := c, displayed := mt0.displayed_workspace.isNone, children := [] } : Workspace) := by simpa using h1
                rw [hwe] at he
                rw [← he] at hlt
                simp at hlt
            · intro x mt hx hmx
              have h1 : s1.monitor_by_id x = some mt := by
                rw [A4 x hx]
                exact hmx
              exact K6 x mt hx h1
            · refine ⟨mt2, hmt2, by rw [hmt2r], ?_, ?_⟩
              · intro w hw hka2
                exact hmt2ka w (List.mem_append.mpr (Or.inl hw)) hka2
              · intro w hw
                exact hmt2id w (List.mem_append.mpr (Or.inl hw))
            · intro c2 hc2 hka2
              rcases List.mem_cons.mp hc2 with he | hc2rest
              · rw [he]
                have hNmem : ({ id := s0.next_id, config := c, displayed := mt0.displayed_workspace.isNone, children := [] } : Workspace) ∈ (({ mt0 with children := mt0.children ++ [({ id := s0.next_id, config := c, displayed := mt0.displayed_workspace.isNone, children := [] } : Workspace)] } : Monitor)).children :=
                  List.mem_append.mpr (Or.inr (List.mem_singleton.mpr rfl))
                have hNka : (({ id := s0.next_id, config := c, displayed := mt0.displayed_workspace.isNone, children := [] } : Workspace)).config.keep_alive = true := hka
                exact ⟨mt2, hmt2, ({ id := s0.next_id, config := c, displayed := mt0.displayed_workspace.isNone, children := [] } : Workspace), hmt2ka _ hNmem hNka, rfl, hNka⟩
              · exact K8a c2 hc2rest hka2
            · intro c2 hc2 w02 hw02
              rcases List.mem_cons.mp hc2 with he | hc2rest
              · rw [he, hfind] at hw02
                exact Option.noConfusion hw02
              · obtain ⟨hw02_all, hw02_name⟩ :=
                  workspace_by_name_spec s0 c2.name w02 hw02
                have hw02_s1 : w02 ∈ s1.allWorkspaces :=
                  A5.mem_iff.mpr (List.mem_append.mpr (Or.inl hw02_all))
                have h1 : s1.workspace_by_name c2.name = some w02 :=
                  workspace_by_name_unique s1 c2.name w02 hU1
                    hw02_s1 hw02_name
                exact K8b c2 hc2rest w02 h1
      · rw [if_neg hka] at hok
        simp only [] at hok
        obtain ⟨K1, K2, K3, K4, K5, K6, K7, K8a, K8b⟩ :=
          ih s0 s' mt0 ⟨hndm, hndw, hltm, hltw⟩ hmt0 hSUB2 hCN2.2
            (fun c2 hc2 => hJ c2 (List.mem_cons_of_mem c hc2)) hF hU hok
        refine ⟨K1, K2, K3, K4, K5, K6, K7, ?_, ?_⟩
        · intro c2 hc2 hka2
          rcases List.mem_cons.mp hc2 with he | hc2rest
          · rw [he] at hka2
            exact absurd hka2 hka
          · exact K8a c2 hc2rest hka2
        · intro c2 hc2 w02 hw02
          rcases List.mem_cons.mp hc2 with he | hc2rest
          · rw [he, hfind] at hw02
            exact Option.noConfusion hw02
          · exact K8b c2 hc2rest w02 hw02

/-- Full characterization of a successful `add_monitor` run, combining
the attach/emit prefix, the reconciliation loop and the final
never-empty fallback activation. -/
theorem add_monitor_ok_facts (native : NativeMonitor) (s s' : WmState)
    (config : UserConfig)
    (hwf : s.wf)
    (hC : (config.workspaces.map WorkspaceConfig.name).Nodup)
    (hF : ∀ w ∈ s.allWorkspaces, ∀ c ∈ config.workspaces,
      w.config.name = c.name → w.config = c)
    (hU : (s.allWorkspaces.map (fun w => w.config.name)).Nodup)
    (hok : add_monitor native s config = (Except.ok (), s')) :
    s'.wf ∧
    s'.monitors.map Monitor.id = s.monitors.map Monitor.id ++ [s.next_id] ∧
    (∃ evs, s'.events = s.events ++ [WmEvent.MonitorAdded s.next_id] ++ evs) ∧
    (∃ mtF, s'.monitor_by_id s.next_id = some mtF ∧ ¬ mtF.children = []) ∧
    (∀ x mt, ¬ x = s.next_id → s.monitor_by_id x = some mt →
      ∃ mt2, s'.monitor_by_id x = some mt2 ∧ mt2.rect = mt.rect ∧
        (¬ mt.children = [] → ¬ mt2.children = [])) ∧
    (∀ c ∈ config.workspaces, c.bind_to_monitor = some s.monitors.length →
      (c.keep_alive = true →
        ∃ mt2, s'.monitor_by_id s.next_id = some mt2 ∧
          ∃ w ∈ mt2.children, w.config.name = c.name) ∧
      (∀ w0, s.workspace_by_name c.name = some w0 →
        (∃ mt2, s'.monitor_by_id s.next_id = some mt2 ∧
          w0.id ∈ mt2.children.map Workspace.id) ∨
        ¬ w0.id ∈ s'.allWorkspaces.map Workspace.id)) := by
  obtain ⟨hndm, hndw, hltm, hltw⟩ := hwf
  have hmon2 : (({ monitors := s.monitors ++ [({ id := s.next_id, rect := native.working_area, children := [] } : Monitor)], pending_sync := s.pending_sync, events := s.events, next_id := s.next_id + 1 } : WmState).emit (WmEvent.MonitorAdded s.next_id)).monitors = s.monitors ++ [({ id := s.next_id, rect := native.working_area, children := [] } : Monitor)] := by
    rw [monitors_emit]
  have hids2 : (({ monitors := s.monitors ++ [({ id := s.next_id, rect := native.working_area, children := [] } : Monitor)], pending_sync := s.pending_sync, events := s.events, next_id := s.next_id + 1 } : WmState).emit (WmEvent.MonitorAdded s.next_id)).monitors.map Monitor.id
      = s.monitors.map Monitor.id ++ [s.next_id] := by
    rw [hmon2, List.map_append]
    rfl
  have hnd2 : ((({ monitors := s.monitors ++ [({ id := s.next_id, rect := native.working_area, children := [] } : Monitor)], pending_sync := s.pending_sync, events := s.events, next_id := s.next_id + 1 } : WmState).emit (WmEvent.MonitorAdded s.next_id)).monitors.map Monitor.id).Nodup := by
    rw [hids2, List.nodup_append]
    refine ⟨hndm, List.nodup_singleton _, ?_⟩
    intro x hx hx2
    simp only [List.mem_singleton] at hx2
    rcases List.mem_map.mp hx with ⟨m, hm, he⟩
    have := hltm m hm
    rw [he, hx2] at this
    exact absurd this (Nat.lt_irrefl _)
  have hallw2 : (({ monitors := s.monitors ++ [({ id := s.next_id, rect := native.working_area, children := [] } : Monitor)], pending_sync := s.pending_sync, events := s.events, next_id := s.next_id + 1 } : WmState).emit (WmEvent.MonitorAdded s.next_id)).allWorkspaces = s.allWorkspaces := by
    show ((s.monitors ++ [({ id := s.next_id, rect := native.working_area, children := [] } : Monitor)]).map Monitor.children).flatten
      = (s.monitors.map Monitor.children).flatten
    rw [List.map_append, List.flatten_append]
    simp
  have hnext2 : (({ monitors := s.monitors ++ [({ id := s.next_id, rect := native.working_area, children := [] } : Monitor)], pending_sync := s.pending_sync, events := s.events, next_id := s.next_id + 1 } : WmState).emit (WmEvent.MonitorAdded s.next_id)).next_id = s.next_id + 1 := by
    rw [next_id_emit]
  have hev2 : (({ monitors := s.monitors ++ [({ id := s.next_id, rect := native.working_area, children := [] } : Monitor)], pending_sync := s.pending_sync, events := s.events, next_id := s.next_id + 1 } : WmState).emit (WmEvent.MonitorAdded s.next_id)).events = s.events ++ [WmEvent.MonitorAdded s.next_id] := by
    rw [events_emit]
  have hwf2 : (({ monitors := s.monitors ++ [({ id := s.next_id, rect := native.working_area, children := [] } : Monitor)], pending_sync := s.pending_sync, events := s.events, next_id := s.next_id + 1 } : WmState).emit (WmEvent.MonitorAdded s.next_id)).wf := by
    refine ⟨hnd2, by rw [hallw2]; exact hndw, ?_, ?_⟩
    · intro m hm
      rw [hmon2] at hm
      rw [hnext2]
      rcases List.mem_append.mp hm with h1 | h1
      · exact lt_trans (hltm m h1) (Nat.lt_succ_self _)
      · have hme : m = ({ id := s.next_id, rect := native.working_area, children := [] } : Monitor) := by simpa using h1
        rw [hme]
        exact Nat.lt_succ_self _
    · intro w hw
      rw [hallw2] at hw
      rw [hnext2]
      exact lt_trans (hltw w hw) (Nat.lt_succ_self _)
  have hleft : s.monitors.find? (fun m => m.id = s.next_id) = none := by
    apply List.find?_eq_none.mpr
    intro m hm
    simp
    exact Nat.ne_of_lt (hltm m hm)
  have hmt0 : (({ monitors := s.monitors ++ [({ id := s.next_id, rect := native.working_area, children := [] } : Monitor)], pending_sync := s.pending_sync, events := s.events, next_id := s.next_id + 1 } : WmState).emit (WmEvent.MonitorAdded s.next_id)).monitor_by_id s.next_id = some ({ id := s.next_id, rect := native.working_area, children := [] } : Monitor) := by
    show ((({ monitors := s.monitors ++ [({ id := s.next_id, rect := native.working_area, children := [] } : Monitor)], pending_sync := s.pending_sync, events := s.events, next_id := s.next_id + 1 } : WmState).emit (WmEvent.MonitorAdded s.next_id)).monitors).find? (fun m => m.id = s.next_id) = some ({ id := s.next_id, rect := native.working_area, children := [] } : Monitor)
    rw [hmon2, List.find?_append, hleft]
    simp
  have hmb_old : ∀ m ∈ s.monitors, (({ monitors := s.monitors ++ [({ id := s.next_id, rect := native.working_area, children := [] } : Monitor)], pending_sync := s.pending_sync, events := s.events, next_id := s.next_id + 1 } : WmState).emit (WmEvent.MonitorAdded s.next_id)).monitor_by_id m.id = some m := by
    intro m hm
    show ((({ monitors := s.monitors ++ [({ id := s.next_id, rect := native.working_area, children := [] } : Monitor)], pending_sync := s.pending_sync, events := s.events, next_id := s.next_id + 1 } : WmState).emit (WmEvent.MonitorAdded s.next_id)).monitors).find? (fun x => x.id = m.id) = some m
    rw [hmon2]
    exact find?_eq_some_of_nodup Monitor.id (s.monitors ++ [({ id := s.next_id, rect := native.working_area, children := [] } : Monitor)])
      (by rw [← hmon2]; exact hnd2) m (List.mem_append.mpr (Or.inl hm))
  have hbn_name : s.workspace_by_name = (({ monitors := s.monitors ++ [({ id := s.next_id, rect := native.working_area, children := [] } : Monitor)], pending_sync := s.pending_sync, events := s.events, next_id := s.next_id + 1 } : WmState).emit (WmEvent.MonitorAdded s.next_id)).workspace_by_name := by
    funext n
    unfold WmState.workspace_by_name
    rw [hallw2]
  unfold add_monitor at hok
  simp only [] at hok
  cases hloop : add_monitor_loop s.next_id (config.workspaces.filter (fun c => c.bind_to_monitor = some s.monitors.length)) (({ monitors := s.monitors ++ [({ id := s.next_id, rect := native.working_area, children := [] } : Monitor)], pending_sync := s.pending_sync, events := s.events, next_id := s.next_id + 1 } : WmState).emit (WmEvent.MonitorAdded s.next_id)) config with
  | mk res s3 =>
    cases res with
    | error e =>
      rw [hloop] at hok
      simp at hok
    | ok u =>
      cases u
      rw [hloop] at hok
      simp only [] at hok
      obtain ⟨K1, K2, K3, K4, K5, K6, K7, K8a, K8b⟩ :=
        add_monitor_loop_ok config hC s.next_id (config.workspaces.filter (fun c => c.bind_to_monitor = some s.monitors.length)) (({ monitors := s.monitors ++ [({ id := s.next_id, rect := native.working_area, children := [] } : Monitor)], pending_sync := s.pending_sync, events := s.events, next_id := s.next_id + 1 } : WmState).emit (WmEvent.MonitorAdded s.next_id)) s3 ({ id := s.next_id, rect := native.working_area, children := [] } : Monitor)
          hwf2 hmt0
          (fun c hc => List.mem_of_mem_filter hc)
          (List.Nodup.sublist (List.Sublist.map _
            (List.filter_sublist _)) hC)
          (fun c hc w hw => absurd hw (List.not_mem_nil w))
          (by rw [hallw2]; exact hF)
          (by rw [hallw2]; exact hU)
          hloop
      obtain ⟨mtL, hmtL, hmtLr, hmtLka, hmtLid⟩ := K7
      rw [hmtL] at hok
      simp only [] at hok
      by_cases hcc : mtL.child_count = 0
      · rw [if_pos hcc] at hok
        obtain ⟨wsCfg, hn1, hn2, A1, A2, A3, A4, A5, A6, A7, A8⟩ :=
          activate_ok_facts none s.next_id s3 s' config mtL K1 hmtL hok
        have hmon_final : s'.monitor_by_id s.next_id = some { mtL with children := mtL.children ++ [({ id := s3.next_id, config := wsCfg, displayed := mtL.displayed_workspace.isNone, children := [] } : Workspace)] } := A3
        have hnext3 : s.next_id < s3.next_id := by
          have h1 := K4
          rw [hnext2] at h1
          exact lt_of_lt_of_le (Nat.lt_succ_self _) h1
        refine ⟨A1, ?_, ?_, ?_, ?_, ?_⟩
        · rw [A2, K2, hids2]
        · obtain ⟨evs1, hev1⟩ := K3
          refine ⟨evs1 ++ [WmEvent.WorkspaceActivated s3.next_id], ?_⟩
          rw [A6, hev1, hev2]
          simp [List.append_assoc]
        · refine ⟨_, hmon_final, ?_⟩
          simp
        · intro x mt hx hmx
          have hmem : mt ∈ s.monitors := List.mem_of_find?_eq_some hmx
          have hmid : mt.id = x := by simpa using List.find?_some hmx
          have h2 : (({ monitors := s.monitors ++ [({ id := s.next_id, rect := native.working_area, children := [] } : Monitor)], pending_sync := s.pending_sync, events := s.events, next_id := s.next_id + 1 } : WmState).emit (WmEvent.MonitorAdded s.next_id)).monitor_by_id x = some mt := by
            rw [← hmid]
            exact hmb_old mt hmem
          obtain ⟨mt2, hmt2, hmt2r, hmt2ne⟩ := K6 x mt hx h2
          refine ⟨mt2, ?_, hmt2r, hmt2ne⟩
          rw [A4 x hx]
          exact hmt2
        · intro c hc hbind
          have hcb : c ∈ (config.workspaces.filter (fun c => c.bind_to_monitor = some s.monitors.length)) := by
            rw [List.mem_filter]
            exact ⟨hc, by simpa using hbind⟩
          constructor
          · intro hka
            obtain ⟨mt2, hmt2, w, hwmem, hwname, hwka⟩ := K8a c hcb hka
            have he : mt2 = mtL := by
              rw [hmtL] at hmt2
              exact (Option.some.inj hmt2).symm
            rw [he] at hwmem
            refine ⟨_, hmon_final, w, List.mem_append.mpr (Or.inl hwmem),
              hwname⟩
          · intro w0 hw0
            have hw0b : (({ monitors := s.monitors ++ [({ id := s.next_id, rect := native.working_area, children := [] } : Monitor)], pending_sync := s.pending_sync, events := s.events, next_id := s.next_id + 1 } : WmState).emit (WmEvent.MonitorAdded s.next_id)).workspace_by_name c.name = some w0 := by
              rw [← hbn_name]
              exact hw0
            have hw0_all : w0 ∈ s.allWorkspaces :=
              (workspace_by_name_spec s c.name w0 hw0).1
            have hw0_lt : w0.id < s.next_id := hltw w0 hw0_all
            rcases K8b c hcb w0 hw0b with h1 | h1
            · obtain ⟨mt2, hmt2, hidm⟩ := h1
              have he : mt2 = mtL := by
                rw [hmtL] at hmt2
                exact (Option.some.inj hmt2).symm
              rw [he] at hidm
              refine Or.inl ⟨_, hmon_final, ?_⟩
              rw [List.map_append]
              exact List.mem_append.mpr (Or.inl hidm)
            · refine Or.inr ?_
              intro hmem'
              apply h1
              rcases List.mem_map.mp hmem' with ⟨w, hw, he⟩
              rcases List.mem_append.mp (A5.mem_iff.mp hw) with h2 | h2
              · exact List.mem_map.mpr ⟨w, h2, he⟩
              · exfalso
                have hwe : w = ({ id := s3.next_id, config := wsCfg, displayed := mtL.displayed_workspace.isNone, children := [] } : Workspace) := by simpa using h2
                rw [hwe] at he
                have : w0.id = s3.next_id := he.symm
                rw [this] at hw0_lt
                exact absurd (lt_trans hnext3 hw0_lt) (Nat.lt_irrefl _)
      · rw [if_neg hcc] at hok
        rw [Prod.mk.injEq] at hok
        have hse := hok.2
        subst hse
        have hne_children : ¬ mtL.children = [] := by
          intro h
          apply hcc
          show mtL.children.length = 0
          rw [h]
          rfl
        refine ⟨K1, ?_, ?_, ⟨mtL, hmtL, hne_children⟩, ?_, ?_⟩
        · rw [K2, hids2]
        · obtain ⟨evs1, hev1⟩ := K3
          refine ⟨evs1, ?_⟩
          rw [hev1, hev2]
        · intro x mt hx hmx
          have hmem : mt ∈ s.monitors := List.mem_of_find?_eq_some hmx
          have hmid : mt.id = x := by simpa using List.find?_some hmx
          have h2 : (({ monitors := s.monitors ++ [({ id := s.next_id, rect := native.working_area, children := [] } : Monitor)], pending_sync := s.pending_sync, events := s.events, next_id := s.next_id + 1 } : WmState).emit (WmEvent.MonitorAdded s.next_id)).monitor_by_id x = some mt := by
            rw [← hmid]
            exact hmb_old mt hmem
          exact K6 x mt hx h2
        · intro c hc hbind
          have hcb : c ∈ (config.workspaces.filter (fun c => c.bind_to_monitor = some s.monitors.length)) := by
            rw [List.mem_filter]
            exact ⟨hc, by simpa using hbind⟩
          constructor
          · intro hka
            obtain ⟨mt2, hmt2, w, hwmem, hwname, hwka⟩ := K8a c hcb hka
            exact ⟨mt2, hmt2, w, hwmem, hwname⟩
          · intro w0 hw0
            have hw0b : (({ monitors := s.monitors ++ [({ id := s.next_id, rect := native.working_area, children := [] } : Monitor)], pending_sync := s.pending_sync, events := s.events, next_id := s.next_id + 1 } : WmState).emit (WmEvent.MonitorAdded s.next_id)).workspace_by_name c.name = some w0 := by
              rw [← hbn_name]
              exact hw0
            exact K8b c hcb w0 hw0b

/-! ## Claims C7, C1 -/

/-- C7: `add_monitor` attaches the freshly constructed monitor as the
last child of the root (its fresh id is appended at the end of the
monitor id list), emits `MonitorAdded` before any workspace-binding
reconciliation event, and for every configured workspace bound to the
new monitor's index: an already-existing workspace of that name ends up
on the new monitor (or is destroyed by a later cleanup of the same
command), and a keep-alive one is activated there when none exists.
The final conjunct is the "only when keep-alive" restriction of the
reconciliation loop: an iteration whose configuration has no existing
workspace of that name and is not keep-alive performs no action at all —
the loop run equals the run on the remaining configurations, so no
workspace is activated, no node is attached and no event is emitted for
it.  A reconciliation that activated such a configuration would change
the state and falsify this equation. -/
theorem C7_add_monitor_binding (native : NativeMonitor) (s s' : WmState)
    (config : UserConfig)
    (hwf : s.wf)
    (hC : (config.workspaces.map WorkspaceConfig.name).Nodup)
    (hF : ∀ w ∈ s.allWorkspaces, ∀ c ∈ config.workspaces,
      w.config.name = c.name → w.config = c)
    (hU : (s.allWorkspaces.map (fun w => w.config.name)).Nodup)
    (hok : add_monitor native s config = (Except.ok (), s')) :
    s'.monitors.map Monitor.id = s.monitors.map Monitor.id ++ [s.next_id] ∧
    (∃ evs, s'.events = s.events
      ++ [WmEvent.MonitorAdded s.next_id] ++ evs) ∧
    (∀ c ∈ config.workspaces, c.bind_to_monitor = some s.monitors.length →
      (c.keep_alive = true →
        ∃ mt, s'.monitor_by_id s.next_id = some mt ∧
          ∃ w ∈ mt.children, w.config.name = c.name) ∧
      (∀ w0, s.workspace_by_name c.name = some w0 →
        (∃ mt, s'.monitor_by_id s.next_id = some mt ∧
          w0.id ∈ mt.children.map Workspace.id) ∨
        ¬ w0.id ∈ s'.allWorkspaces.map Workspace.id)) ∧
    (∀ (cs : List WorkspaceConfig) (c : WorkspaceConfig) (t : WmState),
      t.workspace_by_name c.name = none → c.keep_alive = false →
      add_monitor_loop s.next_id (c :: cs) t config
        = add_monitor_loop s.next_id cs t config) := by
  obtain ⟨h1, h2, h3, h4, h5, h6⟩ :=
    add_monitor_ok_facts native s s' config hwf hC hF hU hok
  refine ⟨h2, h3, h6, ?_⟩
  intro cs c t hnone hka
  simp only [add_monitor_loop, hnone]
  rw [if_neg (show ¬ c.keep_alive = true from by simp [hka])]

theorem C7_add_monitor_binding_witness :
    (add_monitor exNative exSt exCfg).2.monitors.map Monitor.id
        = exSt.monitors.map Monitor.id ++ [exSt.next_id] ∧
    (∃ evs, (add_monitor exNative exSt exCfg).2.events
        = exSt.events ++ [WmEvent.MonitorAdded exSt.next_id] ++ evs) ∧
    (∀ c ∈ exCfg.workspaces,
      c.bind_to_monitor = some exSt.monitors.length →
      (c.keep_alive = true →
        ∃ mt, (add_monitor exNative exSt exCfg).2.monitor_by_id
            exSt.next_id = some mt ∧
          ∃ w ∈ mt.children, w.config.name = c.name) ∧
      (∀ w0, exSt.workspace_by_name c.name = some w0 →
        (∃ mt, (add_monitor exNative exSt exCfg).2.monitor_by_id
            exSt.next_id = some mt ∧
          w0.id ∈ mt.children.map Workspace.id) ∨
        ¬ w0.id ∈ (add_monitor exNative exSt exCfg).2.allWorkspaces.map
          Workspace.id)) ∧
    (∀ (cs : List WorkspaceConfig) (c : WorkspaceConfig) (t : WmState),
      t.workspace_by_name c.name = none → c.keep_alive = false →
      add_monitor_loop exSt.next_id (c :: cs) t exCfg
        = add_monitor_loop exSt.next_id cs t exCfg) :=
  C7_add_monitor_binding exNative exSt (add_monitor exNative exSt exCfg).2
    exCfg (by decide) (by decide) (by decide) (by decide) (by rfl)

/-- C1: commands never leave a monitor in the tree with zero children:
after a successful `add_monitor` every monitor — including the newly
added one, which receives at least one workspace — is nonempty provided
all monitors were nonempty before, and after a successful
`move_workspace_to_monitor` every monitor is again nonempty (the origin
receives a freshly activated replacement when its last workspace was
moved away, and the cleanup destroys at most one workspace of the
necessarily multi-child target). -/
theorem C1_monitor_never_empty (config : UserConfig)
    (hC : (config.workspaces.map WorkspaceConfig.name).Nodup) :
    (∀ (native : NativeMonitor) (s s' : WmState), s.wf →
      (∀ w ∈ s.allWorkspaces, ∀ c ∈ config.workspaces,
        w.config.name = c.name → w.config = c) →
      (s.allWorkspaces.map (fun w => w.config.name)).Nodup →
      (∀ m ∈ s.monitors, ¬ m.children = []) →
      add_monitor native s config = (Except.ok (), s') →
      ∀ m ∈ s'.monitors, ¬ m.children = []) ∧
    (∀ (wsId monitorIndex : Nat) (s s' : WmState), s.wf →
      (∀ m ∈ s.monitors, ¬ m.children = []) →
      move_workspace_to_monitor wsId monitorIndex s config
        = (Except.ok (), s') →
      ∀ m ∈ s'.monitors, ¬ m.children = []) := by
  constructor
  · intro native s s' hwf hF hU hne hok m' hm'
    obtain ⟨hwf2, hids, hev, ⟨mtF, hmtF, hmtFne⟩, hpres, hbind⟩ :=
      add_monitor_ok_facts native s s' config hwf hC hF hU hok
    have hm'id : s'.monitor_by_id m'.id = some m' :=
      find?_eq_some_of_nodup Monitor.id s'.monitors hwf2.1 m' hm'
    have hmm : m'.id ∈ s.monitors.map Monitor.id ++ [s.next_id] := by
      rw [← hids]
      exact List.mem_map_of_mem _ hm'
    rcases List.mem_append.mp hmm with h1 | h1
    · rcases List.mem_map.mp h1 with ⟨m, hm, hmid⟩
      have hxne : ¬ m'.id = s.next_id := by
        rw [← hmid]
        exact Nat.ne_of_lt (hwf.2.2.1 m hm)
      have hmb : s.monitor_by_id m'.id = some m := by
        rw [← hmid]
        exact find?_eq_some_of_nodup Monitor.id s.monitors hwf.1 m hm
      obtain ⟨mt2, hmt2, hmt2r, hmt2ne⟩ := hpres m'.id m hxne hmb
      have he : m' = mt2 := by
        rw [hm'id] at hmt2
        exact Option.some.inj hmt2
      rw [he]
      exact hmt2ne (hne m hm)
    · have h1e : m'.id = s.next_id := by simpa using h1
      have he : m' = mtF := by
        rw [← h1e] at hmtF
        rw [hm'id] at hmtF
        exact Option.some.inj hmtF
      rw [he]
      exact hmtFne
  · intro wsId monitorIndex s s' hwf hne hok m' hm'
    unfold move_workspace_to_monitor at hok
    cases hidx : s.monitors[monitorIndex]? with
    | none =>
      simp only [hidx] at hok
      simp at hok
    | some target =>
      cases hog : s.monitor_of wsId with
      | none =>
        simp only [hidx, hog] at hok
        simp at hok
      | some origin =>
        simp only [hidx, hog] at hok
        by_cases hsame : origin.id = target.id
        · rw [if_pos hsame] at hok
          rw [Prod.mk.injEq] at hok
          have hse := hok.2
          subst hse
          exact hne m' hm'
        · rw [if_neg hsame] at hok
          obtain ⟨hmemO, w, hwmem, hwid⟩ := monitor_of_spec s wsId origin hog
          obtain ⟨hndm, hndw, hltm, hltw⟩ := hwf
          have hw_all : w ∈ s.allWorkspaces :=
            mem_allWorkspaces_of_mem s origin w hmemO hwmem
          have hws : s.workspace_by_id wsId = some w := by
            rw [← hwid]
            exact workspace_by_id_of_mem s w hndw hw_all
          have htg_mem : target ∈ s.monitors := by
            rcases List.getElem?_eq_some_iff.mp hidx with ⟨hlen, he⟩
            rw [← he]
            exact List.getElem_mem hlen
          have htg : s.monitor_by_id target.id = some target :=
            find?_eq_some_of_nodup Monitor.id s.monitors hndm target htg_mem
          obtain ⟨Mwf, Mids, M3, ⟨mt, hmt, hmtr, hmtc⟩, Mdisp, ME1, ME2,
              Mev, Mnext, Mnonew, Mgone, Mreps⟩ :=
            move_impl_ok s s' config wsId target.id origin target w
              ⟨hndm, hndw, hltm, hltw⟩ hog htg hws hwmem hsame hok
          have hm'id : s'.monitor_by_id m'.id = some m' :=
            find?_eq_some_of_nodup Monitor.id s'.monitors Mwf.1 m' hm'
          have hmm : m'.id ∈ s.monitors.map Monitor.id := by
            rw [← Mids]
            exact List.mem_map_of_mem _ hm'
          rcases List.mem_map.mp hmm with ⟨m, hm, hmid⟩
          by_cases h1 : m'.id = origin.id
          · by_cases hoc : origin.children.filter
                (fun w2 => ¬ w2.id = wsId) = []
            · obtain ⟨rep, hrep_ch, hrep_disp, hrep_id, hrep_cfg,
                hrep_mb, hrep_pend⟩ := ME1 hoc
              have he := hrep_mb
              rw [← h1, hm'id] at he
              have he2 := Option.some.inj he
              rw [he2]
              simp
            · obtain ⟨mo, hmo_mb, hmo_r, hmo_ch⟩ := ME2 hoc
              have he : m' = mo := by
                rw [← h1] at hmo_mb
                rw [hm'id] at hmo_mb
                exact Option.some.inj hmo_mb
              rw [he, hmo_ch]
              exact hoc
          · by_cases h2 : m'.id = target.id
            · have he : m' = mt := by
                rw [← h2] at hmt
                rw [hm'id] at hmt
                exact Option.some.inj hmt
              rw [he, hmtc]
              intro hnil
              have hperm := sortByKey_perm (workspaceSortKey config)
                (maybeDestroy (target.children ++ [wsDpi target.rect w]))
              rw [hnil] at hperm
              have hmd : maybeDestroy (target.children
                  ++ [wsDpi target.rect w]) = [] := hperm.symm.eq_nil
              unfold maybeDestroy at hmd
              cases hfd : (target.children ++ [wsDpi target.rect w]).find?
                  Workspace.destroyable with
              | none =>
                rw [hfd] at hmd
                simp at hmd
              | some d =>
                rw [hfd] at hmd
                rw [List.filter_eq_nil_iff] at hmd
                rcases List.exists_mem_of_ne_nil target.children
                  (hne target htg_mem) with ⟨t0, ht0⟩
                have h3 := hmd t0 (List.mem_append.mpr (Or.inl ht0))
                have h4 := hmd (wsDpi target.rect w) (List.mem_append.mpr
                  (Or.inr (List.mem_singleton.mpr rfl)))
                simp at h3 h4
                have hdisj := children_ids_disjoint s.monitors hndw target
                  origin htg_mem hmemO (fun hh => hsame hh.symm)
                  t0 ht0 w hwmem
                apply hdisj
                rw [h3, ← h4]
                rfl
            · have h3 := M3 m hm (by rw [hmid]; exact h1)
                (by rw [hmid]; exact h2)
              rw [hmid] at h3
              have he : m' = m := by
                rw [hm'id] at h3
                exact Option.some.inj h3
              rw [he]
              exact hne m hm

theorem C1_monitor_never_empty_witness :
    (∀ m ∈ (add_monitor exNative exSt exCfg).2.monitors,
      ¬ m.children = []) ∧
    (∀ m ∈ (move_workspace_to_monitor 10 1 exSt exCfg).2.monitors,
      ¬ m.children = []) :=
  ⟨(C1_monitor_never_empty exCfg (by decide)).1 exNative exSt
      (add_monitor exNative exSt exCfg).2 (by decide) (by decide)
      (by decide) (by decide) (by rfl),
    (C1_monitor_never_empty exCfg (by decide)).2 10 1 exSt
      (move_workspace_to_monitor 10 1 exSt exCfg).2 (by decide)
      (by decide) (by rfl)⟩

end GlazeWM
